import Mathlib

/-!
# rocBLAS routine invocation contract: `rocblas_spr_strided_batched_impl`

Shallow embedding of `library/src/blas2/rocblas_spr_strided_batched.cpp`.

* Pointers are addresses (`Nat`), `nullptr` is address `0`, so the C++ test `!p`
  is `p = 0`.
* `rocblas_int` and `rocblas_stride` are `Int`; the function only compares them
  with zero and passes them on, so no machine arithmetic takes place.
* The device and host memory the callees work on is an abstract state `σ`.
  The kernel invoker transforms it, the numeric check and the logging macros
  only inspect it.
* Every call of a callee that is not part of this translation unit
  (`log_trace`, `log_bench`, `log_profile`, `rocblas_spr_check_numerics`,
  `rocblas_spr_template`) is recorded, with its arguments, in an event trace.
-/

namespace RocblasSpr

/-- Status codes. The five codes the translation unit names, the two further
codes of the status surface, and `other` for every remaining value of the
enumeration (a callee or the size-query macro may return one). -/
inductive rocblas_status where
  | rocblas_status_success
  | rocblas_status_invalid_handle
  | rocblas_status_invalid_value
  | rocblas_status_invalid_size
  | rocblas_status_invalid_pointer
  | rocblas_status_memory_error
  | rocblas_status_internal_error
  | other (code : Nat)
  deriving DecidableEq, Repr

/-- Fill mode. `other` stands for an integer that is none of the enumerators. -/
inductive rocblas_fill where
  | rocblas_fill_upper
  | rocblas_fill_lower
  | rocblas_fill_full
  | other (value : Int)
  deriving DecidableEq, Repr

/-- Scalar locality of a handle. -/
inductive rocblas_pointer_mode where
  | rocblas_pointer_mode_host
  | rocblas_pointer_mode_device
  deriving DecidableEq, Repr

/-- Element type `T` of the template instantiation. -/
inductive ElemType where
  | float
  | double
  | rocblas_float_complex
  | rocblas_double_complex
  | unspecialized
  deriving DecidableEq, Repr

/-- Address of a buffer or of a scalar; `0` is the null pointer. -/
abbrev Ptr := Nat

/-- The fields of `*handle` this routine and its macros look at. -/
structure _rocblas_handle where
  layer_mode : Nat
  check_numerics : Int
  pointer_mode : rocblas_pointer_mode
  is_device_memory_size_query : Bool
  deriving DecidableEq, Repr

/-- A `rocblas_handle` is a pointer to the handle object; `none` is `nullptr`. -/
abbrev rocblas_handle := Option _rocblas_handle

/-- Argument list of one `rocblas_spr_check_numerics` call. -/
structure CheckArgs where
  function_name : String
  handle : _rocblas_handle
  n : Int
  A : Ptr
  offset_a : Int
  stride_a : Int
  x : Ptr
  offset_x : Int
  inc_x : Int
  stride_x : Int
  batch_count : Int
  check_numerics : Int
  is_input : Bool
  deriving DecidableEq, Repr

/-- Argument list of one `rocblas_spr_template` call. -/
structure TemplateArgs where
  handle : _rocblas_handle
  uplo : rocblas_fill
  n : Int
  alpha : Ptr
  x : Ptr
  offset_x : Int
  incx : Int
  stridex : Int
  AP : Ptr
  offset_A : Int
  strideA : Int
  batch_count : Int
  deriving DecidableEq, Repr

/-- Argument list of the `log_trace` call (lines 49-59). -/
structure TraceArgs where
  name : String
  uplo : rocblas_fill
  n : Int
  alpha_value : String
  x : Ptr
  incx : Int
  stridex : Int
  AP : Ptr
  strideA : Int
  batch_count : Int
  deriving DecidableEq, Repr

/-- Argument list of the `log_bench` call (lines 62-77). -/
structure BenchArgs where
  command : String
  precision : String
  uplo_letter : Char
  n : Int
  alpha_value : String
  incx : Int
  stride_x : Int
  stride_a : Int
  batch_count : Int
  deriving DecidableEq, Repr

/-- Argument list of the `log_profile` call (lines 80-93). -/
structure ProfileArgs where
  name : String
  uplo_letter : Char
  N : Int
  incx : Int
  stride_x : Int
  stride_a : Int
  batch_count : Int
  deriving DecidableEq, Repr

/-- One call of a callee outside the translation unit. -/
inductive Event where
  | log_trace (a : TraceArgs)
  | log_bench (a : BenchArgs)
  | log_profile (a : ProfileArgs)
  | rocblas_spr_check_numerics (a : CheckArgs)
  | rocblas_spr_template (a : TemplateArgs)
  deriving DecidableEq, Repr

/-- The event is a logging call. -/
def Event.isLog : Event → Bool
  | .log_trace _ => true
  | .log_bench _ => true
  | .log_profile _ => true
  | _ => false

/-- The event is a numeric check. -/
def Event.isCheck : Event → Bool
  | .rocblas_spr_check_numerics _ => true
  | _ => false

/-- The event is a kernel invocation. -/
def Event.isKernel : Event → Bool
  | .rocblas_spr_template _ => true
  | _ => false

/-- Everything the translation unit takes from headers that are not part of it:
the layer-mode bits, the status the size-query macro returns, the logging
helpers, the numeric check and the kernel invoker. -/
structure Env (σ : Type) where
  rocblas_layer_mode_log_trace : Nat
  rocblas_layer_mode_log_bench : Nat
  rocblas_layer_mode_log_profile : Nat
  size_query_status : rocblas_status
  rocblas_fill_letter : rocblas_fill → Char
  rocblas_precision_string : ElemType → String
  LOG_TRACE_SCALAR_VALUE : _rocblas_handle → σ → Ptr → String
  LOG_BENCH_SCALAR_VALUE : _rocblas_handle → σ → Ptr → String
  rocblas_spr_check_numerics : σ → CheckArgs → rocblas_status
  rocblas_spr_template : σ → TemplateArgs → rocblas_status × σ

/-- What one call leaves behind: the returned status, the callee calls it made
in program order, and the memory state. -/
structure Outcome (σ : Type) where
  status : rocblas_status
  events : List Event
  state : σ

/-- The variable template `rocblas_spr_strided_batched_name<T>` (lines 10-21). -/
def rocblas_spr_strided_batched_name : ElemType → String
  | .float => "rocblas_sspr_strided_batched"
  | .double => "rocblas_dspr_strided_batched"
  | .rocblas_float_complex => "rocblas_cspr_strided_batched"
  | .rocblas_double_complex => "rocblas_zspr_strided_batched"
  | .unspecialized => "unknown"

/-- The macro `RETURN_ZERO_DEVICE_MEMORY_SIZE_IF_QUERIED(handle)` (line 38); its
definition is in a header outside the translation unit. `some s` means the
macro returns `s` from the enclosing function, `none` means it falls through.
It returns exactly when the handle is in device-memory-size-query mode. -/
def RETURN_ZERO_DEVICE_MEMORY_SIZE_IF_QUERIED {σ : Type} (env : Env σ)
    (handle : _rocblas_handle) : Option rocblas_status :=
  if handle.is_device_memory_size_query then some env.size_query_status else none

/-- The logging block, lines 42-94: the logging calls made for a layer mode. -/
def logging {σ : Type} (env : Env σ) (T : ElemType) (w : σ) (handle : _rocblas_handle)
    (layer_mode : Nat) (uplo : rocblas_fill) (n : Int) (alpha x : Ptr) (incx stridex : Int)
    (AP : Ptr) (strideA batch_count : Int) : List Event :=
  if layer_mode &&& (env.rocblas_layer_mode_log_trace ||| env.rocblas_layer_mode_log_bench
      ||| env.rocblas_layer_mode_log_profile) ≠ 0 then
    let uplo_letter := env.rocblas_fill_letter uplo
    (if layer_mode &&& env.rocblas_layer_mode_log_trace ≠ 0 then
      [Event.log_trace
        { name := rocblas_spr_strided_batched_name T, uplo := uplo, n := n,
          alpha_value := env.LOG_TRACE_SCALAR_VALUE handle w alpha, x := x, incx := incx,
          stridex := stridex, AP := AP, strideA := strideA, batch_count := batch_count }]
    else [])
    ++ (if layer_mode &&& env.rocblas_layer_mode_log_bench ≠ 0 then
      [Event.log_bench
        { command := "./rocblas-bench -f spr_strided_batched -r",
          precision := env.rocblas_precision_string T, uplo_letter := uplo_letter, n := n,
          alpha_value := env.LOG_BENCH_SCALAR_VALUE handle w alpha, incx := incx,
          stride_x := stridex, stride_a := strideA, batch_count := batch_count }]
    else [])
    ++ (if layer_mode &&& env.rocblas_layer_mode_log_profile ≠ 0 then
      [Event.log_profile
        { name := rocblas_spr_strided_batched_name T, uplo_letter := uplo_letter, N := n,
          incx := incx, stride_x := stridex, stride_a := strideA,
          batch_count := batch_count }]
    else [])
  else []

/-- The argument list both `rocblas_spr_check_numerics` calls are made with
(lines 111-123 and 137-149); only `is_input` differs between the two. -/
def checkArgs (T : ElemType) (handle : _rocblas_handle) (n : Int) (x : Ptr)
    (incx stridex : Int) (AP : Ptr) (strideA batch_count : Int) (check_numerics : Int)
    (is_input : Bool) : CheckArgs :=
  { function_name := rocblas_spr_strided_batched_name T, handle := handle, n := n, A := AP,
    offset_a := 0, stride_a := strideA, x := x, offset_x := 0, inc_x := incx,
    stride_x := stridex, batch_count := batch_count, check_numerics := check_numerics,
    is_input := is_input }

/-- The same argument list with another `is_input` flag. -/
def CheckArgs.withIsInput (a : CheckArgs) (is_input : Bool) : CheckArgs :=
  { a with is_input := is_input }

/-- The argument list of the `rocblas_spr_template` call (lines 128-129). -/
def templateArgs (handle : _rocblas_handle) (uplo : rocblas_fill) (n : Int) (alpha x : Ptr)
    (incx stridex : Int) (AP : Ptr) (strideA batch_count : Int) : TemplateArgs :=
  { handle := handle, uplo := uplo, n := n, alpha := alpha, x := x, offset_x := 0,
    incx := incx, stridex := stridex, AP := AP, offset_A := 0, strideA := strideA,
    batch_count := batch_count }

open rocblas_status rocblas_fill in
/-- The function `rocblas_spr_strided_batched_impl<T>` (lines 23-154), run on
the memory state `w`. -/
def rocblas_spr_strided_batched_impl {σ : Type} (env : Env σ) (T : ElemType) (w : σ)
    (handle : rocblas_handle) (uplo : rocblas_fill) (n : Int) (alpha x : Ptr)
    (incx stridex : Int) (AP : Ptr) (strideA batch_count : Int) : Outcome σ :=
  match handle with
  | none => ⟨rocblas_status_invalid_handle, [], w⟩
  | some h =>
    match RETURN_ZERO_DEVICE_MEMORY_SIZE_IF_QUERIED env h with
    | some s => ⟨s, [], w⟩
    | none =>
      let layer_mode := h.layer_mode
      let check_numerics := h.check_numerics
      let logs := logging env T w h layer_mode uplo n alpha x incx stridex AP strideA batch_count
      if uplo ≠ rocblas_fill_lower ∧ uplo ≠ rocblas_fill_upper then
        ⟨rocblas_status_invalid_value, logs, w⟩
      else if n < 0 ∨ incx = 0 ∨ batch_count < 0 then
        ⟨rocblas_status_invalid_size, logs, w⟩
      else if n = 0 ∨ batch_count = 0 then
        ⟨rocblas_status_success, logs, w⟩
      else if x = 0 ∨ AP = 0 ∨ alpha = 0 then
        ⟨rocblas_status_invalid_pointer, logs, w⟩
      else
        let cargs := checkArgs T h n x incx stridex AP strideA batch_count check_numerics
        let targs := templateArgs h uplo n alpha x incx stridex AP strideA batch_count
        let pre := env.rocblas_spr_check_numerics w (cargs true)
        if check_numerics ≠ 0 ∧ pre ≠ rocblas_status_success then
          ⟨pre, logs ++ [Event.rocblas_spr_check_numerics (cargs true)], w⟩
        else
          let evs := logs ++
            (if check_numerics ≠ 0 then [Event.rocblas_spr_check_numerics (cargs true)] else [])
          let r := env.rocblas_spr_template w targs
          let status := r.1
          let evs := evs ++ [Event.rocblas_spr_template targs]
          if status ≠ rocblas_status_success then
            ⟨status, evs, r.2⟩
          else
            let post := env.rocblas_spr_check_numerics r.2 (cargs false)
            if check_numerics ≠ 0 ∧ post ≠ rocblas_status_success then
              ⟨post, evs ++ [Event.rocblas_spr_check_numerics (cargs false)], r.2⟩
            else
              ⟨status,
                evs ++ (if check_numerics ≠ 0 then
                  [Event.rocblas_spr_check_numerics (cargs false)] else []),
                r.2⟩

/-- No numeric check and no kernel invocation took place in the call. -/
def Outcome.noCompute {σ : Type} (o : Outcome σ) : Prop :=
  ∀ e ∈ o.events, e.isCheck = false ∧ e.isKernel = false

/-- A test double for the headers: the usual layer-mode bits, a numeric check
answering `pre` on inputs and `post` on outputs, and a kernel answering `kern`
and bumping the (counter) memory state. -/
def stubEnv (pre post kern : rocblas_status) : Env Nat where
  rocblas_layer_mode_log_trace := 1
  rocblas_layer_mode_log_bench := 2
  rocblas_layer_mode_log_profile := 4
  size_query_status := rocblas_status.other 10
  rocblas_fill_letter := fun u =>
    match u with
    | .rocblas_fill_upper => 'U'
    | .rocblas_fill_lower => 'L'
    | .rocblas_fill_full => 'F'
    | .other _ => ' '
  rocblas_precision_string := fun _ => "s"
  LOG_TRACE_SCALAR_VALUE := fun _ _ _ => "alpha"
  LOG_BENCH_SCALAR_VALUE := fun _ _ _ => "--alpha"
  rocblas_spr_check_numerics := fun _ a => if a.is_input then pre else post
  rocblas_spr_template := fun w _ => (kern, w + 1)

/-- A handle object with the given logging mask and numeric-check flag, host
pointer mode, not queried for its device memory size. -/
def stubHandle (layer_mode : Nat) (check_numerics : Int) : _rocblas_handle :=
  { layer_mode := layer_mode, check_numerics := check_numerics,
    pointer_mode := rocblas_pointer_mode.rocblas_pointer_mode_host,
    is_device_memory_size_query := false }

/-- The gate conditions as the contract words them: fill mode lower or upper,
`n > 0`, `incx != 0`, `batch_count > 0`, and `x`, `AP`, `alpha` all non-null. -/
def passesValidation (uplo : rocblas_fill) (n : Int) (alpha x : Ptr) (incx : Int) (AP : Ptr)
    (batch_count : Int) : Prop :=
  (uplo = rocblas_fill.rocblas_fill_lower ∨ uplo = rocblas_fill.rocblas_fill_upper)
    ∧ 0 < n ∧ incx ≠ 0 ∧ 0 < batch_count ∧ x ≠ 0 ∧ AP ≠ 0 ∧ alpha ≠ 0

instance (uplo : rocblas_fill) (n : Int) (alpha x : Ptr) (incx : Int) (AP : Ptr)
    (batch_count : Int) : Decidable (passesValidation uplo n alpha x incx AP batch_count) := by
  unfold passesValidation
  infer_instance

/-- The calls of a trace that are not logging calls. -/
def Outcome.computeEvents {σ : Type} (o : Outcome σ) : List Event :=
  o.events.filter (fun e => !e.isLog)

/-- The handle object with another logging mask and every other field kept. -/
def _rocblas_handle.withLayerMode (h : _rocblas_handle) (layer_mode : Nat) : _rocblas_handle :=
  { h with layer_mode := layer_mode }

/-- A numeric-check argument list whose handle has another logging mask. -/
def CheckArgs.withLayerMode (a : CheckArgs) (layer_mode : Nat) : CheckArgs :=
  { a with handle := a.handle.withLayerMode layer_mode }

/-- A kernel argument list whose handle has another logging mask. -/
def TemplateArgs.withLayerMode (a : TemplateArgs) (layer_mode : Nat) : TemplateArgs :=
  { a with handle := a.handle.withLayerMode layer_mode }

/-- A callee call whose handle has another logging mask; logging calls are kept. -/
def Event.withLayerMode (layer_mode : Nat) : Event → Event
  | .rocblas_spr_check_numerics a => .rocblas_spr_check_numerics (a.withLayerMode layer_mode)
  | .rocblas_spr_template a => .rocblas_spr_template (a.withLayerMode layer_mode)
  | e => e

/-- The numeric check and the kernel invoker do not look at the logging mask of
the handle they are given. -/
def Env.ignoresLayerMode {σ : Type} (env : Env σ) : Prop :=
  (∀ (w : σ) (a : CheckArgs) (m : Nat),
      env.rocblas_spr_check_numerics w (a.withLayerMode m) = env.rocblas_spr_check_numerics w a)
  ∧ (∀ (w : σ) (a : TemplateArgs) (m : Nat),
      env.rocblas_spr_template w (a.withLayerMode m) = env.rocblas_spr_template w a)

/-- A handle object that is being queried for its device memory size, with
the given logging mask and numeric-check flag. -/
def stubQueryHandle (layer_mode : Nat) (check_numerics : Int) : _rocblas_handle :=
  { layer_mode := layer_mode, check_numerics := check_numerics,
    pointer_mode := rocblas_pointer_mode.rocblas_pointer_mode_host,
    is_device_memory_size_query := true }

/-- A handle object in device pointer mode with the given logging mask and
numeric-check flag, not queried for its device memory size. -/
def stubDeviceHandle (layer_mode : Nat) (check_numerics : Int) : _rocblas_handle :=
  { layer_mode := layer_mode, check_numerics := check_numerics,
    pointer_mode := rocblas_pointer_mode.rocblas_pointer_mode_device,
    is_device_memory_size_query := false }

/-- Content of one memory cell: a finite number or a NaN. -/
inductive Cell where
  | finite (v : Int)
  | nan
  deriving DecidableEq, Repr

/-- Product of two cells; a NaN operand gives NaN. -/
def Cell.mul : Cell → Cell → Cell
  | .finite a, .finite b => .finite (a * b)
  | _, _ => .nan

/-- Sum of two cells; a NaN operand gives NaN. -/
def Cell.add : Cell → Cell → Cell
  | .finite a, .finite b => .finite (a + b)
  | _, _ => .nan

/-- The cell holds a NaN. -/
def Cell.isNan : Cell → Bool
  | .nan => true
  | .finite _ => false

/-- Modelled from the spec: the kernel invoker and the numeric sanitizer are
outside the translation unit. This is their behaviour on a 1-by-1 matrix in a
single batch, over a memory of cells. The kernel dereferences the scalar
pointer it is given during execution (4.3) and performs the rank-one update
`AP[0] += alpha * x[0] * x[0]`, reporting `success`. The sanitizer scans the
operands `x[0]` and `AP[0]` for NaN (4.4) and reports the distinguished failure
status, code 13, when it finds one. -/
def scanEnv : Env (Ptr → Cell) where
  rocblas_layer_mode_log_trace := 1
  rocblas_layer_mode_log_bench := 2
  rocblas_layer_mode_log_profile := 4
  size_query_status := rocblas_status.other 10
  rocblas_fill_letter := fun u =>
    match u with
    | .rocblas_fill_upper => 'U'
    | .rocblas_fill_lower => 'L'
    | .rocblas_fill_full => 'F'
    | .other _ => ' '
  rocblas_precision_string := fun _ => "s"
  LOG_TRACE_SCALAR_VALUE := fun _ _ _ => "alpha"
  LOG_BENCH_SCALAR_VALUE := fun _ _ _ => "--alpha"
  rocblas_spr_check_numerics := fun w a =>
    if (w a.x).isNan || (w a.A).isNan then rocblas_status.other 13
    else rocblas_status.rocblas_status_success
  rocblas_spr_template := fun w a =>
    (rocblas_status.rocblas_status_success,
      fun p => if p = a.AP then (w a.AP).add ((w a.alpha).mul ((w a.x).mul (w a.x))) else w p)

/-- A memory whose cell at address 16 holds `alphaValue` and whose other cells
hold the number 1. -/
def memWithAlpha (alphaValue : Cell) : Ptr → Cell :=
  fun p => if p = 16 then alphaValue else Cell.finite 1

/-- Modelled from the spec: strided-batch addressing (4.2); the kernel invoker
that applies it is outside the translation unit. The operand of batch index `b`
starts `b * batch_stride` elements past the base with its offset. -/
def stridedBatchBase (base : Ptr) (offset batch_stride b : Int) : Int :=
  (base : Int) + offset + b * batch_stride

end RocblasSpr

/-!
# Client test harnesses

Shallow embedding of the argument probes of
`clients/include/blas3/testing_her2k_batched.hpp` and
`clients/include/blas1/testing_rotm_batched.hpp`: which call a test makes and
which status it expects of it. The library routines under test are not part of
the embedding; a test is the list of its expectations.
-/

namespace RocblasClients

open RocblasSpr

/-- Operation applied to a matrix operand. `other` stands for an integer that
is none of the enumerators. -/
inductive rocblas_operation where
  | rocblas_operation_none
  | rocblas_operation_transpose
  | rocblas_operation_conjugate_transpose
  | other (value : Int)
  deriving DecidableEq, Repr

/-- A call together with the status the test expects it to return. -/
structure Expectation (α : Type) where
  call : α
  expected : rocblas_status
  deriving DecidableEq, Repr

/-- The macro `EXPECT_ROCBLAS_STATUS(call, status)`: the test passes when the
call returns `status`. -/
def EXPECT_ROCBLAS_STATUS {α : Type} (call : α) (status : rocblas_status) : Expectation α :=
  ⟨call, status⟩

/-- Modelled from the spec: the macro `CHECK_ROCBLAS_ERROR(call)` is defined in
a header outside the sources at hand. The harnesses wrap in it the calls that
have to go through (`rocblas_set_pointer_mode`, the routine calls whose results
are compared), and the zero-size probe of section 8 (`N=0`, `batch_count=5`,
all buffers null, `success` expected) is made under it: the test passes when
the call returns `success`. -/
def CHECK_ROCBLAS_ERROR {α : Type} (call : α) : Expectation α :=
  ⟨call, rocblas_status.rocblas_status_success⟩

/-- Argument list of one call of `rocblas_herXX_batched_fn`: `TWOK` and
`fortran` select the routine (her2k or herkx, C or Fortran convention). -/
structure Her2kCall where
  TWOK : Bool
  fortran : Bool
  handle_is_null : Bool
  uplo : rocblas_fill
  transA : rocblas_operation
  N : Int
  K : Int
  alpha : Ptr
  A : Ptr
  lda : Int
  B : Ptr
  ldb : Int
  beta : Ptr
  C : Ptr
  ldc : Int
  batch_count : Int
  deriving DecidableEq, Repr

/-- The calls of `testing_her2k_batched_bad_arg` (lines 64-141) with their
expected statuses, in program order. `alpha` and `beta` are the addresses of
the local scalars, `dA`, `dB`, `dC` the device buffers. -/
def testing_her2k_batched_bad_arg (TWOK fortran : Bool) (alpha beta dA dB dC : Ptr) :
    List (Expectation Her2kCall) :=
  let uplo := rocblas_fill.rocblas_fill_upper
  let transA := rocblas_operation.rocblas_operation_none
  let N : Int := 100
  let K : Int := 100
  let lda : Int := 100
  let ldb : Int := 100
  let ldc : Int := 100
  let batch_count : Int := 2
  [ EXPECT_ROCBLAS_STATUS
      ⟨TWOK, fortran, true, uplo, transA, N, K, alpha, dA, lda, dB, ldb, beta, dC, ldc,
        batch_count⟩
      rocblas_status.rocblas_status_invalid_handle,
    EXPECT_ROCBLAS_STATUS
      ⟨TWOK, fortran, false, rocblas_fill.rocblas_fill_full, transA, N, K, alpha, dA, lda, dB,
        ldb, beta, dC, ldc, batch_count⟩
      rocblas_status.rocblas_status_invalid_value,
    EXPECT_ROCBLAS_STATUS
      ⟨TWOK, fortran, false, uplo, rocblas_operation.rocblas_operation_transpose, N, K, alpha,
        dA, lda, dB, ldb, beta, dC, ldc, batch_count⟩
      rocblas_status.rocblas_status_invalid_value,
    EXPECT_ROCBLAS_STATUS
      ⟨TWOK, fortran, false, uplo, transA, N, K, 0, dA, lda, dB, ldb, beta, dC, ldc,
        batch_count⟩
      rocblas_status.rocblas_status_invalid_pointer,
    EXPECT_ROCBLAS_STATUS
      ⟨TWOK, fortran, false, uplo, transA, N, K, alpha, 0, lda, dB, ldb, beta, dC, ldc,
        batch_count⟩
      rocblas_status.rocblas_status_invalid_pointer,
    EXPECT_ROCBLAS_STATUS
      ⟨TWOK, fortran, false, uplo, transA, N, K, alpha, dA, lda, 0, ldb, beta, dC, ldc,
        batch_count⟩
      rocblas_status.rocblas_status_invalid_pointer,
    EXPECT_ROCBLAS_STATUS
      ⟨TWOK, fortran, false, uplo, transA, N, K, alpha, dA, lda, dB, ldb, 0, dC, ldc,
        batch_count⟩
      rocblas_status.rocblas_status_invalid_pointer,
    EXPECT_ROCBLAS_STATUS
      ⟨TWOK, fortran, false, uplo, transA, N, K, alpha, dA, lda, dB, ldb, beta, 0, ldc,
        batch_count⟩
      rocblas_status.rocblas_status_invalid_pointer,
    EXPECT_ROCBLAS_STATUS
      ⟨TWOK, fortran, false, uplo, transA, 0, K, 0, 0, lda, 0, ldb, 0, 0, ldc, batch_count⟩
      rocblas_status.rocblas_status_success ]

/-- The local `invalid_size` of `testing_her2k_batched` (lines 175-177). -/
def testing_her2k_batched_invalid_size (transA : rocblas_operation)
    (N K lda ldb ldc batch_count : Int) : Bool :=
  decide (batch_count < 0) || decide (N < 0) || decide (K < 0) || decide (ldc < N)
    || (decide (transA = rocblas_operation.rocblas_operation_none)
        && (decide (lda < N) || decide (ldb < N)))
    || (decide (transA ≠ rocblas_operation.rocblas_operation_none)
        && (decide (lda < K) || decide (ldb < K)))

/-- The early exit of `testing_her2k_batched` (lines 174-198) on the locals set
up in lines 158-169: `some e` when the harness makes its probe call `e` and
returns, `none` when it goes on to allocate and run the comparison. -/
def testing_her2k_batched_probe (TWOK fortran : Bool) (uplo : rocblas_fill)
    (transA : rocblas_operation) (N K lda ldb ldc batch_count : Int) :
    Option (Expectation Her2kCall) :=
  let invalid_size := testing_her2k_batched_invalid_size transA N K lda ldb ldc batch_count
  if N = 0 ∨ batch_count = 0 ∨ invalid_size = true then
    some (EXPECT_ROCBLAS_STATUS
      ⟨TWOK, fortran, false, uplo, transA, N, K, 0, 0, lda, 0, ldb, 0, 0, ldc, batch_count⟩
      (if invalid_size then rocblas_status.rocblas_status_invalid_size
        else rocblas_status.rocblas_status_success))
  else none

/-- Argument list of one call of `rocblas_rotm_batched_fn`, with the pointer
mode the handle is in when the call is made. -/
structure RotmCall where
  fortran : Bool
  handle_is_null : Bool
  pointer_mode : rocblas_pointer_mode
  N : Int
  x : Ptr
  incx : Int
  y : Ptr
  incy : Int
  param : Ptr
  batch_count : Int
  deriving DecidableEq, Repr

/-- The early exit of `testing_rotm_batched` (lines 114-121): `some e` when the
harness sets device pointer mode, makes its probe call `e` and returns, `none`
when it goes on to allocate and run the comparison. -/
def testing_rotm_batched_probe (fortran : Bool) (N incx incy batch_count : Int) :
    Option (Expectation RotmCall) :=
  if N ≤ 0 ∨ batch_count ≤ 0 then
    some (CHECK_ROCBLAS_ERROR
      ⟨fortran, false, rocblas_pointer_mode.rocblas_pointer_mode_device, N, 0, incx, 0, incy, 0,
        batch_count⟩)
  else none

/-- One matrix allocation of a harness: its name in the source, the shape
and leading dimension it is constructed with, and its batch count. -/
structure Allocation where
  name : String
  rows : Int
  cols : Int
  ld : Int
  batch_count : Int
  deriving DecidableEq, Repr

/-- The matrix allocations of `testing_her2k_batched` (lines 200-223), made
only when the early exit of lines 178-198 is not taken (`none` otherwise). -/
def testing_her2k_batched_allocations (TWOK fortran : Bool) (uplo : rocblas_fill)
    (transA : rocblas_operation) (N K lda ldb ldc batch_count : Int) :
    Option (List Allocation) :=
  match testing_her2k_batched_probe TWOK fortran uplo transA N K lda ldb ldc batch_count with
  | some _ => none
  | none =>
    let cols : Int := if transA = rocblas_operation.rocblas_operation_none then max K 1 else N
    let rows : Int := if transA ≠ rocblas_operation.rocblas_operation_none then max K 1 else N
    some [⟨"hA", rows, cols, lda, batch_count⟩, ⟨"hB", rows, cols, ldb, batch_count⟩,
      ⟨"hC_1", N, N, ldc, batch_count⟩, ⟨"hC_2", N, N, ldc, batch_count⟩,
      ⟨"hC_gold", N, N, ldc, batch_count⟩, ⟨"dA", rows, cols, lda, batch_count⟩,
      ⟨"dB", rows, cols, ldb, batch_count⟩, ⟨"dC", N, N, ldc, batch_count⟩]

/-- Side of the triangular operand. `other` stands for an integer that is none
of the enumerators. -/
inductive rocblas_side where
  | rocblas_side_left
  | rocblas_side_right
  | rocblas_side_both
  | other (value : Int)
  deriving DecidableEq, Repr

/-- Diagonal kind of the triangular operand. `other` stands for an integer
that is none of the enumerators. -/
inductive rocblas_diagonal where
  | rocblas_diagonal_non_unit
  | rocblas_diagonal_unit
  | other (value : Int)
  deriving DecidableEq, Repr

/-- Argument list of one call of `rocblas_trmm_fn`. -/
structure TrmmCall where
  fortran : Bool
  handle_is_null : Bool
  side : rocblas_side
  uplo : rocblas_fill
  transA : rocblas_operation
  diag : rocblas_diagonal
  M : Int
  N : Int
  alpha : Ptr
  A : Ptr
  lda : Int
  B : Ptr
  ldb : Int
  deriving DecidableEq, Repr

/-- The calls of `testing_trmm_bad_arg` (lines 52-82) with their expected
statuses, in program order. `alpha` and `zero_ptr` are the addresses of the
local scalars `alpha` and `zero`, `dA` and `dB` the device buffers. -/
def testing_trmm_bad_arg (fortran : Bool) (alpha zero_ptr dA dB : Ptr) :
    List (Expectation TrmmCall) :=
  let M : Int := 100
  let N : Int := 100
  let lda : Int := 100
  let ldb : Int := 100
  let side := rocblas_side.rocblas_side_left
  let uplo := rocblas_fill.rocblas_fill_upper
  let transA := rocblas_operation.rocblas_operation_none
  let diag := rocblas_diagonal.rocblas_diagonal_non_unit
  [ EXPECT_ROCBLAS_STATUS
      ⟨fortran, false, side, uplo, transA, diag, M, N, alpha, 0, lda, dB, ldb⟩
      rocblas_status.rocblas_status_invalid_pointer,
    EXPECT_ROCBLAS_STATUS
      ⟨fortran, false, side, uplo, transA, diag, M, N, alpha, dA, lda, 0, ldb⟩
      rocblas_status.rocblas_status_invalid_pointer,
    EXPECT_ROCBLAS_STATUS
      ⟨fortran, false, side, uplo, transA, diag, M, N, 0, dA, lda, dB, ldb⟩
      rocblas_status.rocblas_status_invalid_pointer,
    EXPECT_ROCBLAS_STATUS
      ⟨fortran, true, side, uplo, transA, diag, M, N, alpha, dA, lda, dB, ldb⟩
      rocblas_status.rocblas_status_invalid_handle,
    EXPECT_ROCBLAS_STATUS
      ⟨fortran, false, side, uplo, transA, diag, 0, N, 0, 0, lda, 0, ldb⟩
      rocblas_status.rocblas_status_success,
    EXPECT_ROCBLAS_STATUS
      ⟨fortran, false, side, uplo, transA, diag, M, N, alpha, dA, lda, dB, ldb⟩
      rocblas_status.rocblas_status_success,
    EXPECT_ROCBLAS_STATUS
      ⟨fortran, false, side, uplo, transA, diag, M, N, zero_ptr, 0, lda, dB, ldb⟩
      rocblas_status.rocblas_status_success ]

/-- The early exit of `testing_trmm` (lines 110-119): `some e` when the harness
makes its probe call `e` and returns, `none` when it goes on. -/
def testing_trmm_probe (fortran : Bool) (side : rocblas_side) (uplo : rocblas_fill)
    (transA : rocblas_operation) (diag : rocblas_diagonal) (M N lda ldb : Int) :
    Option (Expectation TrmmCall) :=
  let K : Int := if side = rocblas_side.rocblas_side_left then M else N
  let invalid_size : Bool :=
    decide (M < 0) || decide (N < 0) || decide (lda < K) || decide (ldb < M)
  if M = 0 ∨ N = 0 ∨ invalid_size = true then
    some (EXPECT_ROCBLAS_STATUS
      ⟨fortran, false, side, uplo, transA, diag, M, N, 0, 0, lda, 0, ldb⟩
      (if invalid_size then rocblas_status.rocblas_status_invalid_size
        else rocblas_status.rocblas_status_success))
  else none

/-- The suites `BLAS1_TESTING` is instantiated for (lines 216-227), which are
the values of the enumeration `blas1` the suite template is given. -/
inductive blas1 where
  | rot
  | rot_batched
  | rot_strided_batched
  | rotg
  | rotg_batched
  | rotg_strided_batched
  | rotm
  | rotm_batched
  | rotm_strided_batched
  | rotmg
  | rotmg_batched
  | rotmg_strided_batched
  deriving DecidableEq, Repr

/-- The string `#NAME` of a suite. -/
def blas1.NAME : blas1 → String
  | .rot => "rot"
  | .rot_batched => "rot_batched"
  | .rot_strided_batched => "rot_strided_batched"
  | .rotg => "rotg"
  | .rotg_batched => "rotg_batched"
  | .rotg_strided_batched => "rotg_strided_batched"
  | .rotm => "rotm"
  | .rotm_batched => "rotm_batched"
  | .rotm_strided_batched => "rotm_strided_batched"
  | .rotmg => "rotmg"
  | .rotmg_batched => "rotmg_batched"
  | .rotmg_strided_batched => "rotmg_strided_batched"

/-- The test `!strcmp(a, b)`: the two C strings are equal. -/
def strcmp_is_zero (a b : String) : Bool :=
  a == b

/-- The function `NAME::function_filter` (lines 198-202). -/
def function_filter (NAME : blas1) (function : String) : Bool :=
  strcmp_is_zero function NAME.NAME || strcmp_is_zero function (NAME.NAME ++ "_bad_arg")

/-- What the call operator of the enabled `testing` functor runs. -/
inductive TestingBranch where
  | testing_NAME
  | testing_NAME_bad_arg
  | FAIL_unknown_function
  deriving DecidableEq, Repr

/-- The call operator of `blas1_NAME::testing` for enabled types (lines
183-192). -/
def testing_functor (NAME : blas1) (function : String) : TestingBranch :=
  if strcmp_is_zero function NAME.NAME then TestingBranch.testing_NAME
  else if strcmp_is_zero function (NAME.NAME ++ "_bad_arg") then
    TestingBranch.testing_NAME_bad_arg
  else TestingBranch.FAIL_unknown_function

/-! ## Data flow of the comparison and timing sections

The harness bodies are embedded as transformations of a state that holds the
content of every host and device buffer, with a trace of the calls whose
arguments the claims are about. The routine under test, the host reference and
the norm are functions given from outside. The path embedded is the one on
which every checked call returns `success`. Timestamps are not values of the
model; a synchronised timestamp is an event of the trace. -/

/-- Content of a batched container: batch index to content. -/
abbrev Batch (α : Type) := Nat → α

/-- The loop `for(int b = 0; b < n; b++) body(b)` over a state. -/
def forLoop {σ : Type} (n : Int) (body : Nat → σ → σ) (s : σ) : σ :=
  (List.range n.toNat).foldl (fun s b => body b s) s

/-- A scalar argument as the routine receives it: a pointer into host memory
or into device memory, with the content found there (`none`: never written). -/
inductive ScalarArg (S : Type) where
  | host (value : S)
  | device (content : Option S)
  deriving DecidableEq, Repr

/-- The locals of `testing_her2k_batched` read from `arg` (lines 159-169) and
the fields of `arg` the body looks at. -/
structure Her2kArguments where
  uplo : rocblas_fill
  transA : rocblas_operation
  N : Int
  K : Int
  lda : Int
  ldb : Int
  ldc : Int
  batch_count : Int
  unit_check : Bool
  norm_check : Bool
  timing : Bool
  cold_iters : Int
  iters : Int
  deriving DecidableEq, Repr

/-- The functions `testing_her2k_batched` calls and that are defined outside it:
the routine under test (its effect on the content of `dC`), the host reference
for one batch element (its effect on the content of `hC_gold[b]`), and the norm
of the difference of two results. -/
structure Her2kEnv (M S U R : Type) where
  rocblas_herXX_batched_fn : rocblas_pointer_mode → Her2kArguments → ScalarArg S → Batch M →
    Batch M → ScalarArg U → Batch M → Batch M
  herXX_ref_fn : Her2kArguments → S → M → M → U → M → M
  norm_check_general : Her2kArguments → Batch M → Batch M → R

/-- A call recorded in the trace of `testing_her2k_batched`, with the buffer
contents it is made on. -/
inductive Her2kEvent (M S U R : Type) where
  | rocblas_herXX_batched_fn (mode : rocblas_pointer_mode) (alpha : ScalarArg S)
      (beta : ScalarArg U) (dA dB dC : Batch M)
  | herXX_ref_fn (b : Nat) (alpha : S) (A B : M) (beta : U) (C : M)
  | near_check_general (gold result : Batch M)
  | norm_check_general (gold result : Batch M)
  | get_time_us_sync
  | log_args (rocblas_error : R)

/-- The event is a call of the routine under test. -/
def Her2kEvent.isRun {M S U R : Type} : Her2kEvent M S U R → Bool
  | .rocblas_herXX_batched_fn _ _ _ _ _ _ => true
  | _ => false

/-- The pointer mode and the content of `dC` a routine call is made with. -/
def Her2kEvent.runInput {M S U R : Type} :
    Her2kEvent M S U R → Option (rocblas_pointer_mode × Batch M)
  | .rocblas_herXX_batched_fn mode _ _ _ _ dC => some (mode, dC)
  | _ => none

/-- The content of `hC_gold[b]` a reference call is made with. -/
def Her2kEvent.referenceInput {M S U R : Type} : Her2kEvent M S U R → Option (Nat × M)
  | .herXX_ref_fn b _ _ _ _ C => some (b, C)
  | _ => none

/-- The buffers and variables of `testing_her2k_batched`. -/
structure Her2kState (M S U R : Type) where
  hA : Batch M
  hB : Batch M
  hC_1 : Batch M
  hC_2 : Batch M
  hC_gold : Batch M
  h_alpha : S
  h_beta : U
  dA : Batch M
  dB : Batch M
  dC : Batch M
  d_alpha : Option S
  d_beta : Option U
  pointer_mode : rocblas_pointer_mode
  rocblas_error : R
  trace : List (Her2kEvent M S U R)

/-- Lines 234-257 of `testing_her2k_batched`: the state once the data is
initialised. `A0`, `B0`, `C0` are the matrices `rocblas_init_matrix` generates,
`dC0` is the unwritten content of `dC`, `mode0` the pointer mode of the fresh
handle. -/
def testing_her2k_batched_init {M S U R : Type} [Zero R] (TWOK : Bool) (alpha : S) (beta : U)
    (A0 B0 C0 dC0 : Batch M) (mode0 : rocblas_pointer_mode) : Her2kState M S U R :=
  let hA := A0
  let hB := if TWOK then B0 else hA
  let hC_1 := C0
  { hA := hA, hB := hB, hC_1 := hC_1, hC_2 := hC_1, hC_gold := hC_1, h_alpha := alpha,
    h_beta := beta, dA := hA, dB := hB, dC := dC0, d_alpha := none, d_beta := none,
    pointer_mode := mode0, rocblas_error := 0, trace := [] }

/-- One call `rocblas_herXX_batched_fn(handle, ..., alpha, dA, ..., dB, ..., beta,
dC, ...)` in the current pointer mode: `dC` is overwritten with the result. -/
def Her2kState.run {M S U R : Type} (env : Her2kEnv M S U R) (arg : Her2kArguments)
    (alpha : ScalarArg S) (beta : ScalarArg U) (s : Her2kState M S U R) : Her2kState M S U R :=
  { s with
    dC := env.rocblas_herXX_batched_fn s.pointer_mode arg alpha s.dA s.dB beta s.dC
    trace := s.trace ++
      [Her2kEvent.rocblas_herXX_batched_fn s.pointer_mode alpha beta s.dA s.dB s.dC] }

/-- The body of the reference loop, lines 314-329, for batch index `b`. -/
def Her2kState.reference {M S U R : Type} (env : Her2kEnv M S U R) (arg : Her2kArguments)
    (b : Nat) (s : Her2kState M S U R) : Her2kState M S U R :=
  { s with
    hC_gold := Function.update s.hC_gold b
      (env.herXX_ref_fn arg s.h_alpha (s.hA b) (s.hB b) s.h_beta (s.hC_gold b))
    trace := s.trace ++
      [Her2kEvent.herXX_ref_fn b s.h_alpha (s.hA b) (s.hB b) s.h_beta (s.hC_gold b)] }

/-- Lines 259-349 of `testing_her2k_batched`: the comparison section. -/
def testing_her2k_batched_check {M S U R : Type} [LinearOrderedRing R]
    (env : Her2kEnv M S U R) (arg : Her2kArguments) (s : Her2kState M S U R) :
    Her2kState M S U R :=
  if arg.unit_check || arg.norm_check then
    -- host alpha/beta
    let s := { s with pointer_mode := rocblas_pointer_mode.rocblas_pointer_mode_host }
    let s := { s with dC := s.hC_1 }
    let s := s.run env arg (ScalarArg.host s.h_alpha) (ScalarArg.host s.h_beta)
    let s := { s with hC_1 := s.dC }
    -- device alpha/beta
    let s := { s with pointer_mode := rocblas_pointer_mode.rocblas_pointer_mode_device }
    let s := { s with dC := s.hC_2 }
    let s := { s with d_alpha := some s.h_alpha }
    let s := { s with d_beta := some s.h_beta }
    let s := s.run env arg (ScalarArg.device s.d_alpha) (ScalarArg.device s.d_beta)
    let s := { s with hC_2 := s.dC }
    -- cpu reference
    let s := forLoop arg.batch_count (Her2kState.reference env arg) s
    let s :=
      if arg.unit_check then
        { s with trace := s.trace ++ [Her2kEvent.near_check_general s.hC_gold s.hC_1,
            Her2kEvent.near_check_general s.hC_gold s.hC_2] }
      else s
    if arg.norm_check then
      let err1 := |env.norm_check_general arg s.hC_gold s.hC_1|
      let err2 := |env.norm_check_general arg s.hC_gold s.hC_2|
      { s with
        rocblas_error := if err1 > err2 then err1 else err2
        trace := s.trace ++ [Her2kEvent.norm_check_general s.hC_gold s.hC_1,
          Her2kEvent.norm_check_general s.hC_gold s.hC_2] }
    else s
  else s

/-- The body of the two loops of the timing section (lines 360-373 and
381-394): one call of the routine with the host scalars `h_alpha`, `h_beta`. -/
def Her2kState.timingCall {M S U R : Type} (env : Her2kEnv M S U R) (arg : Her2kArguments)
    (s : Her2kState M S U R) : Her2kState M S U R :=
  s.run env arg (ScalarArg.host s.h_alpha) (ScalarArg.host s.h_beta)

/-- Lines 351-415 of `testing_her2k_batched`: the timing section. -/
def testing_her2k_batched_timing {M S U R : Type} (env : Her2kEnv M S U R)
    (arg : Her2kArguments) (s : Her2kState M S U R) : Her2kState M S U R :=
  if arg.timing then
    let number_cold_calls := arg.cold_iters
    let number_hot_calls := arg.iters
    let s := { s with pointer_mode := rocblas_pointer_mode.rocblas_pointer_mode_host }
    let s := forLoop number_cold_calls (fun _ s => s.timingCall env arg) s
    let s := { s with trace := s.trace ++ [Her2kEvent.get_time_us_sync] }
    let s := forLoop number_hot_calls (fun _ s => s.timingCall env arg) s
    let s := { s with trace := s.trace ++ [Her2kEvent.get_time_us_sync] }
    { s with trace := s.trace ++ [Her2kEvent.log_args s.rocblas_error] }
  else s

/-- The result of the host-pointer-mode run of `testing_her2k_batched`: the
routine applied, in host pointer mode with host scalars, to the initial `C0`. -/
def her2kHostResult {M S U R : Type} (env : Her2kEnv M S U R) (arg : Her2kArguments)
    (alpha : S) (beta : U) (A B C0 : Batch M) : Batch M :=
  env.rocblas_herXX_batched_fn rocblas_pointer_mode.rocblas_pointer_mode_host arg
    (ScalarArg.host alpha) A B (ScalarArg.host beta) C0

/-- The result of the device-pointer-mode run of `testing_her2k_batched`: the
routine applied, in device pointer mode with the scalars copied to the device,
to the initial `C0`. -/
def her2kDeviceResult {M S U R : Type} (env : Her2kEnv M S U R) (arg : Her2kArguments)
    (alpha : S) (beta : U) (A B C0 : Batch M) : Batch M :=
  env.rocblas_herXX_batched_fn rocblas_pointer_mode.rocblas_pointer_mode_device arg
    (ScalarArg.device (some alpha)) A B (ScalarArg.device (some beta)) C0

/-- The reference result of `testing_her2k_batched`: the host reference applied
to every batch element of the initial `C0`. -/
def her2kReference {M S U R : Type} (env : Her2kEnv M S U R) (arg : Her2kArguments)
    (alpha : S) (beta : U) (A B C0 : Batch M) : Batch M :=
  fun b => if b < arg.batch_count.toNat then env.herXX_ref_fn arg alpha (A b) (B b) beta (C0 b)
    else C0 b

/-- The locals of `testing_trmm` read from `arg` (lines 90-104), the fields of
`arg` the body looks at, and whether the element type `T` is `rocblas_half`. -/
structure TrmmArguments where
  side : rocblas_side
  uplo : rocblas_fill
  transA : rocblas_operation
  diag : rocblas_diagonal
  M : Int
  N : Int
  lda : Int
  ldb : Int
  unit_check : Bool
  norm_check : Bool
  timing : Bool
  is_half : Bool
  deriving DecidableEq, Repr

/-- The functions `testing_trmm` calls and that are defined outside it: the
routine under test (its effect on the content of `dB`), the host reference (its
effect on the content of `hB_gold`), and the norm of the difference of two
results. -/
structure TrmmEnv (Mat S R : Type) where
  rocblas_trmm_fn : rocblas_pointer_mode → TrmmArguments → ScalarArg S → Mat → Mat → Mat
  cblas_trmm : TrmmArguments → S → Mat → Mat → Mat
  norm_check_general : TrmmArguments → Mat → Mat → R

/-- A call recorded in the trace of `testing_trmm`, with the buffer contents it
is made on. -/
inductive TrmmEvent (Mat S R : Type) where
  | rocblas_trmm_fn (mode : rocblas_pointer_mode) (alpha : ScalarArg S) (dA dB : Mat)
  | cblas_trmm (alpha : S) (A B : Mat)
  | near_check_general (gold result : Mat)
  | unit_check_general (gold result : Mat)
  | norm_check_general (gold result : Mat)

/-- The pointer mode and the content of `dB` a routine call is made with. -/
def TrmmEvent.runInput {Mat S R : Type} : TrmmEvent Mat S R → Option (rocblas_pointer_mode × Mat)
  | .rocblas_trmm_fn mode _ _ dB => some (mode, dB)
  | _ => none

/-- The content of `hB_gold` the reference call is made with. -/
def TrmmEvent.referenceInput {Mat S R : Type} : TrmmEvent Mat S R → Option Mat
  | .cblas_trmm _ _ B => some B
  | _ => none

/-- The buffers and variables of `testing_trmm`. -/
structure TrmmState (Mat S R : Type) where
  hA : Mat
  hB_1 : Mat
  hB_2 : Mat
  hB_gold : Mat
  h_alpha_T : S
  dA : Mat
  dB : Mat
  alpha_d : Option S
  pointer_mode : rocblas_pointer_mode
  rocblas_error : R
  trace : List (TrmmEvent Mat S R)

/-- Lines 138-153 of `testing_trmm`: the state once the data is initialised.
`A0` and `B0` are the matrices `rocblas_init_matrix` generates, `dB0` is the
unwritten content of `dB`, `mode0` the pointer mode of the fresh handle. -/
def testing_trmm_init {Mat S R : Type} [Zero R] (alpha : S) (A0 B0 dB0 : Mat)
    (mode0 : rocblas_pointer_mode) : TrmmState Mat S R :=
  let hA := A0
  let hB_1 := B0
  let hB_1 := hB_1
  let hB_2 := hB_1
  let hB_gold := hB_1
  { hA := hA, hB_1 := hB_1, hB_2 := hB_2, hB_gold := hB_gold, h_alpha_T := alpha, dA := hA,
    dB := dB0, alpha_d := none, pointer_mode := mode0, rocblas_error := 0, trace := [] }

/-- One call `rocblas_trmm_fn(handle, ..., alpha, dA, lda, dB, ldb)` in the
current pointer mode: `dB` is overwritten with the result. -/
def TrmmState.run {Mat S R : Type} (env : TrmmEnv Mat S R) (arg : TrmmArguments)
    (alpha : ScalarArg S) (s : TrmmState Mat S R) : TrmmState Mat S R :=
  { s with
    dB := env.rocblas_trmm_fn s.pointer_mode arg alpha s.dA s.dB
    trace := s.trace ++ [TrmmEvent.rocblas_trmm_fn s.pointer_mode alpha s.dA s.dB] }

/-- Lines 155-213 of `testing_trmm`: the comparison section. -/
def testing_trmm_check {Mat S R : Type} [LinearOrderedRing R] (env : TrmmEnv Mat S R)
    (arg : TrmmArguments) (s : TrmmState Mat S R) : TrmmState Mat S R :=
  let K : Int := if arg.side = rocblas_side.rocblas_side_left then arg.M else arg.N
  if arg.unit_check || arg.norm_check then
    let s := { s with pointer_mode := rocblas_pointer_mode.rocblas_pointer_mode_host }
    let s := { s with dB := s.hB_1 }
    let s := s.run env arg (ScalarArg.host s.h_alpha_T)
    let s := { s with hB_1 := s.dB }
    let s := { s with pointer_mode := rocblas_pointer_mode.rocblas_pointer_mode_device }
    let s := { s with dB := s.hB_2 }
    let s := { s with alpha_d := some s.h_alpha_T }
    let s := s.run env arg (ScalarArg.device s.alpha_d)
    -- CPU BLAS
    let s := { s with
      hB_gold := env.cblas_trmm arg s.h_alpha_T s.hA s.hB_gold
      trace := s.trace ++ [TrmmEvent.cblas_trmm s.h_alpha_T s.hA s.hB_gold] }
    -- fetch GPU
    let s := { s with hB_2 := s.dB }
    let s :=
      if arg.unit_check then
        if arg.is_half && decide (K > 10000) then
          { s with trace := s.trace ++ [TrmmEvent.near_check_general s.hB_gold s.hB_1,
              TrmmEvent.near_check_general s.hB_gold s.hB_2] }
        else
          { s with trace := s.trace ++ [TrmmEvent.unit_check_general s.hB_gold s.hB_1,
              TrmmEvent.unit_check_general s.hB_gold s.hB_2] }
      else s
    if arg.norm_check then
      let err1 := |env.norm_check_general arg s.hB_gold s.hB_1|
      let err2 := |env.norm_check_general arg s.hB_gold s.hB_2|
      { s with
        rocblas_error := if err1 > err2 then err1 else err2
        trace := s.trace ++ [TrmmEvent.norm_check_general s.hB_gold s.hB_1,
          TrmmEvent.norm_check_general s.hB_gold s.hB_2] }
    else s
  else s

/-- The result of the host-pointer-mode run of `testing_trmm`: the routine
applied, in host pointer mode with the host scalar, to the initial `B0`. -/
def trmmHostResult {Mat S R : Type} (env : TrmmEnv Mat S R) (arg : TrmmArguments) (alpha : S)
    (A0 B0 : Mat) : Mat :=
  env.rocblas_trmm_fn rocblas_pointer_mode.rocblas_pointer_mode_host arg (ScalarArg.host alpha)
    A0 B0

/-- The result of the device-pointer-mode run of `testing_trmm`: the routine
applied, in device pointer mode with the scalar copied to the device, to the
initial `B0`. -/
def trmmDeviceResult {Mat S R : Type} (env : TrmmEnv Mat S R) (arg : TrmmArguments) (alpha : S)
    (A0 B0 : Mat) : Mat :=
  env.rocblas_trmm_fn rocblas_pointer_mode.rocblas_pointer_mode_device arg
    (ScalarArg.device (some alpha)) A0 B0

/-- The locals of `testing_rotm_batched` read from `arg` (lines 100-103) and
the fields of `arg` the body looks at. -/
structure RotmArguments where
  N : Int
  incx : Int
  incy : Int
  batch_count : Int
  unit_check : Bool
  norm_check : Bool
  timing : Bool
  deriving DecidableEq, Repr

/-- The functions `testing_rotm_batched` calls and that are defined outside it:
the host reference for one batch element and the routine under test, each as
its effect on the contents of the two vector operands. A parameter vector is
given as a map from index to value. -/
structure RotmEnv (X T : Type) where
  cblas_rotm : Int → X → Int → X → Int → (Nat → T) → X × X
  rocblas_rotm_batched_fn : rocblas_pointer_mode → Int → Batch X → Int → Batch X → Int →
    Batch (Nat → T) → Int → Batch X × Batch X

/-- A call recorded in the trace of `testing_rotm_batched`, with the buffer
contents it is made on. -/
inductive RotmEvent (X T : Type) where
  | cblas_rotm (b : Nat) (x y : X) (param : Nat → T)
  | rocblas_rotm_batched_fn (mode : rocblas_pointer_mode) (dx dy : Batch X)
      (dparam : Batch (Nat → T))
  | near_check_general (gold result : Batch X)
  | norm_check_general (gold result : Batch X)

/-- The pointer mode of a call of the routine under test. -/
def RotmEvent.runMode {X T : Type} : RotmEvent X T → Option rocblas_pointer_mode
  | .rocblas_rotm_batched_fn mode _ _ _ => some mode
  | _ => none

/-- The batch index, the vectors and the parameters a host reference call is
given. -/
def RotmEvent.referenceInput {X T : Type} : RotmEvent X T → Option (Nat × X × X × (Nat → T))
  | .cblas_rotm b x y param => some (b, x, y, param)
  | _ => none

/-- The vectors and the parameters on the device a call of the routine under
test is made on. -/
def RotmEvent.deviceInput {X T : Type} :
    RotmEvent X T → Option (Batch X × Batch X × Batch (Nat → T))
  | .rocblas_rotm_batched_fn _ dx dy dparam => some (dx, dy, dparam)
  | _ => none

/-- The buffers and variables of `testing_rotm_batched`. -/
structure RotmState (X T : Type) where
  hx : Batch X
  hy : Batch X
  hparam : Batch (Nat → T)
  hx_gold : Batch X
  hy_gold : Batch X
  dx : Batch X
  dy : Batch X
  dparam : Batch (Nat → T)
  pointer_mode : rocblas_pointer_mode
  trace : List (RotmEvent X T)

/-- The array `FLAGS` (lines 154-155). -/
def FLAGS {T : Type} [IntCast T] : List T :=
  [((-1 : Int) : T), ((0 : Int) : T), ((1 : Int) : T), ((-2 : Int) : T)]

/-- The body of the loop of lines 163-164 for batch index `b`:
`hparam[b][0] = FLAGS[i]`. -/
def RotmState.setFlag {X T : Type} (flag : T) (b : Nat) (s : RotmState X T) : RotmState X T :=
  { s with hparam := Function.update s.hparam b (Function.update (s.hparam b) 0 flag) }

/-- The body of the reference loop, lines 170-173, for batch index `b`. -/
def RotmState.reference {X T : Type} (env : RotmEnv X T) (arg : RotmArguments) (b : Nat)
    (s : RotmState X T) : RotmState X T :=
  { s with
    hx_gold := Function.update s.hx_gold b
      (env.cblas_rotm arg.N (s.hx_gold b) arg.incx (s.hy_gold b) arg.incy (s.hparam b)).1
    hy_gold := Function.update s.hy_gold b
      (env.cblas_rotm arg.N (s.hx_gold b) arg.incx (s.hy_gold b) arg.incy (s.hparam b)).2
    trace := s.trace ++ [RotmEvent.cblas_rotm b (s.hx_gold b) (s.hy_gold b) (s.hparam b)] }

/-- One iteration of the flag loop of `testing_rotm_batched` (lines 162-255),
for the flag `FLAGS[i]`. The host-pointer-mode block of lines 178-218 is
commented out in the source and has no counterpart here. -/
def testing_rotm_batched_flag {X T : Type} (env : RotmEnv X T) (arg : RotmArguments) (flag : T)
    (s : RotmState X T) : RotmState X T :=
  let s := forLoop arg.batch_count (RotmState.setFlag flag) s
  let s := { s with hx_gold := s.hx }
  let s := { s with hy_gold := s.hy }
  let s := forLoop arg.batch_count (RotmState.reference env arg) s
  if arg.unit_check || arg.norm_check then
    -- Test rocblas_pointer_mode_device
    let s := { s with pointer_mode := rocblas_pointer_mode.rocblas_pointer_mode_device }
    let s := { s with dx := s.hx }
    let s := { s with dy := s.hy }
    let s := { s with dparam := s.hparam }
    let s := { s with
      dx := (env.rocblas_rotm_batched_fn s.pointer_mode arg.N s.dx arg.incx s.dy arg.incy
        s.dparam arg.batch_count).1
      dy := (env.rocblas_rotm_batched_fn s.pointer_mode arg.N s.dx arg.incx s.dy arg.incy
        s.dparam arg.batch_count).2
      trace := s.trace ++ [RotmEvent.rocblas_rotm_batched_fn s.pointer_mode s.dx s.dy s.dparam] }
    let s := { s with hx := s.dx }
    let s := { s with hy := s.dy }
    let s :=
      if arg.unit_check then
        { s with trace := s.trace ++ [RotmEvent.near_check_general s.hx_gold s.hx,
            RotmEvent.near_check_general s.hy_gold s.hy] }
      else s
    if arg.norm_check then
      { s with trace := s.trace ++ [RotmEvent.norm_check_general s.hx_gold s.hx,
          RotmEvent.norm_check_general s.hy_gold s.hy] }
    else s
  else s

/-- The flag loop of `testing_rotm_batched` (lines 161-256): the iterations for
`FLAGS[0]`, ..., `FLAGS[FLAG_COUNT - 1]` in this order. -/
def testing_rotm_batched_check_loop {X T : Type} [IntCast T] (env : RotmEnv X T)
    (arg : RotmArguments) (s : RotmState X T) : RotmState X T :=
  (FLAGS : List T).foldl (fun s flag => testing_rotm_batched_flag env arg flag s) s

/-- The parameter vectors after the loop of lines 163-164: `flag` in element 0
of the first `batch_count` vectors. -/
def rotmFlagged {T : Type} (batch_count : Int) (flag : T) (hparam : Batch (Nat → T)) :
    Batch (Nat → T) :=
  fun b => if b < batch_count.toNat then Function.update (hparam b) 0 flag else hparam b

/-- The reference result for `x` (`hx_gold` after the loop of lines 170-173):
the host reference applied to every batch element of `hx`, `hy`, `hparam`. -/
def rotmReferenceX {X T : Type} (env : RotmEnv X T) (arg : RotmArguments) (hx hy : Batch X)
    (hparam : Batch (Nat → T)) : Batch X :=
  fun b => if b < arg.batch_count.toNat then
      (env.cblas_rotm arg.N (hx b) arg.incx (hy b) arg.incy (hparam b)).1
    else hx b

/-- The reference result for `y` (`hy_gold` after the loop of lines 170-173). -/
def rotmReferenceY {X T : Type} (env : RotmEnv X T) (arg : RotmArguments) (hx hy : Batch X)
    (hparam : Batch (Nat → T)) : Batch X :=
  fun b => if b < arg.batch_count.toNat then
      (env.cblas_rotm arg.N (hx b) arg.incx (hy b) arg.incy (hparam b)).2
    else hy b

/-- A small instance of the functions around `testing_rotm_batched`, vectors and
parameters being integers: the reference and the routine add the flag to `x`
and subtract it from `y`. -/
def stubRotmEnv : RotmEnv Int Int where
  cblas_rotm := fun _ x _ y _ p => (x + p 0, y - p 0)
  rocblas_rotm_batched_fn := fun _ _ dx _ dy _ dparam _ =>
    (fun b => dx b + dparam b 0, fun b => dy b - dparam b 0)

/-- A start state for `stubRotmEnv`: `x = 10`, `y = 20`, zero parameters, empty
trace, host pointer mode. -/
def stubRotmState : RotmState Int Int :=
  { hx := fun _ => 10, hy := fun _ => 20, hparam := fun _ _ => 0, hx_gold := fun _ => 0,
    hy_gold := fun _ => 0, dx := fun _ => 0, dy := fun _ => 0, dparam := fun _ _ => 0,
    pointer_mode := rocblas_pointer_mode.rocblas_pointer_mode_host, trace := [] }

/-- A small instance of the functions around `testing_her2k_batched`, matrices
and scalars being integers: the routine and the reference compute
`alpha * A * B + beta * C` per batch element, the norm is the difference of the
first batch elements. -/
def stubHer2kEnv : Her2kEnv Int Int Int Int where
  rocblas_herXX_batched_fn := fun _ _ alpha dA dB beta dC b =>
    (match alpha with
      | .host v => v
      | .device c => c.getD 0) * dA b * dB b
    + (match beta with
      | .host v => v
      | .device c => c.getD 0) * dC b
  herXX_ref_fn := fun _ alpha A B beta C => alpha * A * B + beta * C
  norm_check_general := fun _ gold result => result 0 - gold 0

/-- Arguments for `stubHer2kEnv`: a 3-by-3 problem in 2 batches with the given
checks and iteration counts. -/
def stubHer2kArguments (unit_check norm_check timing : Bool) (cold_iters iters : Int) :
    Her2kArguments :=
  { uplo := rocblas_fill.rocblas_fill_upper,
    transA := rocblas_operation.rocblas_operation_none, N := 3, K := 3, lda := 3, ldb := 3,
    ldc := 3, batch_count := 2, unit_check := unit_check, norm_check := norm_check,
    timing := timing, cold_iters := cold_iters, iters := iters }

/-- A small instance of the functions around `testing_trmm`, matrices and the
scalar being integers: the routine and the reference compute `alpha * A * B`,
the norm is the difference. -/
def stubTrmmEnv : TrmmEnv Int Int Int where
  rocblas_trmm_fn := fun _ _ alpha dA dB =>
    (match alpha with
      | .host v => v
      | .device c => c.getD 0) * dA * dB
  cblas_trmm := fun _ alpha A B => alpha * A * B
  norm_check_general := fun _ gold result => result - gold

/-- Arguments for `stubTrmmEnv`: a 3-by-3 problem with the given checks. -/
def stubTrmmArguments (unit_check norm_check : Bool) : TrmmArguments :=
  { side := rocblas_side.rocblas_side_left, uplo := rocblas_fill.rocblas_fill_upper,
    transA := rocblas_operation.rocblas_operation_none,
    diag := rocblas_diagonal.rocblas_diagonal_non_unit, M := 3, N := 3, lda := 3, ldb := 3,
    unit_check := unit_check, norm_check := norm_check, timing := false, is_half := false }

/-- The norm error of the host-pointer-mode result of `testing_her2k_batched`
against the reference, before the absolute value is taken. -/
def her2kErr1 {M S U R : Type} (env : Her2kEnv M S U R) (arg : Her2kArguments) (alpha : S)
    (beta : U) (A B C0 : Batch M) : R :=
  env.norm_check_general arg (her2kReference env arg alpha beta A B C0)
    (her2kHostResult env arg alpha beta A B C0)

/-- The norm error of the device-pointer-mode result of `testing_her2k_batched`
against the same reference, before the absolute value is taken. -/
def her2kErr2 {M S U R : Type} (env : Her2kEnv M S U R) (arg : Her2kArguments) (alpha : S)
    (beta : U) (A B C0 : Batch M) : R :=
  env.norm_check_general arg (her2kReference env arg alpha beta A B C0)
    (her2kDeviceResult env arg alpha beta A B C0)

/-- The norm error of the host-pointer-mode result of `testing_trmm` against the
reference, before the absolute value is taken. -/
def trmmErr1 {Mat S R : Type} (env : TrmmEnv Mat S R) (arg : TrmmArguments) (alpha : S)
    (A0 B0 : Mat) : R :=
  env.norm_check_general arg (env.cblas_trmm arg alpha A0 B0) (trmmHostResult env arg alpha A0 B0)

/-- The norm error of the device-pointer-mode result of `testing_trmm` against
the same reference, before the absolute value is taken. -/
def trmmErr2 {Mat S R : Type} (env : TrmmEnv Mat S R) (arg : TrmmArguments) (alpha : S)
    (A0 B0 : Mat) : R :=
  env.norm_check_general arg (env.cblas_trmm arg alpha A0 B0)
    (trmmDeviceResult env arg alpha A0 B0)

/-- A `rocblas_datatype` value, as the integer of the enumerator. -/
abbrev rocblas_datatype := Int

/-- The fields of `Arguments` that `name_suffix` reads. -/
structure Arguments where
  name : String
  function : String
  a_type : rocblas_datatype
  b_type : rocblas_datatype
  compute_type : rocblas_datatype
  N : Int
  incx : Int
  incy : Int
  stride_x : Int
  stride_y : Int
  stride_a : Int
  stride_b : Int
  stride_c : Int
  stride_d : Int
  batch_count : Int
  fortran : Bool
  deriving DecidableEq, Repr

/-- The decimal digits of a natural number, most significant first. -/
def decimalDigits (n : Nat) : List Char :=
  if n < 10 then [Nat.digitChar n] else decimalDigits (n / 10) ++ [Nat.digitChar (n % 10)]
decreasing_by omega

/-- The characters `operator<<` inserts for an `int` (or a `rocblas_stride`): a
minus sign for a negative value, then the decimal digits of the magnitude. -/
def ostream_int_chars (i : Int) : List Char :=
  if i < 0 then '-' :: decimalDigits i.natAbs else decimalDigits i.toNat

/-- The string `operator<<` inserts for an `int`. -/
def ostream_int (i : Int) : String :=
  String.mk (ostream_int_chars i)

/-- The test `strstr(haystack, needle) != nullptr`: `needle` occurs in
`haystack`. -/
def strstr_found : List Char → List Char → Bool
  | [], needle => needle.isEmpty
  | c :: cs, needle => needle.isPrefixOf (c :: cs) || strstr_found cs needle

/-- The characters `rot_test_template::name_suffix` (lines 56-132) inserts into
the test name with `<<`, for the suite `BLAS1`. `RocBLAS_TestName` is declared
outside the sources at hand: what its constructor makes of `arg.name` and its
conversion to `std::string` on return are not part of this value. -/
def name_suffix (rocblas_datatype2string : rocblas_datatype → String) (BLAS1 : blas1)
    (arg : Arguments) : String :=
  let name := rocblas_datatype2string arg.a_type
  if strstr_found arg.function.data "_bad_arg".data then
    name ++ "_bad_arg"
  else
    let is_rot : Bool := BLAS1 = blas1.rot || BLAS1 = blas1.rot_batched
      || BLAS1 = blas1.rot_strided_batched
    let is_rotg : Bool := BLAS1 = blas1.rotg || BLAS1 = blas1.rotg_batched
      || BLAS1 = blas1.rotg_strided_batched
    let is_rotmg : Bool := BLAS1 = blas1.rotmg || BLAS1 = blas1.rotmg_batched
      || BLAS1 = blas1.rotmg_strided_batched
    let is_batched : Bool := BLAS1 = blas1.rot_batched || BLAS1 = blas1.rotm_batched
      || BLAS1 = blas1.rotg_batched || BLAS1 = blas1.rotmg_batched
    let is_strided : Bool := BLAS1 = blas1.rot_strided_batched
      || BLAS1 = blas1.rotm_strided_batched || BLAS1 = blas1.rotg_strided_batched
      || BLAS1 = blas1.rotmg_strided_batched
    let name :=
      if (is_rotg || is_rot) && decide (arg.a_type ≠ arg.b_type) then
        name ++ "_" ++ rocblas_datatype2string arg.b_type
      else name
    let name :=
      if is_rot && decide (arg.compute_type ≠ arg.a_type) then
        name ++ "_" ++ rocblas_datatype2string arg.compute_type
      else name
    let name :=
      if !is_rotg && !is_rotmg then
        name ++ "_" ++ ostream_int arg.N ++ "_" ++ ostream_int arg.incx
      else name
    let name :=
      if is_strided && !is_rotg then name ++ "_" ++ ostream_int arg.stride_x else name
    let name :=
      if is_rot || decide (BLAS1 = blas1.rotm) || decide (BLAS1 = blas1.rotm_batched)
          || decide (BLAS1 = blas1.rotm_strided_batched) then
        name ++ "_" ++ ostream_int arg.incy
      else name
    let name :=
      if decide (BLAS1 = blas1.rot_strided_batched)
          || decide (BLAS1 = blas1.rotm_strided_batched) then
        name ++ "_" ++ ostream_int arg.stride_y
      else name
    let name :=
      if BLAS1 = blas1.rotg_strided_batched then
        name ++ "_" ++ ostream_int arg.stride_a ++ "_" ++ ostream_int arg.stride_b ++ "_"
          ++ ostream_int arg.stride_c ++ "_" ++ ostream_int arg.stride_d
      else name
    let name :=
      if decide (BLAS1 = blas1.rotm_strided_batched)
          || decide (BLAS1 = blas1.rotmg_strided_batched) then
        name ++ "_" ++ ostream_int arg.stride_c
      else name
    let name :=
      if is_batched || is_strided then name ++ "_" ++ ostream_int arg.batch_count else name
    let name := if arg.fortran then name ++ "_F" else name
    name

/-- A stand-in for `rocblas_datatype2string`. -/
def stubDatatype2string (t : rocblas_datatype) : String :=
  if t = 151 then "f32_r" else if t = 152 then "f64_r" else "invalid"

end RocblasClients

namespace RocblasSpr

/-! ## Lemmas on the embedding -/

section Lemmas

open rocblas_status rocblas_fill

variable {σ : Type} (env : Env σ) (T : ElemType) (w : σ) (h : _rocblas_handle)
  (uplo : rocblas_fill) (n : Int) (alpha x : Ptr) (incx stridex : Int) (AP : Ptr)
  (strideA batch_count : Int)

/-- The logging block makes logging calls only. -/
theorem logging_isLog (layer_mode : Nat) :
    ∀ e ∈ logging env T w h layer_mode uplo n alpha x incx stridex AP strideA batch_count,
      e.isLog = true := by
  intro e he
  unfold logging at he
  split at he
  · simp only [List.mem_append] at he
    rcases he with (he | he) | he <;> split at he <;> simp at he <;> subst he <;> rfl
  · simp at he

/-- A logging call is neither a numeric check nor a kernel invocation. -/
theorem Event.not_compute_of_isLog (e : Event) (he : e.isLog = true) :
    e.isCheck = false ∧ e.isKernel = false := by
  cases e <;> simp_all [Event.isLog, Event.isCheck, Event.isKernel]

/-- An outcome whose trace is the logging block made no check and no kernel call. -/
theorem noCompute_logging (s : rocblas_status) (v : σ) (layer_mode : Nat) :
    Outcome.noCompute
      (⟨s, logging env T w h layer_mode uplo n alpha x incx stridex AP strideA batch_count, v⟩ :
        Outcome σ) := by
  intro e he
  exact Event.not_compute_of_isLog e (logging_isLog env T w h uplo n alpha x incx stridex AP
    strideA batch_count layer_mode e he)

/-- Line 96-97: an unrecognised fill mode ends the call with `invalid_value`. -/
theorem impl_invalid_value (hq : h.is_device_memory_size_query = false)
    (hl : uplo ≠ rocblas_fill_lower) (hu : uplo ≠ rocblas_fill_upper) :
    rocblas_spr_strided_batched_impl env T w (some h) uplo n alpha x incx stridex AP strideA
        batch_count
      = ⟨rocblas_status_invalid_value,
          logging env T w h h.layer_mode uplo n alpha x incx stridex AP strideA batch_count, w⟩ := by
  simp [rocblas_spr_strided_batched_impl, RETURN_ZERO_DEVICE_MEMORY_SIZE_IF_QUERIED, hq, hl, hu]

/-- Line 98-99: a bad size ends the call with `invalid_size`. -/
theorem impl_invalid_size (hq : h.is_device_memory_size_query = false)
    (hv : uplo = rocblas_fill_lower ∨ uplo = rocblas_fill_upper)
    (hs : n < 0 ∨ incx = 0 ∨ batch_count < 0) :
    rocblas_spr_strided_batched_impl env T w (some h) uplo n alpha x incx stridex AP strideA
        batch_count
      = ⟨rocblas_status_invalid_size,
          logging env T w h h.layer_mode uplo n alpha x incx stridex AP strideA batch_count, w⟩ := by
  have hv2 : ¬ (uplo ≠ rocblas_fill_lower ∧ uplo ≠ rocblas_fill_upper) := by
    rcases hv with hv | hv <;> simp [hv]
  simp only [rocblas_spr_strided_batched_impl, RETURN_ZERO_DEVICE_MEMORY_SIZE_IF_QUERIED, hq,
    if_neg hv2, if_pos hs]
  rfl

/-- Line 100-101: a zero size ends the call with `success`. -/
theorem impl_quick_return (hq : h.is_device_memory_size_query = false)
    (hv : uplo = rocblas_fill_lower ∨ uplo = rocblas_fill_upper)
    (hs : ¬ (n < 0 ∨ incx = 0 ∨ batch_count < 0)) (hz : n = 0 ∨ batch_count = 0) :
    rocblas_spr_strided_batched_impl env T w (some h) uplo n alpha x incx stridex AP strideA
        batch_count
      = ⟨rocblas_status_success,
          logging env T w h h.layer_mode uplo n alpha x incx stridex AP strideA batch_count, w⟩ := by
  have hv2 : ¬ (uplo ≠ rocblas_fill_lower ∧ uplo ≠ rocblas_fill_upper) := by
    rcases hv with hv | hv <;> simp [hv]
  simp only [rocblas_spr_strided_batched_impl, RETURN_ZERO_DEVICE_MEMORY_SIZE_IF_QUERIED, hq,
    if_neg hv2, if_neg hs, if_pos hz]
  rfl

/-- Line 102-103: a null operand ends the call with `invalid_pointer`. -/
theorem impl_invalid_pointer (hq : h.is_device_memory_size_query = false)
    (hv : uplo = rocblas_fill_lower ∨ uplo = rocblas_fill_upper)
    (hs : ¬ (n < 0 ∨ incx = 0 ∨ batch_count < 0)) (hz : ¬ (n = 0 ∨ batch_count = 0))
    (hp : x = 0 ∨ AP = 0 ∨ alpha = 0) :
    rocblas_spr_strided_batched_impl env T w (some h) uplo n alpha x incx stridex AP strideA
        batch_count
      = ⟨rocblas_status_invalid_pointer,
          logging env T w h h.layer_mode uplo n alpha x incx stridex AP strideA batch_count, w⟩ := by
  have hv2 : ¬ (uplo ≠ rocblas_fill_lower ∧ uplo ≠ rocblas_fill_upper) := by
    rcases hv with hv | hv <;> simp [hv]
  simp only [rocblas_spr_strided_batched_impl, RETURN_ZERO_DEVICE_MEMORY_SIZE_IF_QUERIED, hq,
    if_neg hv2, if_neg hs, if_neg hz, if_pos hp]
  rfl

/-- Past the four argument checks the call is the sanitizer and kernel path of
lines 105-153. -/
theorem impl_passes (hq : h.is_device_memory_size_query = false)
    (hp : passesValidation uplo n alpha x incx AP batch_count) :
    rocblas_spr_strided_batched_impl env T w (some h) uplo n alpha x incx stridex AP strideA
        batch_count
      = (let logs :=
           logging env T w h h.layer_mode uplo n alpha x incx stridex AP strideA batch_count
         let cargs := checkArgs T h n x incx stridex AP strideA batch_count h.check_numerics
         let targs := templateArgs h uplo n alpha x incx stridex AP strideA batch_count
         let pre := env.rocblas_spr_check_numerics w (cargs true)
         let r := env.rocblas_spr_template w targs
         let post := env.rocblas_spr_check_numerics r.2 (cargs false)
         if h.check_numerics = 0 then
           ⟨r.1, logs ++ [Event.rocblas_spr_template targs], r.2⟩
         else if pre ≠ rocblas_status_success then
           ⟨pre, logs ++ [Event.rocblas_spr_check_numerics (cargs true)], w⟩
         else if r.1 ≠ rocblas_status_success then
           ⟨r.1, logs ++ [Event.rocblas_spr_check_numerics (cargs true),
              Event.rocblas_spr_template targs], r.2⟩
         else
           ⟨post, logs ++ [Event.rocblas_spr_check_numerics (cargs true),
              Event.rocblas_spr_template targs,
              Event.rocblas_spr_check_numerics (cargs false)], r.2⟩) := by
  obtain ⟨hv, hn, hi, hb, hx, hA, ha⟩ := hp
  have hv2 : ¬ (uplo ≠ rocblas_fill_lower ∧ uplo ≠ rocblas_fill_upper) := by
    rcases hv with hv | hv <;> simp [hv]
  have hs : ¬ (n < 0 ∨ incx = 0 ∨ batch_count < 0) := by
    rintro (h1 | h1 | h1)
    · omega
    · exact hi h1
    · omega
  have hz : ¬ (n = 0 ∨ batch_count = 0) := by
    rintro (h1 | h1) <;> omega
  have hnull : ¬ (x = 0 ∨ AP = 0 ∨ alpha = 0) := by
    rintro (h1 | h1 | h1)
    · exact hx h1
    · exact hA h1
    · exact ha h1
  simp only [rocblas_spr_strided_batched_impl, RETURN_ZERO_DEVICE_MEMORY_SIZE_IF_QUERIED, hq,
    if_neg hv2, if_neg hs, if_neg hz, if_neg hnull]
  by_cases hc : h.check_numerics = 0
  · simp [hc]
  · by_cases hpre : env.rocblas_spr_check_numerics w
        (checkArgs T h n x incx stridex AP strideA batch_count h.check_numerics true)
        = rocblas_status_success
    · by_cases hk : (env.rocblas_spr_template w
          (templateArgs h uplo n alpha x incx stridex AP strideA batch_count)).1
          = rocblas_status_success
      · by_cases hpost : env.rocblas_spr_check_numerics
            (env.rocblas_spr_template w
              (templateArgs h uplo n alpha x incx stridex AP strideA batch_count)).2
            (checkArgs T h n x incx stridex AP strideA batch_count h.check_numerics false)
            = rocblas_status_success
        · simp [hc, hpre, hk, hpost]
        · simp [hc, hpre, hk, hpost]
      · simp [hc, hpre, hk]
    · simp [hc, hpre]

/-- When an argument check fails or the quick return is taken, no numeric check
and no kernel call is made. -/
theorem impl_noCompute_of_not_passes (hq : h.is_device_memory_size_query = false)
    (hp : ¬ passesValidation uplo n alpha x incx AP batch_count) :
    (rocblas_spr_strided_batched_impl env T w (some h) uplo n alpha x incx stridex AP strideA
        batch_count).noCompute := by
  by_cases hv : uplo = rocblas_fill_lower ∨ uplo = rocblas_fill_upper
  · by_cases hs : n < 0 ∨ incx = 0 ∨ batch_count < 0
    · rw [impl_invalid_size env T w h uplo n alpha x incx stridex AP strideA batch_count hq hv hs]
      exact noCompute_logging env T w h uplo n alpha x incx stridex AP strideA batch_count _ _ _
    · by_cases hz : n = 0 ∨ batch_count = 0
      · rw [impl_quick_return env T w h uplo n alpha x incx stridex AP strideA batch_count hq hv
          hs hz]
        exact noCompute_logging env T w h uplo n alpha x incx stridex AP strideA batch_count _ _ _
      · by_cases hnull : x = 0 ∨ AP = 0 ∨ alpha = 0
        · rw [impl_invalid_pointer env T w h uplo n alpha x incx stridex AP strideA batch_count
            hq hv hs hz hnull]
          exact noCompute_logging env T w h uplo n alpha x incx stridex AP strideA batch_count
            _ _ _
        · exfalso
          apply hp
          refine ⟨hv, ?_, ?_, ?_, ?_, ?_, ?_⟩
          · by_contra hc
            have : n < 0 ∨ n = 0 := by omega
            rcases this with h1 | h1
            · exact hs (Or.inl h1)
            · exact hz (Or.inl h1)
          · exact fun h1 => hs (Or.inr (Or.inl h1))
          · by_contra hc
            have : batch_count < 0 ∨ batch_count = 0 := by omega
            rcases this with h1 | h1
            · exact hs (Or.inr (Or.inr h1))
            · exact hz (Or.inr h1)
          · exact fun h1 => hnull (Or.inl h1)
          · exact fun h1 => hnull (Or.inr (Or.inl h1))
          · exact fun h1 => hnull (Or.inr (Or.inr h1))
  · have hl : uplo ≠ rocblas_fill_lower := fun h1 => hv (Or.inl h1)
    have hu : uplo ≠ rocblas_fill_upper := fun h1 => hv (Or.inr h1)
    rw [impl_invalid_value env T w h uplo n alpha x incx stridex AP strideA batch_count hq hl hu]
    exact noCompute_logging env T w h uplo n alpha x incx stridex AP strideA batch_count _ _ _

/-- A handle queried for its device memory size makes the call return before
anything else happens. -/
theorem impl_size_query (hq : h.is_device_memory_size_query = true) :
    rocblas_spr_strided_batched_impl env T w (some h) uplo n alpha x incx stridex AP strideA
        batch_count = ⟨env.size_query_status, [], w⟩ := by
  simp [rocblas_spr_strided_batched_impl, RETURN_ZERO_DEVICE_MEMORY_SIZE_IF_QUERIED, hq]

/-- The logging block holds no numeric-check call. -/
theorem logging_no_check (layer_mode : Nat) (c : CheckArgs) :
    Event.rocblas_spr_check_numerics c
      ∉ logging env T w h layer_mode uplo n alpha x incx stridex AP strideA batch_count := by
  intro hmem
  have := logging_isLog env T w h uplo n alpha x incx stridex AP strideA batch_count layer_mode
    _ hmem
  exact Bool.noConfusion this

/-- The logging block holds no kernel call. -/
theorem logging_no_template (layer_mode : Nat) (a : TemplateArgs) :
    Event.rocblas_spr_template a
      ∉ logging env T w h layer_mode uplo n alpha x incx stridex AP strideA batch_count := by
  intro hmem
  have := logging_isLog env T w h uplo n alpha x incx stridex AP strideA batch_count layer_mode
    _ hmem
  exact Bool.noConfusion this

/-- Removing the logging calls from the logging block leaves nothing. -/
theorem logging_filter (layer_mode : Nat) :
    (logging env T w h layer_mode uplo n alpha x incx stridex AP strideA batch_count).filter
      (fun e => !e.isLog) = [] := by
  rw [List.filter_eq_nil_iff]
  intro e he
  simp [logging_isLog env T w h uplo n alpha x incx stridex AP strideA batch_count layer_mode e he]

/-- The logging block counts no kernel call. -/
theorem logging_countP_isKernel (layer_mode : Nat) :
    (logging env T w h layer_mode uplo n alpha x incx stridex AP strideA batch_count).countP
      Event.isKernel = 0 := by
  rw [List.countP_eq_zero]
  intro e he
  have := (Event.not_compute_of_isLog e (logging_isLog env T w h uplo n alpha x incx stridex AP
    strideA batch_count layer_mode e he)).2
  simp [this]

/-- Any call either makes no numeric check and no kernel call, or has a non-null
handle that is not queried for its size and arguments that pass the gate. -/
theorem impl_cases (handle : rocblas_handle) :
    (rocblas_spr_strided_batched_impl env T w handle uplo n alpha x incx stridex AP strideA
        batch_count).noCompute
    ∨ ∃ hd, handle = some hd ∧ hd.is_device_memory_size_query = false
        ∧ passesValidation uplo n alpha x incx AP batch_count := by
  cases handle with
  | none =>
    left
    intro e he
    simp [rocblas_spr_strided_batched_impl] at he
  | some hd =>
    by_cases hq : hd.is_device_memory_size_query = true
    · left
      rw [impl_size_query env T w hd uplo n alpha x incx stridex AP strideA batch_count hq]
      intro e he
      simp at he
    · have hq2 : hd.is_device_memory_size_query = false := by simpa using hq
      by_cases hp : passesValidation uplo n alpha x incx AP batch_count
      · exact Or.inr ⟨hd, rfl, hq2, hp⟩
      · exact Or.inl (impl_noCompute_of_not_passes env T w hd uplo n alpha x incx stridex AP
          strideA batch_count hq2 hp)

/-- A numeric check is not a logging call. -/
theorem Event.isLog_check (a : CheckArgs) :
    (Event.rocblas_spr_check_numerics a).isLog = false := rfl

/-- A kernel invocation is not a logging call. -/
theorem Event.isLog_template (a : TemplateArgs) :
    (Event.rocblas_spr_template a).isLog = false := rfl

/-- The logging block counts no numeric check. -/
theorem logging_countP_isCheck (layer_mode : Nat) :
    (logging env T w h layer_mode uplo n alpha x incx stridex AP strideA batch_count).countP
      Event.isCheck = 0 := by
  rw [List.countP_eq_zero]
  intro e he
  have := (Event.not_compute_of_isLog e (logging_isLog env T w h uplo n alpha x incx stridex AP
    strideA batch_count layer_mode e he)).1
  simp [this]

/-- When the arguments do not pass the gate, the status is fixed by the
arguments alone (not by the handle object or the memory), the trace is the
logging block and the memory is untouched. -/
theorem impl_not_passes (hp : ¬ passesValidation uplo n alpha x incx AP batch_count) :
    ∃ s, ∀ (hd : _rocblas_handle) (v : σ), hd.is_device_memory_size_query = false →
      rocblas_spr_strided_batched_impl env T v (some hd) uplo n alpha x incx stridex AP strideA
          batch_count
        = ⟨s, logging env T v hd hd.layer_mode uplo n alpha x incx stridex AP strideA
            batch_count, v⟩ := by
  by_cases hv : uplo = rocblas_fill_lower ∨ uplo = rocblas_fill_upper
  · by_cases hs : n < 0 ∨ incx = 0 ∨ batch_count < 0
    · exact ⟨rocblas_status_invalid_size, fun hd v hq =>
        impl_invalid_size env T v hd uplo n alpha x incx stridex AP strideA batch_count hq hv hs⟩
    · by_cases hz : n = 0 ∨ batch_count = 0
      · exact ⟨rocblas_status_success, fun hd v hq =>
          impl_quick_return env T v hd uplo n alpha x incx stridex AP strideA batch_count hq hv
            hs hz⟩
      · by_cases hnull : x = 0 ∨ AP = 0 ∨ alpha = 0
        · exact ⟨rocblas_status_invalid_pointer, fun hd v hq =>
            impl_invalid_pointer env T v hd uplo n alpha x incx stridex AP strideA batch_count
              hq hv hs hz hnull⟩
        · exfalso
          apply hp
          refine ⟨hv, ?_, ?_, ?_, ?_, ?_, ?_⟩
          · by_contra hc
            have : n < 0 ∨ n = 0 := by omega
            rcases this with h1 | h1
            · exact hs (Or.inl h1)
            · exact hz (Or.inl h1)
          · exact fun h1 => hs (Or.inr (Or.inl h1))
          · by_contra hc
            have : batch_count < 0 ∨ batch_count = 0 := by omega
            rcases this with h1 | h1
            · exact hs (Or.inr (Or.inr h1))
            · exact hz (Or.inr h1)
          · exact fun h1 => hnull (Or.inl h1)
          · exact fun h1 => hnull (Or.inr (Or.inl h1))
          · exact fun h1 => hnull (Or.inr (Or.inr h1))
  · have hl : uplo ≠ rocblas_fill_lower := fun h1 => hv (Or.inl h1)
    have hu : uplo ≠ rocblas_fill_upper := fun h1 => hv (Or.inr h1)
    exact ⟨rocblas_status_invalid_value, fun hd v hq =>
      impl_invalid_value env T v hd uplo n alpha x incx stridex AP strideA batch_count hq hl hu⟩

/-- The numeric-check argument list built for a handle with another logging mask. -/
theorem checkArgs_withLayerMode (m : Nat) (cn : Int) (b : Bool) :
    checkArgs T (h.withLayerMode m) n x incx stridex AP strideA batch_count cn b
      = (checkArgs T h n x incx stridex AP strideA batch_count cn b).withLayerMode m := rfl

/-- The kernel argument list built for a handle with another logging mask. -/
theorem templateArgs_withLayerMode (m : Nat) :
    templateArgs (h.withLayerMode m) uplo n alpha x incx stridex AP strideA batch_count
      = (templateArgs h uplo n alpha x incx stridex AP strideA batch_count).withLayerMode m := rfl

/-- Every kernel call of a trace is made on a non-null handle that is not
queried for its size, with arguments that pass the gate, with the argument
list of lines 128-129, and after a successful input check when checking is on. -/
theorem impl_template_mem (handle : rocblas_handle) (a : TemplateArgs)
    (ha : Event.rocblas_spr_template a
      ∈ (rocblas_spr_strided_batched_impl env T w handle uplo n alpha x incx stridex AP strideA
          batch_count).events) :
    ∃ hd, handle = some hd ∧ hd.is_device_memory_size_query = false
      ∧ passesValidation uplo n alpha x incx AP batch_count
      ∧ a = templateArgs hd uplo n alpha x incx stridex AP strideA batch_count := by
  rcases impl_cases env T w uplo n alpha x incx stridex AP strideA batch_count handle with
    hno | ⟨hd, rfl, hq, hp⟩
  · exact absurd (hno _ ha).2 (by simp [Event.isKernel])
  · refine ⟨hd, rfl, hq, hp, ?_⟩
    rw [impl_passes env T w hd uplo n alpha x incx stridex AP strideA batch_count hq hp] at ha
    have hlt := logging_no_template env T w hd uplo n alpha x incx stridex AP strideA
      batch_count hd.layer_mode a
    by_cases hc0 : hd.check_numerics = 0
    · simp only [hc0, if_true, List.mem_append, List.mem_singleton,
        Event.rocblas_spr_template.injEq] at ha
      rcases ha with ha | ha
      · exact absurd ha hlt
      · exact ha
    · simp only [if_neg hc0] at ha
      split at ha
      · simp only [List.mem_append, List.mem_singleton] at ha
        rcases ha with ha | ha
        · exact absurd ha hlt
        · exact Event.noConfusion ha
      · split at ha
        · simp only [List.mem_append, List.mem_cons, List.mem_singleton,
            Event.rocblas_spr_template.injEq] at ha
          rcases ha with ha | ha | ha | ha
          · exact absurd ha hlt
          · exact Event.noConfusion ha
          · exact ha
          · simp at ha
        · simp only [List.mem_append, List.mem_cons, List.mem_singleton,
            Event.rocblas_spr_template.injEq] at ha
          rcases ha with ha | ha | ha | ha
          · exact absurd ha hlt
          · exact Event.noConfusion ha
          · exact ha
          · rcases ha with ha | ha
            · exact Event.noConfusion ha
            · simp at ha

/-- Every numeric check of a trace is made on a non-null handle that is not
queried for its size, with arguments that pass the gate and with the argument
list of lines 111-123 or 137-149. -/
theorem impl_check_mem (handle : rocblas_handle) (c : CheckArgs)
    (hc : Event.rocblas_spr_check_numerics c
      ∈ (rocblas_spr_strided_batched_impl env T w handle uplo n alpha x incx stridex AP strideA
          batch_count).events) :
    ∃ hd b, handle = some hd ∧ hd.is_device_memory_size_query = false
      ∧ passesValidation uplo n alpha x incx AP batch_count
      ∧ c = checkArgs T hd n x incx stridex AP strideA batch_count hd.check_numerics b := by
  rcases impl_cases env T w uplo n alpha x incx stridex AP strideA batch_count handle with
    hno | ⟨hd, rfl, hq, hp⟩
  · exact absurd (hno _ hc).1 (by simp [Event.isCheck])
  · rw [impl_passes env T w hd uplo n alpha x incx stridex AP strideA batch_count hq hp] at hc
    have hlc := logging_no_check env T w hd uplo n alpha x incx stridex AP strideA
      batch_count hd.layer_mode c
    by_cases hc0 : hd.check_numerics = 0
    · simp only [hc0, if_true, List.mem_append, List.mem_singleton] at hc
      rcases hc with hc | hc
      · exact absurd hc hlc
      · exact Event.noConfusion hc
    · simp only [if_neg hc0] at hc
      split at hc
      · simp only [List.mem_append, List.mem_singleton,
          Event.rocblas_spr_check_numerics.injEq] at hc
        rcases hc with hc | hc
        · exact absurd hc hlc
        · exact ⟨hd, true, rfl, hq, hp, hc⟩
      · split at hc
        · simp only [List.mem_append, List.mem_cons, List.mem_singleton,
            Event.rocblas_spr_check_numerics.injEq] at hc
          rcases hc with hc | hc | hc | hc
          · exact absurd hc hlc
          · exact ⟨hd, true, rfl, hq, hp, hc⟩
          · exact Event.noConfusion hc
          · simp at hc
        · simp only [List.mem_append, List.mem_cons, List.mem_singleton,
            Event.rocblas_spr_check_numerics.injEq] at hc
          rcases hc with hc | hc | hc | hc
          · exact absurd hc hlc
          · exact ⟨hd, true, rfl, hq, hp, hc⟩
          · exact Event.noConfusion hc
          · rcases hc with hc | hc
            · exact ⟨hd, false, rfl, hq, hp, hc⟩
            · simp at hc

end Lemmas

/-! ## The validation gate -/

section Gate

open rocblas_status rocblas_fill

variable {σ : Type} (env : Env σ) (T : ElemType) (w : σ) (h : _rocblas_handle)
  (uplo : rocblas_fill) (n : Int) (alpha x : Ptr) (incx stridex : Int) (AP : Ptr)
  (strideA batch_count : Int)

/-- C1: with a non-null handle that is not a device-memory-size query the
outcome follows the precedence value, size, quick return, pointer: an
unrecognised `uplo` gives `invalid_value`; otherwise `n < 0`, `incx == 0` or
`batch_count < 0` gives `invalid_size`; otherwise `n == 0` or
`batch_count == 0` gives `success`; otherwise a null `x`, `AP` or `alpha` gives
`invalid_pointer`; on none of these four exits is a numeric check or the kernel
called, and only when all four are passed is one called. In particular an
invalid `uplo` with a negative `n` gives `invalid_value`, and a negative `n`
with null buffers gives `invalid_size`. -/
theorem C1_validation_precedence (hq : h.is_device_memory_size_query = false) :
    ((uplo ≠ rocblas_fill_lower ∧ uplo ≠ rocblas_fill_upper) →
        (rocblas_spr_strided_batched_impl env T w (some h) uplo n alpha x incx stridex AP strideA
          batch_count).status = rocblas_status_invalid_value
        ∧ (rocblas_spr_strided_batched_impl env T w (some h) uplo n alpha x incx stridex AP strideA
          batch_count).noCompute)
    ∧ (¬ (uplo ≠ rocblas_fill_lower ∧ uplo ≠ rocblas_fill_upper) →
        (n < 0 ∨ incx = 0 ∨ batch_count < 0) →
        (rocblas_spr_strided_batched_impl env T w (some h) uplo n alpha x incx stridex AP strideA
          batch_count).status = rocblas_status_invalid_size
        ∧ (rocblas_spr_strided_batched_impl env T w (some h) uplo n alpha x incx stridex AP strideA
          batch_count).noCompute)
    ∧ (¬ (uplo ≠ rocblas_fill_lower ∧ uplo ≠ rocblas_fill_upper) →
        ¬ (n < 0 ∨ incx = 0 ∨ batch_count < 0) → (n = 0 ∨ batch_count = 0) →
        (rocblas_spr_strided_batched_impl env T w (some h) uplo n alpha x incx stridex AP strideA
          batch_count).status = rocblas_status_success
        ∧ (rocblas_spr_strided_batched_impl env T w (some h) uplo n alpha x incx stridex AP strideA
          batch_count).noCompute)
    ∧ (¬ (uplo ≠ rocblas_fill_lower ∧ uplo ≠ rocblas_fill_upper) →
        ¬ (n < 0 ∨ incx = 0 ∨ batch_count < 0) → ¬ (n = 0 ∨ batch_count = 0) →
        (x = 0 ∨ AP = 0 ∨ alpha = 0) →
        (rocblas_spr_strided_batched_impl env T w (some h) uplo n alpha x incx stridex AP strideA
          batch_count).status = rocblas_status_invalid_pointer
        ∧ (rocblas_spr_strided_batched_impl env T w (some h) uplo n alpha x incx stridex AP strideA
          batch_count).noCompute)
    ∧ (¬ (uplo ≠ rocblas_fill_lower ∧ uplo ≠ rocblas_fill_upper) →
        ¬ (n < 0 ∨ incx = 0 ∨ batch_count < 0) → ¬ (n = 0 ∨ batch_count = 0) →
        ¬ (x = 0 ∨ AP = 0 ∨ alpha = 0) →
        ∃ e ∈ (rocblas_spr_strided_batched_impl env T w (some h) uplo n alpha x incx stridex AP strideA
          batch_count).events,
          e.isCheck = true ∨ e.isKernel = true)
    ∧ ((uplo ≠ rocblas_fill_lower ∧ uplo ≠ rocblas_fill_upper) → n < 0 →
        (rocblas_spr_strided_batched_impl env T w (some h) uplo n alpha x incx stridex AP strideA
          batch_count).status = rocblas_status_invalid_value)
    ∧ ((uplo = rocblas_fill_lower ∨ uplo = rocblas_fill_upper) → n < 0 →
        x = 0 → AP = 0 → alpha = 0 →
        (rocblas_spr_strided_batched_impl env T w (some h) uplo n alpha x incx stridex AP strideA
          batch_count).status = rocblas_status_invalid_size) := by
  have valid_of : ¬ (uplo ≠ rocblas_fill_lower ∧ uplo ≠ rocblas_fill_upper) →
      (uplo = rocblas_fill_lower ∨ uplo = rocblas_fill_upper) := by
    intro hv
    by_cases h1 : uplo = rocblas_fill_lower
    · exact Or.inl h1
    · by_cases h2 : uplo = rocblas_fill_upper
      · exact Or.inr h2
      · exact absurd ⟨h1, h2⟩ hv
  refine ⟨?_, ?_, ?_, ?_, ?_, ?_, ?_⟩
  · rintro ⟨hl, hu⟩
    have e := impl_invalid_value env T w h uplo n alpha x incx stridex AP strideA batch_count
      hq hl hu
    rw [e]
    refine ⟨rfl, ?_⟩
    exact noCompute_logging env T w h uplo n alpha x incx stridex AP strideA batch_count _ _ _
  · intro hv hs
    have e := impl_invalid_size env T w h uplo n alpha x incx stridex AP strideA batch_count
      hq (valid_of hv) hs
    rw [e]
    refine ⟨rfl, ?_⟩
    exact noCompute_logging env T w h uplo n alpha x incx stridex AP strideA batch_count _ _ _
  · intro hv hs hz
    have e := impl_quick_return env T w h uplo n alpha x incx stridex AP strideA batch_count
      hq (valid_of hv) hs hz
    rw [e]
    refine ⟨rfl, ?_⟩
    exact noCompute_logging env T w h uplo n alpha x incx stridex AP strideA batch_count _ _ _
  · intro hv hs hz hp
    have e := impl_invalid_pointer env T w h uplo n alpha x incx stridex AP strideA batch_count
      hq (valid_of hv) hs hz hp
    rw [e]
    refine ⟨rfl, ?_⟩
    exact noCompute_logging env T w h uplo n alpha x incx stridex AP strideA batch_count _ _ _
  · intro hv hs hz hp
    have hpass : passesValidation uplo n alpha x incx AP batch_count := by
      refine ⟨valid_of hv, ?_, ?_, ?_, ?_, ?_, ?_⟩
      · by_contra hc
        have : n < 0 ∨ n = 0 := by omega
        rcases this with h1 | h1
        · exact hs (Or.inl h1)
        · exact hz (Or.inl h1)
      · exact fun h1 => hs (Or.inr (Or.inl h1))
      · by_contra hc
        have : batch_count < 0 ∨ batch_count = 0 := by omega
        rcases this with h1 | h1
        · exact hs (Or.inr (Or.inr h1))
        · exact hz (Or.inr h1)
      · exact fun h1 => hp (Or.inl h1)
      · exact fun h1 => hp (Or.inr (Or.inl h1))
      · exact fun h1 => hp (Or.inr (Or.inr h1))
    have e := impl_passes env T w h uplo n alpha x incx stridex AP strideA batch_count hq hpass
    rw [e]
    by_cases hc : h.check_numerics = 0
    · refine ⟨Event.rocblas_spr_template
        (templateArgs h uplo n alpha x incx stridex AP strideA batch_count), ?_, Or.inr rfl⟩
      simp [hc]
    · refine ⟨Event.rocblas_spr_check_numerics
        (checkArgs T h n x incx stridex AP strideA batch_count h.check_numerics true), ?_,
        Or.inl rfl⟩
      simp only [if_neg hc]
      split
      · simp
      · split <;> simp
  · rintro ⟨hl, hu⟩ _
    have e := impl_invalid_value env T w h uplo n alpha x incx stridex AP strideA batch_count
      hq hl hu
    rw [e]
  · intro hv hn _ _ _
    have e := impl_invalid_size env T w h uplo n alpha x incx stridex AP strideA batch_count
      hq hv (Or.inl hn)
    rw [e]

/-- C1 at concrete arguments: fill mode `full` with `n = -1` gives
`invalid_value`; fill mode `upper` with `n = -1` and null buffers gives
`invalid_size`. -/
theorem C1_validation_precedence_witness :
    (stubHandle 7 1).is_device_memory_size_query = false
    ∧ (rocblas_spr_strided_batched_impl
        (stubEnv rocblas_status_success rocblas_status_success rocblas_status_success)
        ElemType.float 0 (some (stubHandle 7 1)) rocblas_fill_full (-1) 0 0 1 1 0 1 1).status
        = rocblas_status_invalid_value
    ∧ (rocblas_spr_strided_batched_impl
        (stubEnv rocblas_status_success rocblas_status_success rocblas_status_success)
        ElemType.float 0 (some (stubHandle 7 1)) rocblas_fill_upper (-1) 0 0 1 1 0 1 1).status
        = rocblas_status_invalid_size :=
  ⟨rfl,
    ((C1_validation_precedence
        (stubEnv rocblas_status_success rocblas_status_success rocblas_status_success)
        ElemType.float 0 (stubHandle 7 1) rocblas_fill_full (-1) 0 0 1 1 0 1 1 rfl).1
      (by decide)).1,
    (C1_validation_precedence
        (stubEnv rocblas_status_success rocblas_status_success rocblas_status_success)
        ElemType.float 0 (stubHandle 7 1) rocblas_fill_upper (-1) 0 0 1 1 0 1 1 rfl).2.2.2.2.2.2
      (by decide) (by decide) rfl rfl rfl⟩

/-- C2: with a null handle the call returns `invalid_handle` for every value of
the other arguments, and makes no logging call, no numeric check and no kernel
call (the trace is empty and the memory state is untouched). -/
theorem C2_null_handle :
    (rocblas_spr_strided_batched_impl env T w none uplo n alpha x incx stridex AP strideA
        batch_count).status = rocblas_status_invalid_handle
    ∧ (rocblas_spr_strided_batched_impl env T w none uplo n alpha x incx stridex AP strideA
        batch_count).events = []
    ∧ (rocblas_spr_strided_batched_impl env T w none uplo n alpha x incx stridex AP strideA
        batch_count).state = w :=
  ⟨rfl, rfl, rfl⟩

/-- C3: with a non-null handle that is not a device-memory-size query, a fill
mode other than lower and upper gives `invalid_value` whatever `n`, `incx`,
`batch_count` are and whether or not `x`, `AP`, `alpha` are null; the fill mode
`rocblas_fill_full` is such a mode. -/
theorem C3_invalid_uplo (hq : h.is_device_memory_size_query = false) :
    ((uplo ≠ rocblas_fill_lower ∧ uplo ≠ rocblas_fill_upper) →
      (rocblas_spr_strided_batched_impl env T w (some h) uplo n alpha x incx stridex AP strideA
        batch_count).status = rocblas_status_invalid_value)
    ∧ (rocblas_spr_strided_batched_impl env T w (some h) rocblas_fill_full n alpha x incx
        stridex AP strideA batch_count).status = rocblas_status_invalid_value := by
  constructor
  · rintro ⟨hl, hu⟩
    rw [impl_invalid_value env T w h uplo n alpha x incx stridex AP strideA batch_count hq hl hu]
  · rw [impl_invalid_value env T w h rocblas_fill_full n alpha x incx stridex AP strideA
      batch_count hq (by decide) (by decide)]

/-- C3 at an unrecognised integer fill mode with valid sizes and buffers. -/
theorem C3_invalid_uplo_witness :
    (stubHandle 0 0).is_device_memory_size_query = false
    ∧ (rocblas_spr_strided_batched_impl
        (stubEnv rocblas_status_success rocblas_status_success rocblas_status_success)
        ElemType.double 0 (some (stubHandle 0 0)) (rocblas_fill.other 7) 4 16 32 1 4 64 10
        2).status = rocblas_status_invalid_value :=
  ⟨rfl,
    (C3_invalid_uplo
        (stubEnv rocblas_status_success rocblas_status_success rocblas_status_success)
        ElemType.double 0 (stubHandle 0 0) (rocblas_fill.other 7) 4 16 32 1 4 64 10 2 rfl).1
      (by decide)⟩

/-- C4: with a non-null handle that is not a device-memory-size query and
`uplo` lower or upper, `n < 0` or `incx == 0` or `batch_count < 0` gives
`invalid_size`, whether `x`, `AP`, `alpha` are null or not. -/
theorem C4_invalid_size (hq : h.is_device_memory_size_query = false)
    (hv : uplo = rocblas_fill_lower ∨ uplo = rocblas_fill_upper)
    (hs : n < 0 ∨ incx = 0 ∨ batch_count < 0) :
    (rocblas_spr_strided_batched_impl env T w (some h) uplo n alpha x incx stridex AP strideA
        batch_count).status = rocblas_status_invalid_size := by
  rw [impl_invalid_size env T w h uplo n alpha x incx stridex AP strideA batch_count hq hv hs]

/-- C4 at `incx = 0` with valid, non-null buffers. -/
theorem C4_invalid_size_witness :
    (stubHandle 0 0).is_device_memory_size_query = false
    ∧ (rocblas_spr_strided_batched_impl
        (stubEnv rocblas_status_success rocblas_status_success rocblas_status_success)
        ElemType.float 0 (some (stubHandle 0 0)) rocblas_fill_lower 4 16 32 0 4 64 10
        2).status = rocblas_status_invalid_size :=
  ⟨rfl,
    C4_invalid_size
      (stubEnv rocblas_status_success rocblas_status_success rocblas_status_success)
      ElemType.float 0 (stubHandle 0 0) rocblas_fill_lower 4 16 32 0 4 64 10 2 rfl
      (Or.inl rfl) (Or.inr (Or.inl rfl))⟩

/-- C5: with a non-null handle that is not a device-memory-size query, `uplo`
lower or upper, `n >= 0`, `incx != 0` and `batch_count >= 0`, the call returns
`success` when `n == 0` or `batch_count == 0`, for all pointer values (null
ones included), and neither the numeric check nor the kernel is called, whatever
`handle->check_numerics` is. -/
theorem C5_quick_return (hq : h.is_device_memory_size_query = false)
    (hv : uplo = rocblas_fill_lower ∨ uplo = rocblas_fill_upper)
    (hn : 0 ≤ n) (hi : incx ≠ 0) (hb : 0 ≤ batch_count) (hz : n = 0 ∨ batch_count = 0) :
    (rocblas_spr_strided_batched_impl env T w (some h) uplo n alpha x incx stridex AP strideA
        batch_count).status = rocblas_status_success
    ∧ (rocblas_spr_strided_batched_impl env T w (some h) uplo n alpha x incx stridex AP strideA
        batch_count).noCompute := by
  have hs : ¬ (n < 0 ∨ incx = 0 ∨ batch_count < 0) := by
    rintro (h1 | h1 | h1)
    · omega
    · exact hi h1
    · omega
  rw [impl_quick_return env T w h uplo n alpha x incx stridex AP strideA batch_count hq hv hs hz]
  exact ⟨rfl,
    noCompute_logging env T w h uplo n alpha x incx stridex AP strideA batch_count _ _ _⟩

/-- C5 at `n = 0`, `batch_count = 5`, all three pointers null, numeric checking
enabled and all logging on. -/
theorem C5_quick_return_witness :
    (stubHandle 7 1).is_device_memory_size_query = false
    ∧ (rocblas_spr_strided_batched_impl
        (stubEnv (rocblas_status.other 13) (rocblas_status.other 13)
          rocblas_status_internal_error)
        ElemType.float 0 (some (stubHandle 7 1)) rocblas_fill_upper 0 0 0 1 0 0 0 5).status
        = rocblas_status_success
    ∧ (rocblas_spr_strided_batched_impl
        (stubEnv (rocblas_status.other 13) (rocblas_status.other 13)
          rocblas_status_internal_error)
        ElemType.float 0 (some (stubHandle 7 1)) rocblas_fill_upper 0 0 0 1 0 0 0 5).noCompute :=
  ⟨rfl,
    C5_quick_return
      (stubEnv (rocblas_status.other 13) (rocblas_status.other 13)
        rocblas_status_internal_error)
      ElemType.float 0 (stubHandle 7 1) rocblas_fill_upper 0 0 0 1 0 0 0 5 rfl
      (Or.inr rfl) (by decide) (by decide) (by decide) (Or.inl rfl)⟩

/-- C6 as stated fails: with `n = 0` (or `batch_count = 0`) and all three
pointers null the call does not return `success` when the fill mode is `full`
(`invalid_value`), when `incx = 0` (`invalid_size`), or when the other size
argument is negative (`invalid_size`). -/
theorem C6_zero_size_counterexample :
    (rocblas_spr_strided_batched_impl
        (stubEnv rocblas_status_success rocblas_status_success rocblas_status_success)
        ElemType.float 0 (some (stubHandle 0 0)) rocblas_fill_full 0 0 0 1 0 0 0 1).status
        = rocblas_status_invalid_value
    ∧ (rocblas_spr_strided_batched_impl
        (stubEnv rocblas_status_success rocblas_status_success rocblas_status_success)
        ElemType.float 0 (some (stubHandle 0 0)) rocblas_fill_upper 0 0 0 0 0 0 0 1).status
        = rocblas_status_invalid_size
    ∧ (rocblas_spr_strided_batched_impl
        (stubEnv rocblas_status_success rocblas_status_success rocblas_status_success)
        ElemType.float 0 (some (stubHandle 0 0)) rocblas_fill_upper 0 0 0 1 0 0 0 (-1)).status
        = rocblas_status_invalid_size
    ∧ (rocblas_spr_strided_batched_impl
        (stubEnv rocblas_status_success rocblas_status_success rocblas_status_success)
        ElemType.float 0 (some (stubHandle 0 0)) rocblas_fill_upper (-1) 0 0 1 0 0 0 0).status
        = rocblas_status_invalid_size := by
  decide

/-- C6, amended: with a non-null handle that is not a device-memory-size query,
if `n == 0` or `batch_count == 0`, and moreover `uplo` is lower or upper,
`incx != 0` and neither size argument is negative, the call returns `success`
for all values of `x`, `AP` and `alpha`, and in particular when all three are
null. -/
theorem C6_zero_size_success (hq : h.is_device_memory_size_query = false)
    (hv : uplo = rocblas_fill_lower ∨ uplo = rocblas_fill_upper)
    (hi : incx ≠ 0) (hn : 0 ≤ n) (hb : 0 ≤ batch_count) (hz : n = 0 ∨ batch_count = 0) :
    (rocblas_spr_strided_batched_impl env T w (some h) uplo n alpha x incx stridex AP strideA
        batch_count).status = rocblas_status_success
    ∧ (rocblas_spr_strided_batched_impl env T w (some h) uplo n 0 0 incx stridex 0 strideA
        batch_count).status = rocblas_status_success := by
  have hs : ¬ (n < 0 ∨ incx = 0 ∨ batch_count < 0) := by
    rintro (h1 | h1 | h1)
    · omega
    · exact hi h1
    · omega
  rw [impl_quick_return env T w h uplo n alpha x incx stridex AP strideA batch_count hq hv hs hz,
    impl_quick_return env T w h uplo n 0 0 incx stridex 0 strideA batch_count hq hv hs hz]
  exact ⟨rfl, rfl⟩

/-- C6 amended, at `batch_count = 0`, `n = 3`, fill mode lower. -/
theorem C6_zero_size_success_witness :
    (stubHandle 2 0).is_device_memory_size_query = false
    ∧ (rocblas_spr_strided_batched_impl
        (stubEnv rocblas_status_success rocblas_status_success rocblas_status_success)
        ElemType.rocblas_float_complex 0 (some (stubHandle 2 0)) rocblas_fill_lower 3 0 0 (-1)
        0 0 0 0).status = rocblas_status_success :=
  ⟨rfl,
    (C6_zero_size_success
      (stubEnv rocblas_status_success rocblas_status_success rocblas_status_success)
      ElemType.rocblas_float_complex 0 (stubHandle 2 0) rocblas_fill_lower 3 0 0 (-1) 0 0 0 0
      rfl (Or.inl rfl) (by decide) (by decide) (by decide) (Or.inr rfl)).2⟩

/-- C7: with a non-null handle that is not a device-memory-size query, `uplo`
lower or upper, `n > 0`, `incx != 0` and `batch_count > 0`, a null `x`, `AP` or
`alpha` gives `invalid_pointer`, and neither the numeric check nor the kernel
is called. -/
theorem C7_invalid_pointer (hq : h.is_device_memory_size_query = false)
    (hv : uplo = rocblas_fill_lower ∨ uplo = rocblas_fill_upper)
    (hn : 0 < n) (hi : incx ≠ 0) (hb : 0 < batch_count)
    (hp : x = 0 ∨ AP = 0 ∨ alpha = 0) :
    (rocblas_spr_strided_batched_impl env T w (some h) uplo n alpha x incx stridex AP strideA
        batch_count).status = rocblas_status_invalid_pointer
    ∧ (rocblas_spr_strided_batched_impl env T w (some h) uplo n alpha x incx stridex AP strideA
        batch_count).noCompute := by
  have hs : ¬ (n < 0 ∨ incx = 0 ∨ batch_count < 0) := by
    rintro (h1 | h1 | h1)
    · omega
    · exact hi h1
    · omega
  have hz : ¬ (n = 0 ∨ batch_count = 0) := by
    rintro (h1 | h1) <;> omega
  rw [impl_invalid_pointer env T w h uplo n alpha x incx stridex AP strideA batch_count hq hv hs
    hz hp]
  exact ⟨rfl,
    noCompute_logging env T w h uplo n alpha x incx stridex AP strideA batch_count _ _ _⟩

/-- C7 at `n = 5`, `incx = 1`, `batch_count = 3` with only `AP` null and numeric
checking enabled. -/
theorem C7_invalid_pointer_witness :
    (stubHandle 1 1).is_device_memory_size_query = false
    ∧ (rocblas_spr_strided_batched_impl
        (stubEnv rocblas_status_success rocblas_status_success rocblas_status_success)
        ElemType.double 0 (some (stubHandle 1 1)) rocblas_fill_upper 5 16 32 1 5 0 15 3).status
        = rocblas_status_invalid_pointer
    ∧ (rocblas_spr_strided_batched_impl
        (stubEnv rocblas_status_success rocblas_status_success rocblas_status_success)
        ElemType.double 0 (some (stubHandle 1 1)) rocblas_fill_upper 5 16 32 1 5 0 15
        3).noCompute :=
  ⟨rfl,
    C7_invalid_pointer
      (stubEnv rocblas_status_success rocblas_status_success rocblas_status_success)
      ElemType.double 0 (stubHandle 1 1) rocblas_fill_upper 5 16 32 1 5 0 15 3 rfl
      (Or.inr rfl) (by decide) (by decide) (by decide) (Or.inr (Or.inl rfl))⟩

end Gate

/-! ## The sanitizer and kernel path -/

section Compute

open rocblas_status rocblas_fill

variable {σ : Type} (env : Env σ) (T : ElemType) (w : σ) (h : _rocblas_handle)
  (uplo : rocblas_fill) (n : Int) (alpha x : Ptr) (incx stridex : Int) (AP : Ptr)
  (strideA batch_count : Int)

/-- C8: whenever `rocblas_spr_template` or `rocblas_spr_check_numerics` is
called, the handle is non-null, `uplo` is lower or upper, `n > 0`, `incx != 0`,
`batch_count > 0`, and `x`, `AP`, `alpha` are all non-null; and the kernel is
called only if numeric checking is disabled or the input check returned
`success`. -/
theorem C8_compute_behind_gate (handle : rocblas_handle) (e : Event)
    (he : e ∈ (rocblas_spr_strided_batched_impl env T w handle uplo n alpha x incx stridex AP
      strideA batch_count).events)
    (hc : e.isCheck = true ∨ e.isKernel = true) :
    (∃ hd, handle = some hd
      ∧ (e.isKernel = true →
          hd.check_numerics = 0
          ∨ env.rocblas_spr_check_numerics w
              (checkArgs T hd n x incx stridex AP strideA batch_count hd.check_numerics true)
            = rocblas_status_success))
    ∧ (uplo = rocblas_fill_lower ∨ uplo = rocblas_fill_upper)
    ∧ 0 < n ∧ incx ≠ 0 ∧ 0 < batch_count ∧ x ≠ 0 ∧ AP ≠ 0 ∧ alpha ≠ 0 := by
  have notboth : ¬ (e.isCheck = false ∧ e.isKernel = false) := by
    rintro ⟨h1, h2⟩
    rcases hc with h3 | h3
    · rw [h1] at h3; exact Bool.noConfusion h3
    · rw [h2] at h3; exact Bool.noConfusion h3
  cases handle with
  | none => simp [rocblas_spr_strided_batched_impl] at he
  | some hd =>
    by_cases hq : hd.is_device_memory_size_query = true
    · rw [impl_size_query env T w hd uplo n alpha x incx stridex AP strideA batch_count hq] at he
      simp at he
    · have hq2 : hd.is_device_memory_size_query = false := by simpa using hq
      by_cases hp : passesValidation uplo n alpha x incx AP batch_count
      · refine ⟨⟨hd, rfl, ?_⟩, hp⟩
        intro hk
        by_cases hc0 : hd.check_numerics = 0
        · exact Or.inl hc0
        · by_cases hpre : env.rocblas_spr_check_numerics w
              (checkArgs T hd n x incx stridex AP strideA batch_count hd.check_numerics true)
              = rocblas_status_success
          · exact Or.inr hpre
          · exfalso
            rw [impl_passes env T w hd uplo n alpha x incx stridex AP strideA batch_count hq2 hp]
              at he
            simp only [if_neg hc0, ne_eq, hpre, not_false_eq_true, if_true, List.mem_append,
              List.mem_singleton] at he
            rcases he with he | he
            · have := Event.not_compute_of_isLog e (logging_isLog env T w hd uplo n alpha x incx
                stridex AP strideA batch_count _ e he)
              rw [this.2] at hk
              exact Bool.noConfusion hk
            · rw [he] at hk
              exact Bool.noConfusion hk
      · exact absurd (impl_noCompute_of_not_passes env T w hd uplo n alpha x incx stridex AP
          strideA batch_count hq2 hp e he) notboth

/-- C8 at a call that reaches the kernel with numeric checking enabled. -/
theorem C8_compute_behind_gate_witness :
    Event.rocblas_spr_template
        (templateArgs (stubHandle 0 1) rocblas_fill_upper 5 16 32 1 5 64 15 3)
      ∈ (rocblas_spr_strided_batched_impl
          (stubEnv rocblas_status_success rocblas_status_success rocblas_status_success)
          ElemType.float 0 (some (stubHandle 0 1)) rocblas_fill_upper 5 16 32 1 5 64 15 3).events
    ∧ ((rocblas_fill_upper = rocblas_fill_lower ∨ rocblas_fill_upper = rocblas_fill_upper)
      ∧ (0 : Int) < 5 ∧ (1 : Int) ≠ 0 ∧ (0 : Int) < 3 ∧ (32 : Ptr) ≠ 0 ∧ (64 : Ptr) ≠ 0
      ∧ (16 : Ptr) ≠ 0) :=
  ⟨by decide,
    (C8_compute_behind_gate
      (stubEnv rocblas_status_success rocblas_status_success rocblas_status_success)
      ElemType.float 0 rocblas_fill_upper 5 16 32 1 5 64 15 3 (some (stubHandle 0 1))
      (Event.rocblas_spr_template
        (templateArgs (stubHandle 0 1) rocblas_fill_upper 5 16 32 1 5 64 15 3))
      (by decide) (Or.inr rfl)).2⟩

/-- C9: in a call that passes validation with `handle->check_numerics` enabled,
if the input check (`is_input = true`) returns a status `s` other than
`success`, the call returns exactly `s` and `rocblas_spr_template` is never
called. -/
theorem C9_input_check_failure (hq : h.is_device_memory_size_query = false)
    (hp : passesValidation uplo n alpha x incx AP batch_count)
    (hc : h.check_numerics ≠ 0) (s : rocblas_status)
    (hs : env.rocblas_spr_check_numerics w
      (checkArgs T h n x incx stridex AP strideA batch_count h.check_numerics true) = s)
    (hne : s ≠ rocblas_status_success) :
    (rocblas_spr_strided_batched_impl env T w (some h) uplo n alpha x incx stridex AP strideA
        batch_count).status = s
    ∧ ∀ e ∈ (rocblas_spr_strided_batched_impl env T w (some h) uplo n alpha x incx stridex AP
        strideA batch_count).events, e.isKernel = false := by
  subst hs
  rw [impl_passes env T w h uplo n alpha x incx stridex AP strideA batch_count hq hp]
  simp only [if_neg hc, ne_eq, hne, not_false_eq_true, if_true, List.mem_append,
    List.mem_singleton, true_and]
  rintro e (he | he)
  · exact (Event.not_compute_of_isLog e (logging_isLog env T w h uplo n alpha x incx
      stridex AP strideA batch_count _ e he)).2
  · rw [he]
    rfl

/-- C9 at an input check that answers with status code 13. -/
theorem C9_input_check_failure_witness :
    (rocblas_spr_strided_batched_impl
        (stubEnv (rocblas_status.other 13) rocblas_status_success rocblas_status_success)
        ElemType.float 0 (some (stubHandle 7 1)) rocblas_fill_lower 5 16 32 1 5 64 15 3).status
      = rocblas_status.other 13 :=
  (C9_input_check_failure
    (stubEnv (rocblas_status.other 13) rocblas_status_success rocblas_status_success)
    ElemType.float 0 (stubHandle 7 1) rocblas_fill_lower 5 16 32 1 5 64 15 3 rfl (by decide)
    (by decide) (rocblas_status.other 13) rfl (by decide)).1

/-- C10: in a call that passes validation with `handle->check_numerics` enabled,
whose input check and kernel both return `success`, the calls made after the
logging block are, in this order, the input check, the kernel, and the output
check (the input check's argument list with `is_input = false`); the call
returns the status of the output check, run on the memory the kernel left;
and the final memory is exactly the one the kernel left, whether the output
check passes or fails. -/
theorem C10_output_check (hq : h.is_device_memory_size_query = false)
    (hp : passesValidation uplo n alpha x incx AP batch_count)
    (hc : h.check_numerics ≠ 0)
    (hpre : env.rocblas_spr_check_numerics w
      (checkArgs T h n x incx stridex AP strideA batch_count h.check_numerics true)
        = rocblas_status_success)
    (hk : (env.rocblas_spr_template w
      (templateArgs h uplo n alpha x incx stridex AP strideA batch_count)).1
        = rocblas_status_success) :
    (checkArgs T h n x incx stridex AP strideA batch_count h.check_numerics true).is_input = true
    ∧ (rocblas_spr_strided_batched_impl env T w (some h) uplo n alpha x incx stridex AP strideA
        batch_count).events
      = logging env T w h h.layer_mode uplo n alpha x incx stridex AP strideA batch_count
        ++ [Event.rocblas_spr_check_numerics
              (checkArgs T h n x incx stridex AP strideA batch_count h.check_numerics true),
            Event.rocblas_spr_template
              (templateArgs h uplo n alpha x incx stridex AP strideA batch_count),
            Event.rocblas_spr_check_numerics
              ((checkArgs T h n x incx stridex AP strideA batch_count h.check_numerics
                true).withIsInput false)]
    ∧ (rocblas_spr_strided_batched_impl env T w (some h) uplo n alpha x incx stridex AP strideA
        batch_count).status
      = env.rocblas_spr_check_numerics
          (env.rocblas_spr_template w
            (templateArgs h uplo n alpha x incx stridex AP strideA batch_count)).2
          ((checkArgs T h n x incx stridex AP strideA batch_count h.check_numerics
            true).withIsInput false)
    ∧ (rocblas_spr_strided_batched_impl env T w (some h) uplo n alpha x incx stridex AP strideA
        batch_count).state
      = (env.rocblas_spr_template w
          (templateArgs h uplo n alpha x incx stridex AP strideA batch_count)).2 := by
  have e := impl_passes env T w h uplo n alpha x incx stridex AP strideA batch_count hq hp
  simp only [if_neg hc, ne_eq, hpre, hk, not_true_eq_false, if_false] at e
  rw [e]
  exact ⟨rfl, rfl, rfl, rfl⟩

/-- C10 at a failing output check: the call returns the check's status and the
memory is the one the kernel produced. -/
theorem C10_output_check_witness :
    (rocblas_spr_strided_batched_impl
        (stubEnv rocblas_status_success (rocblas_status.other 13) rocblas_status_success)
        ElemType.float 0 (some (stubHandle 0 1)) rocblas_fill_lower 5 16 32 1 5 64 15 3).status
      = rocblas_status.other 13
    ∧ (rocblas_spr_strided_batched_impl
        (stubEnv rocblas_status_success (rocblas_status.other 13) rocblas_status_success)
        ElemType.float 0 (some (stubHandle 0 1)) rocblas_fill_lower 5 16 32 1 5 64 15 3).state
      = 1 :=
  ⟨(C10_output_check
      (stubEnv rocblas_status_success (rocblas_status.other 13) rocblas_status_success)
      ElemType.float 0 (stubHandle 0 1) rocblas_fill_lower 5 16 32 1 5 64 15 3 rfl (by decide)
      (by decide) rfl rfl).2.2.1,
    (C10_output_check
      (stubEnv rocblas_status_success (rocblas_status.other 13) rocblas_status_success)
      ElemType.float 0 (stubHandle 0 1) rocblas_fill_lower 5 16 32 1 5 64 15 3 rfl (by decide)
      (by decide) rfl rfl).2.2.2⟩

end Compute

/-! ## Numeric checking off, kernel failures, logging -/

section Flow

open rocblas_status rocblas_fill

variable {σ : Type} (env : Env σ) (T : ElemType) (w : σ) (h : _rocblas_handle)
  (uplo : rocblas_fill) (n : Int) (alpha x : Ptr) (incx stridex : Int) (AP : Ptr)
  (strideA batch_count : Int)

/-- C11: in a call that passes validation with `handle->check_numerics` equal to
0, `rocblas_spr_check_numerics` is never called and the returned status is
exactly the status `rocblas_spr_template` returns. -/
theorem C11_check_disabled (hq : h.is_device_memory_size_query = false)
    (hp : passesValidation uplo n alpha x incx AP batch_count)
    (hc : h.check_numerics = 0) :
    (∀ e ∈ (rocblas_spr_strided_batched_impl env T w (some h) uplo n alpha x incx stridex AP
        strideA batch_count).events, e.isCheck = false)
    ∧ (rocblas_spr_strided_batched_impl env T w (some h) uplo n alpha x incx stridex AP strideA
        batch_count).status
      = (env.rocblas_spr_template w
          (templateArgs h uplo n alpha x incx stridex AP strideA batch_count)).1 := by
  rw [impl_passes env T w h uplo n alpha x incx stridex AP strideA batch_count hq hp]
  simp only [hc, if_true, List.mem_append, List.mem_singleton, and_true]
  rintro e (he | he)
  · exact (Event.not_compute_of_isLog e (logging_isLog env T w h uplo n alpha x incx
      stridex AP strideA batch_count _ e he)).1
  · rw [he]
    rfl

/-- C11 at a kernel that reports `internal_error` with all logging on. -/
theorem C11_check_disabled_witness :
    (rocblas_spr_strided_batched_impl
        (stubEnv (rocblas_status.other 13) (rocblas_status.other 13)
          rocblas_status_internal_error)
        ElemType.float 0 (some (stubHandle 7 0)) rocblas_fill_upper 5 16 32 1 5 64 15 3).status
      = rocblas_status_internal_error :=
  (C11_check_disabled
    (stubEnv (rocblas_status.other 13) (rocblas_status.other 13) rocblas_status_internal_error)
    ElemType.float 0 (stubHandle 7 0) rocblas_fill_upper 5 16 32 1 5 64 15 3 rfl (by decide)
    rfl).2

/-- C12: in every call `rocblas_spr_template` is called at most once; and if it
is called and returns a status other than `success`, the call returns exactly
that status and no output numeric check (a check with `is_input = false`) is
made, whatever `handle->check_numerics` is. -/
theorem C12_kernel_once (handle : rocblas_handle) :
    (rocblas_spr_strided_batched_impl env T w handle uplo n alpha x incx stridex AP strideA
        batch_count).events.countP Event.isKernel ≤ 1
    ∧ ∀ a, Event.rocblas_spr_template a
          ∈ (rocblas_spr_strided_batched_impl env T w handle uplo n alpha x incx stridex AP
              strideA batch_count).events →
        (env.rocblas_spr_template w a).1 ≠ rocblas_status_success →
        (rocblas_spr_strided_batched_impl env T w handle uplo n alpha x incx stridex AP strideA
            batch_count).status = (env.rocblas_spr_template w a).1
        ∧ ∀ c, Event.rocblas_spr_check_numerics c
              ∈ (rocblas_spr_strided_batched_impl env T w handle uplo n alpha x incx stridex AP
                  strideA batch_count).events → c.is_input = true := by
  rcases impl_cases env T w uplo n alpha x incx stridex AP strideA batch_count handle with
    hno | ⟨hd, rfl, hq, hp⟩
  · constructor
    · have : (rocblas_spr_strided_batched_impl env T w handle uplo n alpha x incx stridex AP
          strideA batch_count).events.countP Event.isKernel = 0 := by
        rw [List.countP_eq_zero]
        intro e he
        simp [(hno e he).2]
      omega
    · intro a ha
      exact absurd (hno _ ha).2 (by simp [Event.isKernel])
  · rw [impl_passes env T w hd uplo n alpha x incx stridex AP strideA batch_count hq hp]
    have hlk := logging_countP_isKernel env T w hd uplo n alpha x incx stridex AP strideA
      batch_count hd.layer_mode
    have hlt := logging_no_template env T w hd uplo n alpha x incx stridex AP strideA
      batch_count hd.layer_mode
    have hlc := logging_no_check env T w hd uplo n alpha x incx stridex AP strideA
      batch_count hd.layer_mode
    by_cases hc0 : hd.check_numerics = 0
    · simp only [hc0, if_true]
      refine ⟨by simp [List.countP_append, hlk, List.countP_cons, Event.isKernel], ?_⟩
      intro a ha _
      simp only [List.mem_append, List.mem_singleton, Event.rocblas_spr_template.injEq] at ha
      rcases ha with ha | ha
      · exact absurd ha (hlt a)
      · subst ha
        refine ⟨rfl, ?_⟩
        intro c hcm
        simp only [List.mem_append, List.mem_singleton] at hcm
        rcases hcm with hcm | hcm
        · exact absurd hcm (hlc c)
        · exact Event.noConfusion hcm
    · by_cases hpre : env.rocblas_spr_check_numerics w
          (checkArgs T hd n x incx stridex AP strideA batch_count hd.check_numerics true)
          = rocblas_status_success
      · by_cases hk : (env.rocblas_spr_template w
            (templateArgs hd uplo n alpha x incx stridex AP strideA batch_count)).1
            = rocblas_status_success
        · simp only [if_neg hc0, ne_eq, hpre, hk, not_true_eq_false, if_false]
          refine ⟨by simp [List.countP_append, hlk, List.countP_cons, Event.isKernel], ?_⟩
          intro a ha hne
          simp only [List.mem_append, List.mem_cons, List.mem_singleton,
            Event.rocblas_spr_template.injEq] at ha
          rcases ha with ha | ha | ha | ha
          · exact absurd ha (hlt a)
          · exact Event.noConfusion ha
          · subst ha
            exact absurd hk hne
          · rcases ha with ha | ha
            · exact Event.noConfusion ha
            · simp at ha
        · simp only [if_neg hc0, ne_eq, hpre, hk, not_true_eq_false, if_false,
            not_false_eq_true, if_true]
          refine ⟨by simp [List.countP_append, hlk, List.countP_cons, Event.isKernel], ?_⟩
          intro a ha _
          simp only [List.mem_append, List.mem_cons, List.mem_singleton,
            Event.rocblas_spr_template.injEq] at ha
          rcases ha with ha | ha | ha
          · exact absurd ha (hlt a)
          · exact Event.noConfusion ha
          · rcases ha with ha | ha
            · subst ha
              refine ⟨rfl, ?_⟩
              intro c hcm
              simp only [List.mem_append, List.mem_cons, List.mem_singleton,
                Event.rocblas_spr_check_numerics.injEq] at hcm
              rcases hcm with hcm | hcm | hcm
              · exact absurd hcm (hlc c)
              · subst hcm
                rfl
              · rcases hcm with hcm | hcm
                · exact Event.noConfusion hcm
                · simp at hcm
            · simp at ha
      · simp only [if_neg hc0, ne_eq, hpre, not_false_eq_true, if_true]
        refine ⟨by simp [List.countP_append, hlk, List.countP_cons, Event.isKernel], ?_⟩
        intro a ha _
        simp only [List.mem_append, List.mem_singleton] at ha
        rcases ha with ha | ha
        · exact absurd ha (hlt a)
        · exact Event.noConfusion ha

/-- C12 at a kernel that reports `memory_error` with numeric checking enabled:
the call returns `memory_error`. -/
theorem C12_kernel_once_witness :
    (rocblas_spr_strided_batched_impl
        (stubEnv rocblas_status_success (rocblas_status.other 13) rocblas_status_memory_error)
        ElemType.float 0 (some (stubHandle 0 1)) rocblas_fill_upper 5 16 32 1 5 64 15 3).status
      = rocblas_status_memory_error :=
  ((C12_kernel_once
    (stubEnv rocblas_status_success (rocblas_status.other 13) rocblas_status_memory_error)
    ElemType.float 0 rocblas_fill_upper 5 16 32 1 5 64 15 3 (some (stubHandle 0 1))).2
    (templateArgs (stubHandle 0 1) rocblas_fill_upper 5 16 32 1 5 64 15 3)
    (by decide) (by decide)).1

/-- C13: logging does not alter control flow. For two calls whose arguments and
handle state are identical except for `handle->layer_mode` (any mask `m`), with
a numeric check and a kernel invoker that do not look at the logging mask
themselves, the returned status and the final memory are the same, and the
numeric check and the kernel are called the same number of times, in the same
order and with the same arguments (the handle they receive differing in its
logging mask only). -/
theorem C13_logging_no_control_flow (henv : env.ignoresLayerMode) (m : Nat) :
    (rocblas_spr_strided_batched_impl env T w (some (h.withLayerMode m)) uplo n alpha x incx
        stridex AP strideA batch_count).status
      = (rocblas_spr_strided_batched_impl env T w (some h) uplo n alpha x incx stridex AP
          strideA batch_count).status
    ∧ (rocblas_spr_strided_batched_impl env T w (some (h.withLayerMode m)) uplo n alpha x incx
        stridex AP strideA batch_count).state
      = (rocblas_spr_strided_batched_impl env T w (some h) uplo n alpha x incx stridex AP
          strideA batch_count).state
    ∧ (rocblas_spr_strided_batched_impl env T w (some (h.withLayerMode m)) uplo n alpha x incx
        stridex AP strideA batch_count).computeEvents
      = (rocblas_spr_strided_batched_impl env T w (some h) uplo n alpha x incx stridex AP
          strideA batch_count).computeEvents.map (Event.withLayerMode m)
    ∧ (rocblas_spr_strided_batched_impl env T w (some (h.withLayerMode m)) uplo n alpha x incx
        stridex AP strideA batch_count).events.countP Event.isCheck
      = (rocblas_spr_strided_batched_impl env T w (some h) uplo n alpha x incx stridex AP
          strideA batch_count).events.countP Event.isCheck
    ∧ (rocblas_spr_strided_batched_impl env T w (some (h.withLayerMode m)) uplo n alpha x incx
        stridex AP strideA batch_count).events.countP Event.isKernel
      = (rocblas_spr_strided_batched_impl env T w (some h) uplo n alpha x incx stridex AP
          strideA batch_count).events.countP Event.isKernel := by
  have hqm : (h.withLayerMode m).is_device_memory_size_query = h.is_device_memory_size_query :=
    rfl
  have hcm : (h.withLayerMode m).check_numerics = h.check_numerics := rfl
  by_cases hq : h.is_device_memory_size_query = true
  · rw [impl_size_query env T w h uplo n alpha x incx stridex AP strideA batch_count hq,
      impl_size_query env T w (h.withLayerMode m) uplo n alpha x incx stridex AP strideA
        batch_count (hqm.trans hq)]
    simp [Outcome.computeEvents]
  · have hq2 : h.is_device_memory_size_query = false := by simpa using hq
    by_cases hp : passesValidation uplo n alpha x incx AP batch_count
    · rw [impl_passes env T w h uplo n alpha x incx stridex AP strideA batch_count hq2 hp,
        impl_passes env T w (h.withLayerMode m) uplo n alpha x incx stridex AP strideA
          batch_count (hqm.trans hq2) hp]
      simp only [hcm, checkArgs_withLayerMode, templateArgs_withLayerMode, henv.1, henv.2]
      by_cases hc0 : h.check_numerics = 0
      · simp [hc0, Outcome.computeEvents, List.filter_append, logging_filter,
          List.countP_append, logging_countP_isCheck, logging_countP_isKernel, Event.isLog_check, Event.isLog_template,
          Event.withLayerMode, List.countP_cons, Event.isCheck, Event.isKernel]
      · by_cases hpre : env.rocblas_spr_check_numerics w
            (checkArgs T h n x incx stridex AP strideA batch_count h.check_numerics true)
            = rocblas_status_success
        · by_cases hk : (env.rocblas_spr_template w
              (templateArgs h uplo n alpha x incx stridex AP strideA batch_count)).1
              = rocblas_status_success
          · simp [hc0, hpre, hk, Outcome.computeEvents, List.filter_append, logging_filter,
              List.countP_append, logging_countP_isCheck, logging_countP_isKernel, Event.isLog_check, Event.isLog_template,
              Event.withLayerMode, List.countP_cons, Event.isCheck, Event.isKernel]
          · simp [hc0, hpre, hk, Outcome.computeEvents, List.filter_append, logging_filter,
              List.countP_append, logging_countP_isCheck, logging_countP_isKernel, Event.isLog_check, Event.isLog_template,
              Event.withLayerMode, List.countP_cons, Event.isCheck, Event.isKernel]
        · simp [hc0, hpre, Outcome.computeEvents, List.filter_append, logging_filter,
            List.countP_append, logging_countP_isCheck, logging_countP_isKernel, Event.isLog_check, Event.isLog_template,
            Event.withLayerMode, List.countP_cons, Event.isCheck, Event.isKernel]
    · obtain ⟨s, hs⟩ := impl_not_passes env T uplo n alpha x incx stridex AP strideA batch_count
        hp
      rw [hs h w hq2, hs (h.withLayerMode m) w (hqm.trans hq2)]
      simp [Outcome.computeEvents, logging_filter, logging_countP_isCheck,
        logging_countP_isKernel]

/-- C13 at a call that runs input check, kernel and output check: with all
logging on (mask 7) the status is the one returned with logging off. -/
theorem C13_logging_no_control_flow_witness :
    (rocblas_spr_strided_batched_impl
        (stubEnv rocblas_status_success (rocblas_status.other 13) rocblas_status_success)
        ElemType.float 0 (some ((stubHandle 0 1).withLayerMode 7)) rocblas_fill_upper 5 16 32 1
        5 64 15 3).status
      = (rocblas_spr_strided_batched_impl
        (stubEnv rocblas_status_success (rocblas_status.other 13) rocblas_status_success)
        ElemType.float 0 (some (stubHandle 0 1)) rocblas_fill_upper 5 16 32 1 5 64 15
        3).status :=
  (C13_logging_no_control_flow
    (stubEnv rocblas_status_success (rocblas_status.other 13) rocblas_status_success)
    ElemType.float 0 (stubHandle 0 1) rocblas_fill_upper 5 16 32 1 5 64 15 3
    ⟨fun _ _ _ => rfl, fun _ _ _ => rfl⟩ 7).1

end Flow

/-! ## Scalars and operand addressing -/

section Scalars

open rocblas_status rocblas_fill

variable {σ : Type} (env : Env σ) (T : ElemType) (w : σ) (h : _rocblas_handle)
  (uplo : rocblas_fill) (n : Int) (alpha x : Ptr) (incx stridex : Int) (AP : Ptr)
  (strideA batch_count : Int)

/-- C14 as stated fails: in device pointer mode with numeric checking enabled,
two calls on a 1-by-1 problem whose memories differ only in the cell `alpha`
points to (address 16, holding 2 in one and NaN in the other) return different
statuses: the kernel computes `AP` from the dereferenced scalar and the output
check reports what it finds there. -/
theorem C14_device_scalar_counterexample :
    (stubDeviceHandle 0 1).pointer_mode = rocblas_pointer_mode.rocblas_pointer_mode_device
    ∧ (rocblas_spr_strided_batched_impl scanEnv ElemType.float (memWithAlpha (Cell.finite 2))
        (some (stubDeviceHandle 0 1)) rocblas_fill_upper 1 16 32 1 1 64 1 1).status
      = rocblas_status_success
    ∧ (rocblas_spr_strided_batched_impl scanEnv ElemType.float (memWithAlpha Cell.nan)
        (some (stubDeviceHandle 0 1)) rocblas_fill_upper 1 16 32 1 1 64 1 1).status
      = rocblas_status.other 13 := by
  decide

/-- C14, amended: in device pointer mode (the pointer mode of the handle plays
no part), for two calls that differ only in the memory state, so in particular
only in the value stored where `alpha` points: `rocblas_spr_template`, when it
is called, receives the caller's `alpha` pointer unchanged; a call stopped by
the validation gate returns the same status in both; with numeric checking off
the status is the same as soon as the kernel reports the same status; and in
general, as soon as the input check, the kernel and the output check report
the same statuses in both calls, the returned status is the same and the same
numeric-check and kernel calls are made, in the same order and with the same
arguments. -/
theorem C14_scalar_passed_through (w1 w2 : σ) :
    (∀ a, Event.rocblas_spr_template a ∈ (rocblas_spr_strided_batched_impl env T w1 (some h) uplo n alpha x incx stridex AP strideA
          batch_count).events → a.alpha = alpha)
    ∧ (¬ passesValidation uplo n alpha x incx AP batch_count →
        (rocblas_spr_strided_batched_impl env T w1 (some h) uplo n alpha x incx stridex AP strideA
          batch_count).status
          = (rocblas_spr_strided_batched_impl env T w2 (some h) uplo n alpha x incx stridex AP strideA
          batch_count).status)
    ∧ (h.check_numerics = 0 →
        (env.rocblas_spr_template w1
            (templateArgs h uplo n alpha x incx stridex AP strideA batch_count)).1
          = (env.rocblas_spr_template w2
            (templateArgs h uplo n alpha x incx stridex AP strideA batch_count)).1 →
        (rocblas_spr_strided_batched_impl env T w1 (some h) uplo n alpha x incx stridex AP strideA
          batch_count).status
          = (rocblas_spr_strided_batched_impl env T w2 (some h) uplo n alpha x incx stridex AP strideA
          batch_count).status)
    ∧ (env.rocblas_spr_check_numerics w1
          (checkArgs T h n x incx stridex AP strideA batch_count h.check_numerics true)
        = env.rocblas_spr_check_numerics w2
          (checkArgs T h n x incx stridex AP strideA batch_count h.check_numerics true) →
      (env.rocblas_spr_template w1
          (templateArgs h uplo n alpha x incx stridex AP strideA batch_count)).1
        = (env.rocblas_spr_template w2
          (templateArgs h uplo n alpha x incx stridex AP strideA batch_count)).1 →
      env.rocblas_spr_check_numerics
          (env.rocblas_spr_template w1
            (templateArgs h uplo n alpha x incx stridex AP strideA batch_count)).2
          (checkArgs T h n x incx stridex AP strideA batch_count h.check_numerics false)
        = env.rocblas_spr_check_numerics
          (env.rocblas_spr_template w2
            (templateArgs h uplo n alpha x incx stridex AP strideA batch_count)).2
          (checkArgs T h n x incx stridex AP strideA batch_count h.check_numerics false) →
      (rocblas_spr_strided_batched_impl env T w1 (some h) uplo n alpha x incx stridex AP strideA
          batch_count).status
          = (rocblas_spr_strided_batched_impl env T w2 (some h) uplo n alpha x incx stridex AP strideA
          batch_count).status
      ∧ (rocblas_spr_strided_batched_impl env T w1 (some h) uplo n alpha x incx stridex AP strideA
          batch_count).computeEvents
          = (rocblas_spr_strided_batched_impl env T w2 (some h) uplo n alpha x incx stridex AP strideA
          batch_count).computeEvents) := by
  refine ⟨?_, ?_, ?_, ?_⟩
  · intro a ha
    obtain ⟨hd, hsome, _, _, rfl⟩ := impl_template_mem env T w1 uplo n alpha x incx stridex AP
      strideA batch_count (some h) a ha
    rfl
  · intro hp
    by_cases hq : h.is_device_memory_size_query = true
    · rw [impl_size_query env T w1 h uplo n alpha x incx stridex AP strideA batch_count hq,
        impl_size_query env T w2 h uplo n alpha x incx stridex AP strideA batch_count hq]
    · have hq2 : h.is_device_memory_size_query = false := by simpa using hq
      obtain ⟨s, hs⟩ := impl_not_passes env T uplo n alpha x incx stridex AP strideA batch_count
        hp
      rw [hs h w1 hq2, hs h w2 hq2]
  · intro hc0 hk
    by_cases hq : h.is_device_memory_size_query = true
    · rw [impl_size_query env T w1 h uplo n alpha x incx stridex AP strideA batch_count hq,
        impl_size_query env T w2 h uplo n alpha x incx stridex AP strideA batch_count hq]
    · have hq2 : h.is_device_memory_size_query = false := by simpa using hq
      by_cases hp : passesValidation uplo n alpha x incx AP batch_count
      · rw [impl_passes env T w1 h uplo n alpha x incx stridex AP strideA batch_count hq2 hp,
          impl_passes env T w2 h uplo n alpha x incx stridex AP strideA batch_count hq2 hp]
        simp only [hc0, if_true]
        exact hk
      · obtain ⟨s, hs⟩ := impl_not_passes env T uplo n alpha x incx stridex AP strideA
          batch_count hp
        rw [hs h w1 hq2, hs h w2 hq2]
  · intro hin hk hout
    by_cases hq : h.is_device_memory_size_query = true
    · rw [impl_size_query env T w1 h uplo n alpha x incx stridex AP strideA batch_count hq,
        impl_size_query env T w2 h uplo n alpha x incx stridex AP strideA batch_count hq]
      exact ⟨rfl, rfl⟩
    · have hq2 : h.is_device_memory_size_query = false := by simpa using hq
      by_cases hp : passesValidation uplo n alpha x incx AP batch_count
      · rw [impl_passes env T w1 h uplo n alpha x incx stridex AP strideA batch_count hq2 hp,
          impl_passes env T w2 h uplo n alpha x incx stridex AP strideA batch_count hq2 hp]
        simp only [hin, hk, hout]
        by_cases hc0 : h.check_numerics = 0
        · simp [hc0, Outcome.computeEvents, List.filter_append, logging_filter,
            Event.isLog_template]
        · by_cases hpre : env.rocblas_spr_check_numerics w2
              (checkArgs T h n x incx stridex AP strideA batch_count h.check_numerics true)
              = rocblas_status_success
          · by_cases hk2 : (env.rocblas_spr_template w2
                (templateArgs h uplo n alpha x incx stridex AP strideA batch_count)).1
                = rocblas_status_success
            · simp [hc0, hpre, hk2, Outcome.computeEvents, List.filter_append, logging_filter,
                Event.isLog_check, Event.isLog_template]
            · simp [hc0, hpre, hk2, Outcome.computeEvents, List.filter_append, logging_filter,
                Event.isLog_check, Event.isLog_template]
          · simp [hc0, hpre, Outcome.computeEvents, List.filter_append, logging_filter,
              Event.isLog_check, Event.isLog_template]
      · obtain ⟨s, hs⟩ := impl_not_passes env T uplo n alpha x incx stridex AP strideA
          batch_count hp
        rw [hs h w1 hq2, hs h w2 hq2]
        simp [Outcome.computeEvents, logging_filter]

/-- C14 amended, in device pointer mode with numeric checking enabled, on two
memories whose scalar cells hold 2 and 3: the statuses agree, and so do the
numeric-check and kernel calls. -/
theorem C14_scalar_passed_through_witness :
    (rocblas_spr_strided_batched_impl scanEnv ElemType.float (memWithAlpha (Cell.finite 2))
        (some (stubDeviceHandle 0 1)) rocblas_fill_upper 1 16 32 1 1 64 1 1).status
      = (rocblas_spr_strided_batched_impl scanEnv ElemType.float (memWithAlpha (Cell.finite 3))
        (some (stubDeviceHandle 0 1)) rocblas_fill_upper 1 16 32 1 1 64 1 1).status
    ∧ (rocblas_spr_strided_batched_impl scanEnv ElemType.float (memWithAlpha (Cell.finite 2))
        (some (stubDeviceHandle 0 1)) rocblas_fill_upper 1 16 32 1 1 64 1 1).computeEvents
      = (rocblas_spr_strided_batched_impl scanEnv ElemType.float (memWithAlpha (Cell.finite 3))
        (some (stubDeviceHandle 0 1)) rocblas_fill_upper 1 16 32 1 1 64 1 1).computeEvents :=
  (C14_scalar_passed_through scanEnv ElemType.float (stubDeviceHandle 0 1) rocblas_fill_upper
    1 16 32 1 1 64 1 1 (memWithAlpha (Cell.finite 2)) (memWithAlpha (Cell.finite 3))).2.2.2
    (by decide) (by decide) (by decide)

/-- C15: when the call reaches the kernel, `rocblas_spr_template` receives the
caller's handle, `uplo`, `n`, `alpha`, `x`, `incx`, `stridex`, `AP`, `strideA`
and `batch_count` unmodified, with both offsets 0, so that batch element `b` of
`x` and of `AP` is addressed at base plus `b` times the stride; and every
numeric check receives the same `n`, `AP`, `strideA`, `x`, `incx`, `stridex`,
`batch_count` and zero offsets. -/
theorem C15_arguments_forwarded (handle : rocblas_handle) :
    (∀ a, Event.rocblas_spr_template a
        ∈ (rocblas_spr_strided_batched_impl env T w handle uplo n alpha x incx stridex AP
            strideA batch_count).events →
      handle = some a.handle ∧ a.uplo = uplo ∧ a.n = n ∧ a.alpha = alpha ∧ a.x = x
      ∧ a.incx = incx ∧ a.stridex = stridex ∧ a.AP = AP ∧ a.strideA = strideA
      ∧ a.batch_count = batch_count ∧ a.offset_x = 0 ∧ a.offset_A = 0
      ∧ ∀ b : Int, stridedBatchBase a.x a.offset_x a.stridex b = (x : Int) + b * stridex
          ∧ stridedBatchBase a.AP a.offset_A a.strideA b = (AP : Int) + b * strideA)
    ∧ (∀ c, Event.rocblas_spr_check_numerics c
        ∈ (rocblas_spr_strided_batched_impl env T w handle uplo n alpha x incx stridex AP
            strideA batch_count).events →
      handle = some c.handle ∧ c.n = n ∧ c.A = AP ∧ c.stride_a = strideA ∧ c.x = x
      ∧ c.inc_x = incx ∧ c.stride_x = stridex ∧ c.batch_count = batch_count
      ∧ c.offset_a = 0 ∧ c.offset_x = 0) := by
  constructor
  · intro a ha
    obtain ⟨hd, hsome, _, _, rfl⟩ := impl_template_mem env T w uplo n alpha x incx stridex AP
      strideA batch_count handle a ha
    refine ⟨hsome, rfl, rfl, rfl, rfl, rfl, rfl, rfl, rfl, rfl, rfl, rfl, ?_⟩
    intro b
    simp [stridedBatchBase, templateArgs]
  · intro c hc
    obtain ⟨hd, b, hsome, _, _, rfl⟩ := impl_check_mem env T w uplo n alpha x incx stridex AP
      strideA batch_count handle c hc
    exact ⟨hsome, rfl, rfl, rfl, rfl, rfl, rfl, rfl, rfl, rfl⟩

/-- C15 at a call that reaches the kernel: the kernel's `alpha`, `x` and `AP`
are the caller's 16, 32 and 64. -/
theorem C15_arguments_forwarded_witness :
    (templateArgs (stubHandle 0 1) rocblas_fill_upper 5 16 32 1 5 64 15 3).alpha = 16
    ∧ (templateArgs (stubHandle 0 1) rocblas_fill_upper 5 16 32 1 5 64 15 3).x = 32
    ∧ (templateArgs (stubHandle 0 1) rocblas_fill_upper 5 16 32 1 5 64 15 3).AP = 64 :=
  ⟨((C15_arguments_forwarded
      (stubEnv rocblas_status_success rocblas_status_success rocblas_status_success)
      ElemType.float 0 rocblas_fill_upper 5 16 32 1 5 64 15 3 (some (stubHandle 0 1))).1
      (templateArgs (stubHandle 0 1) rocblas_fill_upper 5 16 32 1 5 64 15 3)
      (by decide)).2.2.2.1,
    ((C15_arguments_forwarded
      (stubEnv rocblas_status_success rocblas_status_success rocblas_status_success)
      ElemType.float 0 rocblas_fill_upper 5 16 32 1 5 64 15 3 (some (stubHandle 0 1))).1
      (templateArgs (stubHandle 0 1) rocblas_fill_upper 5 16 32 1 5 64 15 3)
      (by decide)).2.2.2.2.1,
    ((C15_arguments_forwarded
      (stubEnv rocblas_status_success rocblas_status_success rocblas_status_success)
      ElemType.float 0 rocblas_fill_upper 5 16 32 1 5 64 15 3 (some (stubHandle 0 1))).1
      (templateArgs (stubHandle 0 1) rocblas_fill_upper 5 16 32 1 5 64 15 3)
      (by decide)).2.2.2.2.2.2.2.1⟩

/-- C16 as stated fails: in host pointer mode, with `uplo` upper, `n = 1`,
`incx = 1`, `batch_count = 1` and `alpha` pointing to the value 0, a null `x`
gives `invalid_pointer`, not `success`; and with `x` and `AP` non-null the
call does not return early but invokes the kernel. -/
theorem C16_alpha_zero_counterexample :
    (stubHandle 0 0).pointer_mode = rocblas_pointer_mode.rocblas_pointer_mode_host
    ∧ memWithAlpha (Cell.finite 0) 16 = Cell.finite 0
    ∧ (rocblas_spr_strided_batched_impl scanEnv ElemType.float (memWithAlpha (Cell.finite 0))
        (some (stubHandle 0 0)) rocblas_fill_upper 1 16 0 1 1 64 1 1).status
      = rocblas_status_invalid_pointer
    ∧ (rocblas_spr_strided_batched_impl scanEnv ElemType.float (memWithAlpha (Cell.finite 0))
        (some (stubHandle 0 0)) rocblas_fill_upper 1 16 32 1 1 64 1 1).events
      = [Event.rocblas_spr_template
          (templateArgs (stubHandle 0 0) rocblas_fill_upper 1 16 32 1 1 64 1 1)] := by
  decide

/-- C16, amended: the routine has no scalar-known-zero short-circuit. With a
non-null handle that is not a device-memory-size query (host pointer mode
included), `uplo` lower or upper, `n > 0`, `incx != 0`, `batch_count > 0` and a
non-null `alpha`, whatever value `alpha` points to (0 included): a null `x` or
`AP` gives `invalid_pointer` with no kernel launch and no numeric check; and
with `x` and `AP` non-null the call goes on to the numeric check or the kernel,
to the kernel directly when numeric checking is off. -/
theorem C16_no_alpha_short_circuit (hq : h.is_device_memory_size_query = false)
    (hv : uplo = rocblas_fill_lower ∨ uplo = rocblas_fill_upper)
    (hn : 0 < n) (hi : incx ≠ 0) (hb : 0 < batch_count) (ha : alpha ≠ 0) :
    ((x = 0 ∨ AP = 0) →
      (rocblas_spr_strided_batched_impl env T w (some h) uplo n alpha x incx stridex AP strideA
          batch_count).status = rocblas_status_invalid_pointer
      ∧ (rocblas_spr_strided_batched_impl env T w (some h) uplo n alpha x incx stridex AP
          strideA batch_count).noCompute)
    ∧ (x ≠ 0 → AP ≠ 0 →
      (∃ e ∈ (rocblas_spr_strided_batched_impl env T w (some h) uplo n alpha x incx stridex AP
          strideA batch_count).events, e.isCheck = true ∨ e.isKernel = true)
      ∧ (h.check_numerics = 0 →
          Event.rocblas_spr_template
              (templateArgs h uplo n alpha x incx stridex AP strideA batch_count)
            ∈ (rocblas_spr_strided_batched_impl env T w (some h) uplo n alpha x incx stridex AP
                strideA batch_count).events)) := by
  constructor
  · intro hnull
    have hs : ¬ (n < 0 ∨ incx = 0 ∨ batch_count < 0) := by
      rintro (h1 | h1 | h1)
      · omega
      · exact hi h1
      · omega
    have hz : ¬ (n = 0 ∨ batch_count = 0) := by
      rintro (h1 | h1) <;> omega
    have hp : x = 0 ∨ AP = 0 ∨ alpha = 0 := by
      rcases hnull with h1 | h1
      · exact Or.inl h1
      · exact Or.inr (Or.inl h1)
    rw [impl_invalid_pointer env T w h uplo n alpha x incx stridex AP strideA batch_count hq hv
      hs hz hp]
    exact ⟨rfl,
      noCompute_logging env T w h uplo n alpha x incx stridex AP strideA batch_count _ _ _⟩
  · intro hx hA
    have hp : passesValidation uplo n alpha x incx AP batch_count :=
      ⟨hv, hn, hi, hb, hx, hA, ha⟩
    rw [impl_passes env T w h uplo n alpha x incx stridex AP strideA batch_count hq hp]
    constructor
    · by_cases hc : h.check_numerics = 0
      · refine ⟨Event.rocblas_spr_template
          (templateArgs h uplo n alpha x incx stridex AP strideA batch_count), ?_, Or.inr rfl⟩
        simp [hc]
      · refine ⟨Event.rocblas_spr_check_numerics
          (checkArgs T h n x incx stridex AP strideA batch_count h.check_numerics true), ?_,
          Or.inl rfl⟩
        simp only [if_neg hc]
        split
        · simp
        · split <;> simp
    · intro hc
      simp [hc]

/-- C16 amended, in host pointer mode with `alpha` pointing to 0 and `x` null. -/
theorem C16_no_alpha_short_circuit_witness :
    (rocblas_spr_strided_batched_impl scanEnv ElemType.float (memWithAlpha (Cell.finite 0))
        (some (stubHandle 0 0)) rocblas_fill_lower 4 16 0 1 4 64 10 2).status
      = rocblas_status_invalid_pointer :=
  ((C16_no_alpha_short_circuit scanEnv ElemType.float (memWithAlpha (Cell.finite 0))
    (stubHandle 0 0) rocblas_fill_lower 4 16 0 1 4 64 10 2 rfl (Or.inl rfl) (by decide)
    (by decide) (by decide) (by decide)).1 (Or.inl rfl)).1

end Scalars

end RocblasSpr

namespace RocblasClients

open RocblasSpr rocblas_status rocblas_fill rocblas_operation

section Her2k

variable (TWOK fortran : Bool) (uplo : rocblas_fill) (transA : rocblas_operation)
  (N K lda ldb ldc batch_count : Int)

/-- The early exit is taken exactly when `N == 0`, `batch_count == 0` or
`invalid_size`; the probe then has all five pointers null, passes the locals on
unchanged, and expects `invalid_size` if `invalid_size` is set and `success`
otherwise. -/
theorem testing_her2k_batched_probe_eq :
    testing_her2k_batched_probe TWOK fortran uplo transA N K lda ldb ldc batch_count
      = if N = 0 ∨ batch_count = 0
            ∨ testing_her2k_batched_invalid_size transA N K lda ldb ldc batch_count = true then
          some ⟨⟨TWOK, fortran, false, uplo, transA, N, K, 0, 0, lda, 0, ldb, 0, 0, ldc,
              batch_count⟩,
            if testing_her2k_batched_invalid_size transA N K lda ldb ldc batch_count = true
              then rocblas_status_invalid_size else rocblas_status_success⟩
        else none := rfl

/-- The local `invalid_size` as a proposition. -/
theorem testing_her2k_batched_invalid_size_iff :
    testing_her2k_batched_invalid_size transA N K lda ldb ldc batch_count = true
      ↔ (batch_count < 0 ∨ N < 0 ∨ K < 0 ∨ ldc < N
          ∨ (transA = rocblas_operation_none ∧ (lda < N ∨ ldb < N))
          ∨ (transA ≠ rocblas_operation_none ∧ (lda < K ∨ ldb < K))) := by
  simp only [testing_her2k_batched_invalid_size, Bool.or_eq_true, Bool.and_eq_true,
    decide_eq_true_eq]
  tauto

/-- C17 as stated fails: with `transA = rocblas_operation_transpose` and
`N = 0` (her2k, C convention, `uplo` upper, `K = lda = ldb = ldc = 100`,
`batch_count = 2`) `testing_her2k_batched` makes its all-null probe and expects
`success`, and with `N = -1` it expects `invalid_size`; in neither case does it
expect `invalid_value`. -/
theorem C17_transpose_probe_counterexample :
    testing_her2k_batched_probe true false rocblas_fill_upper rocblas_operation_transpose 0 100
        100 100 100 2
      = some ⟨⟨true, false, false, rocblas_fill_upper, rocblas_operation_transpose, 0, 100, 0, 0,
          100, 0, 100, 0, 0, 100, 2⟩, rocblas_status_success⟩
    ∧ (testing_her2k_batched_probe true false rocblas_fill_upper rocblas_operation_transpose
        (-1) 100 100 100 100 2).map (fun e => e.expected) = some rocblas_status_invalid_size := by
  decide

/-- C17, amended: the third call of `testing_her2k_batched_bad_arg` passes
`transA = rocblas_operation_transpose` with `uplo` upper,
`N = K = lda = ldb = ldc = 100`, `batch_count = 2`, the two scalar addresses
and the three device buffers, and `invalid_value` is expected of it. The
functional harness predicts no `invalid_value`: for every argument set,
`transA = rocblas_operation_transpose` included, on which
`testing_her2k_batched` makes its probe, the probe passes the arguments on with
all five pointers null and the status expected is `invalid_size` when the local
`invalid_size` is set and `success` otherwise. -/
theorem C17_probe_expectation (alpha beta dA dB dC : Ptr) (e : Expectation Her2kCall) :
    (testing_her2k_batched_bad_arg TWOK fortran alpha beta dA dB dC).get? 2
      = some ⟨⟨TWOK, fortran, false, rocblas_fill_upper, rocblas_operation_transpose, 100, 100,
          alpha, dA, 100, dB, 100, beta, dC, 100, 2⟩, rocblas_status_invalid_value⟩
    ∧ (testing_her2k_batched_probe TWOK fortran uplo transA N K lda ldb ldc batch_count = some e →
        e.call = ⟨TWOK, fortran, false, uplo, transA, N, K, 0, 0, lda, 0, ldb, 0, 0, ldc,
          batch_count⟩
        ∧ e.expected
          = (if testing_her2k_batched_invalid_size transA N K lda ldb ldc batch_count = true
              then rocblas_status_invalid_size else rocblas_status_success)
        ∧ e.expected ≠ rocblas_status_invalid_value) := by
  refine ⟨rfl, ?_⟩
  intro he
  rw [testing_her2k_batched_probe_eq] at he
  split at he
  · cases he
    refine ⟨rfl, rfl, ?_⟩
    show (if testing_her2k_batched_invalid_size transA N K lda ldb ldc batch_count = true
      then rocblas_status_invalid_size else rocblas_status_success) ≠ rocblas_status_invalid_value
    split <;> decide
  · cases he

/-- C17 amended, at `transA = rocblas_operation_transpose` with `N = 0`: the
probe is made, and the status expected of it is not `invalid_value`. -/
theorem C17_probe_expectation_witness :
    testing_her2k_batched_probe true false rocblas_fill_upper rocblas_operation_transpose 0 100
        100 100 100 2
      = some ⟨⟨true, false, false, rocblas_fill_upper, rocblas_operation_transpose, 0, 100, 0, 0,
          100, 0, 100, 0, 0, 100, 2⟩, rocblas_status_success⟩
    ∧ (EXPECT_ROCBLAS_STATUS
        (Her2kCall.mk true false false rocblas_fill_upper rocblas_operation_transpose 0 100 0 0
          100 0 100 0 0 100 2) rocblas_status_success).expected
      ≠ rocblas_status_invalid_value :=
  ⟨by decide,
    ((C17_probe_expectation true false rocblas_fill_upper rocblas_operation_transpose 0 100 100
      100 100 2 0 0 0 0 0
      (EXPECT_ROCBLAS_STATUS
        (Her2kCall.mk true false false rocblas_fill_upper rocblas_operation_transpose 0 100 0 0
          100 0 100 0 0 100 2) rocblas_status_success)).2 (by decide)).2.2⟩

/-- C18 as stated fails: with `K = 0` (`N = 3`, leading dimensions 3,
`batch_count = 1`) the harness makes no all-null probe at all, and with `N = 0`
and `K = -1` the probe expects `invalid_size`, not `success`. -/
theorem C18_zero_dimension_counterexample :
    testing_her2k_batched_probe true false rocblas_fill_upper rocblas_operation_none 3 0 3 3 3
        1 = none
    ∧ (testing_her2k_batched_probe true false rocblas_fill_upper rocblas_operation_none 0 (-1)
        3 3 3 1).map (fun e => e.expected) = some rocblas_status_invalid_size := by
  decide

/-- C18, amended: in `testing_her2k_batched`, if `N` or `batch_count` equals 0
and `invalid_size` is false, the harness calls the routine with `alpha`, `A`,
`B`, `beta` and `C` all null and expects `success`; `K == 0` alone is not an
early exit: with `N > 0`, `batch_count > 0` and `invalid_size` false no probe
is made. -/
theorem C18_zero_size_probe
    (hs : testing_her2k_batched_invalid_size transA N K lda ldb ldc batch_count = false) :
    ((N = 0 ∨ batch_count = 0) →
      ∃ e, (testing_her2k_batched_probe TWOK fortran uplo transA N K lda ldb ldc batch_count) = some e
        ∧ e.expected = rocblas_status_success
        ∧ e.call.alpha = 0 ∧ e.call.A = 0 ∧ e.call.B = 0 ∧ e.call.beta = 0 ∧ e.call.C = 0
        ∧ e.call.N = N ∧ e.call.K = K ∧ e.call.batch_count = batch_count)
    ∧ (K = 0 → 0 < N → 0 < batch_count →
      (testing_her2k_batched_probe TWOK fortran uplo transA N K lda ldb ldc batch_count) = none) := by
  constructor
  · intro hz
    rw [testing_her2k_batched_probe_eq, hs]
    have : N = 0 ∨ batch_count = 0 ∨ false = true := by
      rcases hz with h1 | h1
      · exact Or.inl h1
      · exact Or.inr (Or.inl h1)
    rw [if_pos this]
    exact ⟨_, rfl, by simp, rfl, rfl, rfl, rfl, rfl, rfl, rfl, rfl⟩
  · intro _ hN hb
    rw [testing_her2k_batched_probe_eq, hs]
    have : ¬ (N = 0 ∨ batch_count = 0 ∨ false = true) := by
      rintro (h1 | h1 | h1)
      · omega
      · omega
      · exact Bool.noConfusion h1
    rw [if_neg this]

/-- C18 amended, at `N = 0`, `K = 4`, `batch_count = 5`. -/
theorem C18_zero_size_probe_witness :
    ∃ e, testing_her2k_batched_probe false true rocblas_fill_lower
          rocblas_operation_conjugate_transpose 0 4 4 4 1 5 = some e
      ∧ e.expected = rocblas_status_success
      ∧ e.call.alpha = 0 ∧ e.call.A = 0 ∧ e.call.B = 0 ∧ e.call.beta = 0 ∧ e.call.C = 0
      ∧ e.call.N = 0 ∧ e.call.K = 4 ∧ e.call.batch_count = 5 :=
  (C18_zero_size_probe false true rocblas_fill_lower rocblas_operation_conjugate_transpose 0 4 4
    4 1 5 (by decide)).1 (Or.inl rfl)

/-- C19: for every argument set with `batch_count < 0` or `N < 0` or `K < 0` or
`ldc < N` or (`transA` none and (`lda < N` or `ldb < N`)) or (`transA` not none
and (`lda < K` or `ldb < K`)), `testing_her2k_batched` expects `invalid_size`
from a call whose five pointers are all null, also when `N == 0` or
`batch_count == 0`; and when that predicate is false and `N == 0` or
`batch_count == 0` it expects `success` from the same all-null call. -/
theorem C19_invalid_size_before_quick_return :
    ((batch_count < 0 ∨ N < 0 ∨ K < 0 ∨ ldc < N
        ∨ (transA = rocblas_operation_none ∧ (lda < N ∨ ldb < N))
        ∨ (transA ≠ rocblas_operation_none ∧ (lda < K ∨ ldb < K))) →
      ∃ e, (testing_her2k_batched_probe TWOK fortran uplo transA N K lda ldb ldc batch_count) = some e
        ∧ e.expected = rocblas_status_invalid_size
        ∧ e.call.alpha = 0 ∧ e.call.A = 0 ∧ e.call.B = 0 ∧ e.call.beta = 0 ∧ e.call.C = 0
        ∧ e.call.handle_is_null = false ∧ e.call.uplo = uplo ∧ e.call.transA = transA
        ∧ e.call.N = N ∧ e.call.K = K ∧ e.call.lda = lda ∧ e.call.ldb = ldb
        ∧ e.call.ldc = ldc ∧ e.call.batch_count = batch_count)
    ∧ (¬ (batch_count < 0 ∨ N < 0 ∨ K < 0 ∨ ldc < N
        ∨ (transA = rocblas_operation_none ∧ (lda < N ∨ ldb < N))
        ∨ (transA ≠ rocblas_operation_none ∧ (lda < K ∨ ldb < K))) →
      (N = 0 ∨ batch_count = 0) →
      ∃ e, (testing_her2k_batched_probe TWOK fortran uplo transA N K lda ldb ldc batch_count) = some e
        ∧ e.expected = rocblas_status_success
        ∧ e.call.alpha = 0 ∧ e.call.A = 0 ∧ e.call.B = 0 ∧ e.call.beta = 0 ∧ e.call.C = 0
        ∧ e.call.handle_is_null = false ∧ e.call.uplo = uplo ∧ e.call.transA = transA
        ∧ e.call.N = N ∧ e.call.K = K ∧ e.call.lda = lda ∧ e.call.ldb = ldb
        ∧ e.call.ldc = ldc ∧ e.call.batch_count = batch_count) := by
  constructor
  · intro hP
    have hs := (testing_her2k_batched_invalid_size_iff transA N K lda ldb ldc batch_count).2 hP
    rw [testing_her2k_batched_probe_eq, if_pos (Or.inr (Or.inr hs)), if_pos hs]
    exact ⟨_, rfl, rfl, rfl, rfl, rfl, rfl, rfl, rfl, rfl, rfl, rfl, rfl, rfl, rfl, rfl, rfl⟩
  · intro hP hz
    have hs : ¬ testing_her2k_batched_invalid_size transA N K lda ldb ldc batch_count = true :=
      fun h1 =>
        hP ((testing_her2k_batched_invalid_size_iff transA N K lda ldb ldc batch_count).1 h1)
    have hprobe : N = 0 ∨ batch_count = 0
        ∨ testing_her2k_batched_invalid_size transA N K lda ldb ldc batch_count = true := by
      rcases hz with h1 | h1
      · exact Or.inl h1
      · exact Or.inr (Or.inl h1)
    rw [testing_her2k_batched_probe_eq, if_pos hprobe, if_neg hs]
    exact ⟨_, rfl, rfl, rfl, rfl, rfl, rfl, rfl, rfl, rfl, rfl, rfl, rfl, rfl, rfl, rfl, rfl⟩

/-- C19 at `N = 0` with `ldc = -1 < N`: the all-null probe expects
`invalid_size`. -/
theorem C19_invalid_size_before_quick_return_witness :
    ∃ e, testing_her2k_batched_probe true false rocblas_fill_upper rocblas_operation_none 0 5
          1 1 (-1) 2 = some e
      ∧ e.expected = rocblas_status_invalid_size
      ∧ e.call.alpha = 0 ∧ e.call.A = 0 ∧ e.call.B = 0 ∧ e.call.beta = 0 ∧ e.call.C = 0 := by
  obtain ⟨e, h1, h2, h3, h4, h5, h6, h7, _⟩ :=
    (C19_invalid_size_before_quick_return true false rocblas_fill_upper rocblas_operation_none
      0 5 1 1 (-1) 2).1 (by decide)
  exact ⟨e, h1, h2, h3, h4, h5, h6, h7⟩

end Her2k

section Rotm

variable (fortran : Bool) (N incx incy batch_count : Int)

/-- C20 as stated fails: for `N = -1` (`incx = incy = 1`, `batch_count = 5`)
`testing_rotm_batched` makes its probe call with `x`, `y` and `param` null in
device pointer mode and expects `success`, not `invalid_size`. -/
theorem C20_negative_n_counterexample :
    testing_rotm_batched_probe false (-1) 1 1 5
      = some ⟨⟨false, false, rocblas_pointer_mode.rocblas_pointer_mode_device, -1, 0, 1, 0, 1,
          0, 5⟩, rocblas_status_success⟩ := by
  decide

/-- C20, amended: for rotm_batched the harness treats a negative `N` like an
empty problem: for every `N <= 0` or `batch_count <= 0` (any `incx`, `incy`),
so in particular for every `N < 0`, `testing_rotm_batched` sets device pointer
mode and expects `success` from its probe call with `x`, `y` and `param` all
null. -/
theorem C20_nonpositive_n_probe :
    ((N ≤ 0 ∨ batch_count ≤ 0) →
      ∃ e, testing_rotm_batched_probe fortran N incx incy batch_count = some e
        ∧ e.expected = rocblas_status_success
        ∧ e.call.x = 0 ∧ e.call.y = 0 ∧ e.call.param = 0
        ∧ e.call.pointer_mode = rocblas_pointer_mode.rocblas_pointer_mode_device
        ∧ e.call.handle_is_null = false
        ∧ e.call.N = N ∧ e.call.incx = incx ∧ e.call.incy = incy
        ∧ e.call.batch_count = batch_count)
    ∧ (N < 0 →
      (testing_rotm_batched_probe fortran N incx incy batch_count).map (fun e => e.expected)
        = some rocblas_status_success) := by
  constructor
  · intro hz
    simp only [testing_rotm_batched_probe, if_pos hz]
    exact ⟨_, rfl, rfl, rfl, rfl, rfl, rfl, rfl, rfl, rfl, rfl, rfl⟩
  · intro hN
    have hz : N ≤ 0 ∨ batch_count ≤ 0 := Or.inl (by omega)
    simp only [testing_rotm_batched_probe, if_pos hz]
    rfl

/-- C20 amended, at `N = -7`, `incx = 2`, `incy = -1`, `batch_count = 3`. -/
theorem C20_nonpositive_n_probe_witness :
    (testing_rotm_batched_probe true (-7) 2 (-1) 3).map (fun e => e.expected)
      = some rocblas_status_success :=
  (C20_nonpositive_n_probe true (-7) 2 (-1) 3).2 (by decide)

end Rotm

end RocblasClients

namespace RocblasSpr

section SizeQuery

open rocblas_status rocblas_fill

variable {σ : Type} (env : Env σ) (T : ElemType) (w : σ) (h : _rocblas_handle)
  (uplo : rocblas_fill) (n : Int) (alpha x : Ptr) (incx stridex : Int) (AP : Ptr)
  (strideA batch_count : Int)

/-- C26: with a non-null handle in device-memory-size-query mode the call
returns right after the handle check, for every argument value: no logging
call, no numeric check and no kernel call is made, the memory is untouched,
and the status is the one of the size-query macro whatever the arguments are,
so that an invalid `uplo`, a negative `n` or null buffers are not reported. -/
theorem C26_size_query_returns_first (hq : h.is_device_memory_size_query = true) :
    (rocblas_spr_strided_batched_impl env T w (some h) uplo n alpha x incx stridex AP strideA
        batch_count).events = []
    ∧ (rocblas_spr_strided_batched_impl env T w (some h) uplo n alpha x incx stridex AP strideA
        batch_count).state = w
    ∧ (rocblas_spr_strided_batched_impl env T w (some h) uplo n alpha x incx stridex AP strideA
        batch_count).status = env.size_query_status
    ∧ ∀ (uplo2 : rocblas_fill) (n2 : Int) (alpha2 x2 : Ptr) (incx2 stridex2 : Int) (AP2 : Ptr)
        (strideA2 batch_count2 : Int),
        (rocblas_spr_strided_batched_impl env T w (some h) uplo2 n2 alpha2 x2 incx2 stridex2
          AP2 strideA2 batch_count2).status
        = (rocblas_spr_strided_batched_impl env T w (some h) uplo n alpha x incx stridex AP strideA
        batch_count).status := by
  rw [impl_size_query env T w h uplo n alpha x incx stridex AP strideA batch_count hq]
  refine ⟨rfl, rfl, rfl, ?_⟩
  intro uplo2 n2 alpha2 x2 incx2 stridex2 AP2 strideA2 batch_count2
  rw [impl_size_query env T w h uplo2 n2 alpha2 x2 incx2 stridex2 AP2 strideA2 batch_count2 hq]

/-- C26 at fill mode `full`, `n = -1`, null buffers, all logging on and numeric
checking enabled: the trace is empty. -/
theorem C26_size_query_returns_first_witness :
    (rocblas_spr_strided_batched_impl
        (stubEnv rocblas_status_success rocblas_status_success rocblas_status_success)
        ElemType.float 0 (some (stubQueryHandle 7 1)) rocblas_fill_full (-1) 0 0 0 0 0 0
        (-1)).events = [] :=
  (C26_size_query_returns_first
    (stubEnv rocblas_status_success rocblas_status_success rocblas_status_success)
    ElemType.float 0 (stubQueryHandle 7 1) rocblas_fill_full (-1) 0 0 0 0 0 0 (-1) rfl).1

end SizeQuery

end RocblasSpr

namespace RocblasClients

open RocblasSpr rocblas_status rocblas_fill rocblas_operation

section Harness

variable (TWOK fortran : Bool) (uplo : rocblas_fill) (transA : rocblas_operation)
  (N K lda ldb ldc batch_count : Int)

/-- C24: none of the calls of `testing_trmm_bad_arg` has `N = 0`. Listed as
(`M`, `N`, `alpha`, `A`, `B`, expected status), with the local scalars at
addresses 8 and 24 and the device buffers at 128 and 256: the call under the
comment `If N==0, then all pointers can be nullptr without error` is the sixth,
made with `M = N = 100` and the three pointers non-null. -/
theorem C24_trmm_bad_arg_calls :
    (testing_trmm_bad_arg false 8 24 128 256).map
        (fun e => (e.call.M, e.call.N, e.call.alpha, e.call.A, e.call.B, e.expected))
      = [(100, 100, 8, 0, 256, rocblas_status_invalid_pointer),
         (100, 100, 8, 128, 0, rocblas_status_invalid_pointer),
         (100, 100, 0, 128, 256, rocblas_status_invalid_pointer),
         (100, 100, 8, 128, 256, rocblas_status_invalid_handle),
         (0, 100, 0, 0, 0, rocblas_status_success),
         (100, 100, 8, 128, 256, rocblas_status_success),
         (100, 100, 24, 0, 256, rocblas_status_success)] := by
  decide

/-- C27 as stated fails: with `transA` conjugate-transpose, `N = 2`, `K = 0`,
`lda = ldb = 0`, `ldc = 2`, `batch_count = 1` the harness goes past its early
exit and allocates `hA`, `hB`, `dA`, `dB` with 1 row and leading dimension 0
(listed as rows, leading dimension). -/
theorem C27_leading_dimension_counterexample :
    (testing_her2k_batched_allocations true false rocblas_fill_upper
        rocblas_operation_conjugate_transpose 2 0 0 0 2 1).map
        (fun l => l.map (fun a => (a.name, a.rows, a.ld)))
      = some [("hA", 1, 0), ("hB", 1, 0), ("hC_1", 2, 2), ("hC_2", 2, 2), ("hC_gold", 2, 2),
          ("dA", 1, 0), ("dB", 1, 0), ("dC", 2, 2)] := by
  decide

/-- C27, amended: whenever `testing_her2k_batched` proceeds past its early exit
(then `N > 0`, `batch_count > 0` and `invalid_size` is false), `ldc >= N >= 1`,
`lda` and `ldb` are at least `N` when `transA` is none and at least `K >= 0`
otherwise, and when `transA` is none or `K >= 1` every matrix it allocates has
a leading dimension at least its row count. -/
theorem C27_leading_dimensions (l : List Allocation)
    (hl : testing_her2k_batched_allocations TWOK fortran uplo transA N K lda ldb ldc batch_count = some l) :
    (0 < N ∧ 0 < batch_count
      ∧ testing_her2k_batched_invalid_size transA N K lda ldb ldc batch_count = false)
    ∧ (N ≤ ldc ∧ 1 ≤ N)
    ∧ (transA = rocblas_operation_none → N ≤ lda ∧ N ≤ ldb)
    ∧ (transA ≠ rocblas_operation_none → 0 ≤ K ∧ K ≤ lda ∧ K ≤ ldb)
    ∧ ((transA = rocblas_operation_none ∨ 1 ≤ K) → ∀ a ∈ l, a.rows ≤ a.ld) := by
  unfold testing_her2k_batched_allocations at hl
  rw [testing_her2k_batched_probe_eq] at hl
  by_cases hprobe : N = 0 ∨ batch_count = 0
      ∨ testing_her2k_batched_invalid_size transA N K lda ldb ldc batch_count = true
  · rw [if_pos hprobe] at hl
    exact Option.noConfusion hl
  · rw [if_neg hprobe] at hl
    have hinv : ¬ testing_her2k_batched_invalid_size transA N K lda ldb ldc batch_count = true :=
      fun h1 => hprobe (Or.inr (Or.inr h1))
    have hP := fun h1 =>
      hinv ((testing_her2k_batched_invalid_size_iff transA N K lda ldb ldc batch_count).2 h1)
    have hN0 : N ≠ 0 := fun h1 => hprobe (Or.inl h1)
    have hb0 : batch_count ≠ 0 := fun h1 => hprobe (Or.inr (Or.inl h1))
    have hb : ¬ batch_count < 0 := fun h1 => hP (Or.inl h1)
    have hN : ¬ N < 0 := fun h1 => hP (Or.inr (Or.inl h1))
    have hK : ¬ K < 0 := fun h1 => hP (Or.inr (Or.inr (Or.inl h1)))
    have hc : ¬ ldc < N := fun h1 => hP (Or.inr (Or.inr (Or.inr (Or.inl h1))))
    have hnone : transA = rocblas_operation_none → ¬ (lda < N ∨ ldb < N) := fun ht h1 =>
      hP (Or.inr (Or.inr (Or.inr (Or.inr (Or.inl ⟨ht, h1⟩)))))
    have htr : transA ≠ rocblas_operation_none → ¬ (lda < K ∨ ldb < K) := fun ht h1 =>
      hP (Or.inr (Or.inr (Or.inr (Or.inr (Or.inr ⟨ht, h1⟩)))))
    refine ⟨⟨by omega, by omega, by simpa using hinv⟩, ⟨by omega, by omega⟩, ?_, ?_, ?_⟩
    · intro ht
      have := hnone ht
      constructor <;> omega
    · intro ht
      have := htr ht
      refine ⟨by omega, ?_, ?_⟩ <;> omega
    · intro hcase a ha
      simp only [Option.some.injEq] at hl
      subst hl
      by_cases ht : transA = rocblas_operation_none
      · have := hnone ht
        simp only [ht, ne_eq, not_true_eq_false, if_false, if_true, List.mem_cons,
          List.mem_singleton, List.not_mem_nil, or_false] at ha
        rcases ha with rfl | rfl | rfl | rfl | rfl | rfl | rfl | rfl <;> simp <;> omega
      · have := htr ht
        have hK1 : 1 ≤ K := by
          rcases hcase with h1 | h1
          · exact absurd h1 ht
          · exact h1
        simp only [ht, ne_eq, not_false_eq_true, if_false, if_true, List.mem_cons,
          List.mem_singleton, List.not_mem_nil, or_false] at ha
        rcases ha with rfl | rfl | rfl | rfl | rfl | rfl | rfl | rfl <;> simp <;> omega

/-- C27 amended, at `transA` none, `N = 3`, `K = 0`, leading dimensions 3. -/
theorem C27_leading_dimensions_witness :
    testing_her2k_batched_allocations true false rocblas_fill_upper rocblas_operation_none 3 0
        3 3 3 1
      = some [⟨"hA", 3, 1, 3, 1⟩, ⟨"hB", 3, 1, 3, 1⟩, ⟨"hC_1", 3, 3, 3, 1⟩,
          ⟨"hC_2", 3, 3, 3, 1⟩, ⟨"hC_gold", 3, 3, 3, 1⟩, ⟨"dA", 3, 1, 3, 1⟩,
          ⟨"dB", 3, 1, 3, 1⟩, ⟨"dC", 3, 3, 3, 1⟩]
    ∧ ∀ a ∈ [(⟨"hA", 3, 1, 3, 1⟩ : Allocation), ⟨"hB", 3, 1, 3, 1⟩, ⟨"hC_1", 3, 3, 3, 1⟩,
          ⟨"hC_2", 3, 3, 3, 1⟩, ⟨"hC_gold", 3, 3, 3, 1⟩, ⟨"dA", 3, 1, 3, 1⟩,
          ⟨"dB", 3, 1, 3, 1⟩, ⟨"dC", 3, 3, 3, 1⟩], a.rows ≤ a.ld :=
  ⟨by decide,
    (C27_leading_dimensions true false rocblas_fill_upper rocblas_operation_none 3 0 3 3 3 1
      [⟨"hA", 3, 1, 3, 1⟩, ⟨"hB", 3, 1, 3, 1⟩, ⟨"hC_1", 3, 3, 3, 1⟩, ⟨"hC_2", 3, 3, 3, 1⟩,
        ⟨"hC_gold", 3, 3, 3, 1⟩, ⟨"dA", 3, 1, 3, 1⟩, ⟨"dB", 3, 1, 3, 1⟩, ⟨"dC", 3, 3, 3, 1⟩]
      (by decide)).2.2.2.2 (Or.inl rfl)⟩

end Harness

section Gtest

/-- C29: for every suite `NAME` generated by `BLAS1_TESTING`,
`function_filter` is true exactly when `arg.function` equals `NAME` or `NAME`
followed by `_bad_arg`; and for every `arg` the filter accepts, the testing
functor runs `testing_NAME` when `arg.function` is `NAME` and
`testing_NAME_bad_arg` when it is `NAME_bad_arg`, never the
`Internal error: Test called with unknown function` branch. -/
theorem C29_function_filter (NAME : blas1) (function : String) :
    (function_filter NAME function = true
      ↔ (function = NAME.NAME ∨ function = NAME.NAME ++ "_bad_arg"))
    ∧ (function_filter NAME function = true →
        testing_functor NAME function ≠ TestingBranch.FAIL_unknown_function
        ∧ (function = NAME.NAME → testing_functor NAME function = TestingBranch.testing_NAME)
        ∧ (function = NAME.NAME ++ "_bad_arg" →
            testing_functor NAME function = TestingBranch.testing_NAME_bad_arg)) := by
  have hne : NAME.NAME ++ "_bad_arg" ≠ NAME.NAME := by
    cases NAME <;> decide
  have hiff : function_filter NAME function = true
      ↔ (function = NAME.NAME ∨ function = NAME.NAME ++ "_bad_arg") := by
    simp [function_filter, strcmp_is_zero]
  refine ⟨hiff, ?_⟩
  intro hf
  rcases hiff.1 hf with h1 | h1
  · subst h1
    simp [testing_functor, strcmp_is_zero, hne.symm]
  · subst h1
    simp [testing_functor, strcmp_is_zero, hne]

/-- C29 for the suite `rotm_batched` and the function `rotm_batched_bad_arg`. -/
theorem C29_function_filter_witness :
    testing_functor blas1.rotm_batched "rotm_batched_bad_arg"
      = TestingBranch.testing_NAME_bad_arg :=
  ((C29_function_filter blas1.rotm_batched "rotm_batched_bad_arg").2 (by decide)).2.2
    (by decide)

end Gtest

end RocblasClients

namespace RocblasClients

open RocblasSpr rocblas_pointer_mode

section Comparison

variable {M S U R : Type}

/-- The reference loop of `testing_her2k_batched` run for `n` batch elements. -/
theorem Her2kState.her2k_reference_loop (env : Her2kEnv M S U R) (arg : Her2kArguments)
    (s : Her2kState M S U R) (n : Nat) :
    (List.range n).foldl (fun s b => Her2kState.reference env arg b s) s
      = { s with
          hC_gold := fun b =>
            if b < n then env.herXX_ref_fn arg s.h_alpha (s.hA b) (s.hB b) s.h_beta (s.hC_gold b)
            else s.hC_gold b
          trace := s.trace ++ (List.range n).map (fun b =>
            Her2kEvent.herXX_ref_fn b s.h_alpha (s.hA b) (s.hB b) s.h_beta (s.hC_gold b)) } := by
  induction n with
  | zero => simp
  | succ n ih =>
    rw [List.range_succ, List.foldl_append, ih]
    simp only [List.foldl_cons, List.foldl_nil, Her2kState.reference, List.map_append,
      List.map_cons, List.map_nil, lt_irrefl, if_false, List.append_assoc]
    congr 1
    funext b
    by_cases hb : b = n
    · subst hb
      simp
    · rw [Function.update_noteq hb]
      by_cases hlt : b < n
      · simp [hlt, Nat.lt_succ_of_lt hlt]
      · have : ¬ b < n + 1 := by omega
        simp [hlt, this]

/-- A loop of `n` routine calls in the timing section appends `n` routine calls
to the trace and leaves the reported error untouched. -/
theorem Her2kState.run_loop (env : Her2kEnv M S U R) (arg : Her2kArguments)
    (s : Her2kState M S U R) (n : Int) :
    ∃ calls : List (Her2kEvent M S U R),
      (forLoop n (fun _ s => Her2kState.timingCall env arg s) s).trace = s.trace ++ calls
      ∧ calls.length = n.toNat ∧ (∀ e ∈ calls, e.isRun = true)
      ∧ (forLoop n (fun _ s => Her2kState.timingCall env arg s) s).rocblas_error
        = s.rocblas_error := by
  have step : ∀ t : Her2kState M S U R,
      (t.timingCall env arg).trace
        = t.trace ++ [Her2kEvent.rocblas_herXX_batched_fn t.pointer_mode
            (ScalarArg.host t.h_alpha) (ScalarArg.host t.h_beta) t.dA t.dB t.dC] :=
    fun _ => rfl
  have step2 : ∀ t : Her2kState M S U R, (t.timingCall env arg).rocblas_error = t.rocblas_error :=
    fun _ => rfl
  unfold forLoop
  generalize n.toNat = k
  induction k with
  | zero => exact ⟨[], by simp, rfl, by simp, rfl⟩
  | succ k ih =>
    obtain ⟨calls, h1, h2, h3, h4⟩ := ih
    rw [List.range_succ, List.foldl_append]
    simp only [List.foldl_cons, List.foldl_nil]
    rw [step, step2, h1, h4]
    refine ⟨calls ++ [_], by rw [List.append_assoc], by simp [h2], ?_, rfl⟩
    intro e he
    rcases List.mem_append.1 he with he | he
    · exact h3 e he
    · rw [List.mem_singleton.1 he]
      rfl

variable [LinearOrderedRing R]

/-- The trace of the comparison section of `testing_her2k_batched` on freshly
initialised data. -/
theorem testing_her2k_batched_check_trace (env : Her2kEnv M S U R) (arg : Her2kArguments)
    (TWOK : Bool) (alpha : S) (beta : U) (A0 B0 C0 dC0 : Batch M) (mode0 : rocblas_pointer_mode)
    (hc : (arg.unit_check || arg.norm_check) = true) :
    (testing_her2k_batched_check env arg
        (testing_her2k_batched_init TWOK alpha beta A0 B0 C0 dC0 mode0)).trace
      = [Her2kEvent.rocblas_herXX_batched_fn rocblas_pointer_mode_host
            (ScalarArg.host alpha) (ScalarArg.host beta) A0 (if TWOK then B0 else A0) C0,
          Her2kEvent.rocblas_herXX_batched_fn rocblas_pointer_mode_device
            (ScalarArg.device (some alpha)) (ScalarArg.device (some beta)) A0
            (if TWOK then B0 else A0) C0]
        ++ (List.range arg.batch_count.toNat).map (fun b =>
            Her2kEvent.herXX_ref_fn b alpha (A0 b) ((if TWOK then B0 else A0) b) beta (C0 b))
        ++ (if arg.unit_check then
            [Her2kEvent.near_check_general
                (her2kReference env arg alpha beta A0 (if TWOK then B0 else A0) C0)
                (her2kHostResult env arg alpha beta A0 (if TWOK then B0 else A0) C0),
              Her2kEvent.near_check_general
                (her2kReference env arg alpha beta A0 (if TWOK then B0 else A0) C0)
                (her2kDeviceResult env arg alpha beta A0 (if TWOK then B0 else A0) C0)]
          else [])
        ++ (if arg.norm_check then
            [Her2kEvent.norm_check_general
                (her2kReference env arg alpha beta A0 (if TWOK then B0 else A0) C0)
                (her2kHostResult env arg alpha beta A0 (if TWOK then B0 else A0) C0),
              Her2kEvent.norm_check_general
                (her2kReference env arg alpha beta A0 (if TWOK then B0 else A0) C0)
                (her2kDeviceResult env arg alpha beta A0 (if TWOK then B0 else A0) C0)]
          else []) := by
  simp only [testing_her2k_batched_check, hc, if_true, forLoop, Her2kState.her2k_reference_loop,
    testing_her2k_batched_init, Her2kState.run]
  have hG : her2kReference env arg alpha beta A0 (if TWOK then B0 else A0) C0
      = fun b => if b < arg.batch_count.toNat then
          env.herXX_ref_fn arg alpha (A0 b) ((if TWOK then B0 else A0) b) beta (C0 b)
        else C0 b := rfl
  rw [hG]
  cases hu : arg.unit_check <;> cases hn : arg.norm_check
  · rw [hu, hn] at hc
    exact Bool.noConfusion hc
  · simp [her2kHostResult, her2kDeviceResult]
  · simp [her2kHostResult, her2kDeviceResult]
  · simp [her2kHostResult, her2kDeviceResult]

/-- The error `testing_her2k_batched` reports after a norm check on freshly
initialised data. -/
theorem testing_her2k_batched_check_error (env : Her2kEnv M S U R) (arg : Her2kArguments)
    (TWOK : Bool) (alpha : S) (beta : U) (A0 B0 C0 dC0 : Batch M) (mode0 : rocblas_pointer_mode)
    (hn : arg.norm_check = true) :
    (testing_her2k_batched_check env arg
        (testing_her2k_batched_init TWOK alpha beta A0 B0 C0 dC0 mode0)).rocblas_error
      = if |her2kErr1 env arg alpha beta A0 (if TWOK then B0 else A0) C0|
            > |her2kErr2 env arg alpha beta A0 (if TWOK then B0 else A0) C0|
          then |her2kErr1 env arg alpha beta A0 (if TWOK then B0 else A0) C0|
          else |her2kErr2 env arg alpha beta A0 (if TWOK then B0 else A0) C0| := by
  have hG : her2kReference env arg alpha beta A0 (if TWOK then B0 else A0) C0
      = fun b => if b < arg.batch_count.toNat then
          env.herXX_ref_fn arg alpha (A0 b) ((if TWOK then B0 else A0) b) beta (C0 b)
        else C0 b := rfl
  simp only [testing_her2k_batched_check, hn, Bool.or_true, if_true, forLoop,
    Her2kState.her2k_reference_loop, testing_her2k_batched_init, Her2kState.run, her2kErr1,
    her2kErr2, hG, her2kHostResult, her2kDeviceResult]
  cases hu : arg.unit_check <;> simp

variable {Mat : Type}

/-- The trace of the comparison section of `testing_trmm` on freshly initialised
data. -/
theorem testing_trmm_check_trace (tenv : TrmmEnv Mat S R) (targ : TrmmArguments) (talpha : S)
    (TA0 TB0 TdB0 : Mat) (mode0 : rocblas_pointer_mode)
    (hc : (targ.unit_check || targ.norm_check) = true) :
    (testing_trmm_check tenv targ (testing_trmm_init talpha TA0 TB0 TdB0 mode0)).trace
      = [TrmmEvent.rocblas_trmm_fn rocblas_pointer_mode_host (ScalarArg.host talpha) TA0 TB0,
          TrmmEvent.rocblas_trmm_fn rocblas_pointer_mode_device (ScalarArg.device (some talpha))
            TA0 TB0,
          TrmmEvent.cblas_trmm talpha TA0 TB0]
        ++ (if targ.unit_check then
            if (targ.is_half && decide ((if targ.side = rocblas_side.rocblas_side_left
                then targ.M else targ.N) > 10000)) = true then
              [TrmmEvent.near_check_general (tenv.cblas_trmm targ talpha TA0 TB0)
                  (trmmHostResult tenv targ talpha TA0 TB0),
                TrmmEvent.near_check_general (tenv.cblas_trmm targ talpha TA0 TB0)
                  (trmmDeviceResult tenv targ talpha TA0 TB0)]
            else
              [TrmmEvent.unit_check_general (tenv.cblas_trmm targ talpha TA0 TB0)
                  (trmmHostResult tenv targ talpha TA0 TB0),
                TrmmEvent.unit_check_general (tenv.cblas_trmm targ talpha TA0 TB0)
                  (trmmDeviceResult tenv targ talpha TA0 TB0)]
          else [])
        ++ (if targ.norm_check then
            [TrmmEvent.norm_check_general (tenv.cblas_trmm targ talpha TA0 TB0)
                (trmmHostResult tenv targ talpha TA0 TB0),
              TrmmEvent.norm_check_general (tenv.cblas_trmm targ talpha TA0 TB0)
                (trmmDeviceResult tenv targ talpha TA0 TB0)]
          else []) := by
  simp only [testing_trmm_check, hc, if_true, testing_trmm_init, TrmmState.run]
  cases hu : targ.unit_check <;> cases hn : targ.norm_check
  · rw [hu, hn] at hc
    exact Bool.noConfusion hc
  · simp [trmmHostResult, trmmDeviceResult]
  · by_cases hh : (targ.is_half && decide ((if targ.side = rocblas_side.rocblas_side_left
        then targ.M else targ.N) > 10000)) = true
    · simp [trmmHostResult, trmmDeviceResult, hh]
    · simp [trmmHostResult, trmmDeviceResult, hh]
  · by_cases hh : (targ.is_half && decide ((if targ.side = rocblas_side.rocblas_side_left
        then targ.M else targ.N) > 10000)) = true
    · simp [trmmHostResult, trmmDeviceResult, hh]
    · simp [trmmHostResult, trmmDeviceResult, hh]

/-- The error `testing_trmm` reports after a norm check on freshly initialised
data. -/
theorem testing_trmm_check_error (tenv : TrmmEnv Mat S R) (targ : TrmmArguments) (talpha : S)
    (TA0 TB0 TdB0 : Mat) (mode0 : rocblas_pointer_mode) (hn : targ.norm_check = true) :
    (testing_trmm_check tenv targ (testing_trmm_init talpha TA0 TB0 TdB0 mode0)).rocblas_error
      = if |trmmErr1 tenv targ talpha TA0 TB0| > |trmmErr2 tenv targ talpha TA0 TB0|
          then |trmmErr1 tenv targ talpha TA0 TB0| else |trmmErr2 tenv targ talpha TA0 TB0| := by
  simp only [testing_trmm_check, hn, Bool.or_true, if_true, testing_trmm_init, TrmmState.run,
    trmmErr1, trmmErr2, trmmHostResult, trmmDeviceResult]
  cases hu : targ.unit_check
  · simp
  · by_cases hh : (targ.is_half && decide ((if targ.side = rocblas_side.rocblas_side_left
        then targ.M else targ.N) > 10000)) = true
    · simp [hh]
    · simp [hh]

end Comparison

end RocblasClients

namespace RocblasClients

open RocblasSpr rocblas_pointer_mode

section Oracle

variable {M Mat S U R : Type} [LinearOrderedRing R]
  (env : Her2kEnv M S U R) (arg : Her2kArguments) (TWOK : Bool) (alpha : S) (beta : U)
  (A0 B0 C0 dC0 : Batch M) (mode0 : rocblas_pointer_mode)
  (tenv : TrmmEnv Mat S R) (targ : TrmmArguments) (talpha : S) (TA0 TB0 TdB0 : Mat)
  (tmode0 : rocblas_pointer_mode)

/-- C22: in `testing_her2k_batched` and in `testing_trmm` with `norm_check` set,
the reported `rocblas_error` equals `max(|err1|, |err2|)`, where `err1` is the
norm error of the host-pointer-mode result and `err2` that of the
device-pointer-mode result against the same reference; hence it is at least
`|err1|`, at least `|err2|`, and equal to one of them (errors taken in an
ordered ring, not in floating point). -/
theorem C22_reported_error (hn : arg.norm_check = true) (htn : targ.norm_check = true) :
    ((testing_her2k_batched_check env arg
        (testing_her2k_batched_init TWOK alpha beta A0 B0 C0 dC0 mode0)).rocblas_error
        = max |her2kErr1 env arg alpha beta A0 (if TWOK then B0 else A0) C0|
            |her2kErr2 env arg alpha beta A0 (if TWOK then B0 else A0) C0|
      ∧ |her2kErr1 env arg alpha beta A0 (if TWOK then B0 else A0) C0|
          ≤ (testing_her2k_batched_check env arg
        (testing_her2k_batched_init TWOK alpha beta A0 B0 C0 dC0 mode0)).rocblas_error
      ∧ |her2kErr2 env arg alpha beta A0 (if TWOK then B0 else A0) C0|
          ≤ (testing_her2k_batched_check env arg
        (testing_her2k_batched_init TWOK alpha beta A0 B0 C0 dC0 mode0)).rocblas_error
      ∧ ((testing_her2k_batched_check env arg
        (testing_her2k_batched_init TWOK alpha beta A0 B0 C0 dC0 mode0)).rocblas_error
            = |her2kErr1 env arg alpha beta A0 (if TWOK then B0 else A0) C0|
          ∨ (testing_her2k_batched_check env arg
        (testing_her2k_batched_init TWOK alpha beta A0 B0 C0 dC0 mode0)).rocblas_error
            = |her2kErr2 env arg alpha beta A0 (if TWOK then B0 else A0) C0|))
    ∧ ((testing_trmm_check tenv targ (testing_trmm_init talpha TA0 TB0 TdB0 tmode0)).rocblas_error
        = max |trmmErr1 tenv targ talpha TA0 TB0| |trmmErr2 tenv targ talpha TA0 TB0|
      ∧ |trmmErr1 tenv targ talpha TA0 TB0|
          ≤ (testing_trmm_check tenv targ (testing_trmm_init talpha TA0 TB0 TdB0 tmode0)).rocblas_error
      ∧ |trmmErr2 tenv targ talpha TA0 TB0|
          ≤ (testing_trmm_check tenv targ (testing_trmm_init talpha TA0 TB0 TdB0 tmode0)).rocblas_error
      ∧ ((testing_trmm_check tenv targ (testing_trmm_init talpha TA0 TB0 TdB0 tmode0)).rocblas_error
            = |trmmErr1 tenv targ talpha TA0 TB0|
          ∨ (testing_trmm_check tenv targ (testing_trmm_init talpha TA0 TB0 TdB0 tmode0)).rocblas_error
            = |trmmErr2 tenv targ talpha TA0 TB0|)) := by
  have key : ∀ a b : R, (if a > b then a else b) = max a b
      ∧ a ≤ (if a > b then a else b) ∧ b ≤ (if a > b then a else b)
      ∧ ((if a > b then a else b) = a ∨ (if a > b then a else b) = b) := by
    intro a b
    by_cases hab : a > b
    · rw [if_pos hab]
      exact ⟨(max_eq_left (le_of_lt hab)).symm, le_refl a, le_of_lt hab, Or.inl rfl⟩
    · rw [if_neg hab]
      exact ⟨(max_eq_right (not_lt.1 hab)).symm, not_lt.1 hab, le_refl b, Or.inr rfl⟩
  rw [testing_her2k_batched_check_error env arg TWOK alpha beta A0 B0 C0 dC0 mode0 hn,
    testing_trmm_check_error tenv targ talpha TA0 TB0 TdB0 tmode0 htn]
  exact ⟨key _ _, key _ _⟩

/-- C22 on small integer instances of both harnesses: the errors reported are
`max(|0|, |0|)` for her2k and for trmm. -/
theorem C22_reported_error_witness :
    (testing_her2k_batched_check stubHer2kEnv (stubHer2kArguments false true false 0 0)
        (testing_her2k_batched_init true 2 3 (fun _ => 1) (fun _ => 1) (fun _ => 5)
          (fun _ => 0) rocblas_pointer_mode_host)).rocblas_error
      = max |her2kErr1 stubHer2kEnv (stubHer2kArguments false true false 0 0) 2 3 (fun _ => 1)
              (if true then (fun _ => 1) else (fun _ => 1)) (fun _ => 5)|
          |her2kErr2 stubHer2kEnv (stubHer2kArguments false true false 0 0) 2 3 (fun _ => 1)
              (if true then (fun _ => 1) else (fun _ => 1)) (fun _ => 5)| :=
  (C22_reported_error stubHer2kEnv (stubHer2kArguments false true false 0 0) true 2 3
    (fun _ => 1) (fun _ => 1) (fun _ => 5) (fun _ => 0) rocblas_pointer_mode_host
    stubTrmmEnv (stubTrmmArguments false true) 2 1 5 0 rocblas_pointer_mode_host rfl rfl).1.1

/-- C23: in `testing_her2k_batched` and in `testing_trmm` the device output
buffer (`dC`, respectively `dB`) holds the initial matrix at the start of the
host-pointer-mode call and again at the start of the device-pointer-mode call,
and the host reference is computed from that same initial matrix (for her2k:
batch element by batch element). -/
theorem C23_fresh_output_buffer (hc : (arg.unit_check || arg.norm_check) = true)
    (htc : (targ.unit_check || targ.norm_check) = true) :
    (testing_her2k_batched_check env arg
        (testing_her2k_batched_init TWOK alpha beta A0 B0 C0 dC0 mode0)).trace.filterMap Her2kEvent.runInput
      = [(rocblas_pointer_mode_host, C0), (rocblas_pointer_mode_device, C0)]
    ∧ (testing_her2k_batched_check env arg
        (testing_her2k_batched_init TWOK alpha beta A0 B0 C0 dC0 mode0)).trace.filterMap Her2kEvent.referenceInput
      = (List.range arg.batch_count.toNat).map (fun b => (b, C0 b))
    ∧ (testing_trmm_check tenv targ (testing_trmm_init talpha TA0 TB0 TdB0 tmode0)).trace.filterMap TrmmEvent.runInput
      = [(rocblas_pointer_mode_host, TB0), (rocblas_pointer_mode_device, TB0)]
    ∧ (testing_trmm_check tenv targ (testing_trmm_init talpha TA0 TB0 TdB0 tmode0)).trace.filterMap TrmmEvent.referenceInput = [TB0] := by
  rw [testing_her2k_batched_check_trace env arg TWOK alpha beta A0 B0 C0 dC0 mode0 hc,
    testing_trmm_check_trace tenv targ talpha TA0 TB0 TdB0 tmode0 htc]
  have hmap1 : ∀ l : List Nat,
      List.filterMap Her2kEvent.runInput (l.map (fun b =>
        (Her2kEvent.herXX_ref_fn b alpha (A0 b) ((if TWOK then B0 else A0) b) beta (C0 b) :
          Her2kEvent M S U R))) = [] := by
    intro l
    induction l with
    | nil => rfl
    | cons a l ih => simp [Her2kEvent.runInput]
  have hmap2 : ∀ l : List Nat,
      List.filterMap Her2kEvent.referenceInput (l.map (fun b =>
        (Her2kEvent.herXX_ref_fn b alpha (A0 b) ((if TWOK then B0 else A0) b) beta (C0 b) :
          Her2kEvent M S U R))) = l.map (fun b => (b, C0 b)) := by
    intro l
    induction l with
    | nil => rfl
    | cons a l ih => simpa [Her2kEvent.referenceInput] using ih
  refine ⟨?_, ?_, ?_, ?_⟩
  · simp only [List.filterMap_append, hmap1]
    cases arg.unit_check <;> cases arg.norm_check <;> simp [Her2kEvent.runInput]
  · simp only [List.filterMap_append, hmap2]
    cases arg.unit_check <;> cases arg.norm_check <;> simp [Her2kEvent.referenceInput]
  · simp only [List.filterMap_append]
    cases targ.unit_check <;> cases targ.norm_check <;>
      cases (targ.is_half && decide ((if targ.side = rocblas_side.rocblas_side_left
        then targ.M else targ.N) > 10000)) <;> simp [TrmmEvent.runInput]
  · simp only [List.filterMap_append]
    cases targ.unit_check <;> cases targ.norm_check <;>
      cases (targ.is_half && decide ((if targ.side = rocblas_side.rocblas_side_left
        then targ.M else targ.N) > 10000)) <;> simp [TrmmEvent.referenceInput]

/-- C23 on small integer instances of both harnesses, with unit check on. -/
theorem C23_fresh_output_buffer_witness :
    (testing_trmm_check stubTrmmEnv (stubTrmmArguments true false)
        (testing_trmm_init 2 1 5 0 rocblas_pointer_mode_host)).trace.filterMap
        TrmmEvent.runInput
      = [(rocblas_pointer_mode_host, 5), (rocblas_pointer_mode_device, 5)] :=
  (C23_fresh_output_buffer stubHer2kEnv (stubHer2kArguments true false false 0 0) true 2 3
    (fun _ => 1) (fun _ => 1) (fun _ => 5) (fun _ => 0) rocblas_pointer_mode_host
    stubTrmmEnv (stubTrmmArguments true false) 2 1 5 0 rocblas_pointer_mode_host rfl rfl).2.2.1

end Oracle

section Timing

variable {M S U R : Type} (env : Her2kEnv M S U R) (arg : Her2kArguments)
  (s : Her2kState M S U R)

/-- C25: in timing mode `testing_her2k_batched` calls the routine exactly
`max(cold_iters, 0)` times before the first synchronised timestamp and exactly
`max(iters, 0)` times between the first and the second synchronised timestamp,
after which it only logs; so the measured interval covers the hot calls only
and the timing section makes `max(cold_iters, 0) + max(iters, 0)` calls. -/
theorem C25_timing_calls (ht : arg.timing = true) :
    ∃ cold hot : List (Her2kEvent M S U R),
      (testing_her2k_batched_timing env arg s).trace
        = s.trace ++ cold ++ [Her2kEvent.get_time_us_sync] ++ hot
          ++ [Her2kEvent.get_time_us_sync, Her2kEvent.log_args s.rocblas_error]
      ∧ (cold.length : Int) = max arg.cold_iters 0 ∧ (∀ e ∈ cold, e.isRun = true)
      ∧ (hot.length : Int) = max arg.iters 0 ∧ (∀ e ∈ hot, e.isRun = true)
      ∧ ((testing_her2k_batched_timing env arg s).trace.countP Her2kEvent.isRun : Int)
        = s.trace.countP Her2kEvent.isRun + (max arg.cold_iters 0 + max arg.iters 0) := by
  obtain ⟨cold, hc1, hc2, hc3, hc4⟩ := Her2kState.run_loop env arg
    { s with pointer_mode := rocblas_pointer_mode_host } arg.cold_iters
  obtain ⟨hot, hh1, hh2, hh3, hh4⟩ := Her2kState.run_loop env arg
    { (forLoop arg.cold_iters (fun _ s => Her2kState.timingCall env arg s)
        { s with pointer_mode := rocblas_pointer_mode_host }) with
      trace := (forLoop arg.cold_iters (fun _ s => Her2kState.timingCall env arg s)
        { s with pointer_mode := rocblas_pointer_mode_host }).trace
          ++ [Her2kEvent.get_time_us_sync] } arg.iters
  have htrace : (testing_her2k_batched_timing env arg s).trace
      = s.trace ++ cold ++ [Her2kEvent.get_time_us_sync] ++ hot
        ++ [Her2kEvent.get_time_us_sync, Her2kEvent.log_args s.rocblas_error] := by
    simp only [testing_her2k_batched_timing, ht, if_true]
    rw [hh1, hh4]
    simp only []
    rw [hc1, hc4]
    simp
  have hcl : (cold.length : Int) = max arg.cold_iters 0 := by
    rw [hc2, Int.toNat_eq_max]
  have hhl : (hot.length : Int) = max arg.iters 0 := by
    rw [hh2, Int.toNat_eq_max]
  have hcc : cold.countP Her2kEvent.isRun = cold.length := by
    rw [List.countP_eq_length]
    exact hc3
  have hhc : hot.countP Her2kEvent.isRun = hot.length := by
    rw [List.countP_eq_length]
    exact hh3
  refine ⟨cold, hot, htrace, hcl, hc3, hhl, hh3, ?_⟩
  rw [htrace]
  simp only [List.countP_append, List.countP_cons, List.countP_nil, Her2kEvent.isRun, hcc, hhc]
  push_cast
  rw [hcl, hhl]
  simp
  ring

/-- C25 at `cold_iters = 2`, `iters = 3` on a small integer instance. -/
theorem C25_timing_calls_witness :
    ∃ cold hot : List (Her2kEvent Int Int Int Int),
      (testing_her2k_batched_timing stubHer2kEnv (stubHer2kArguments false false true 2 3)
          (testing_her2k_batched_init true 2 3 (fun _ => 1) (fun _ => 1) (fun _ => 5)
            (fun _ => 0) rocblas_pointer_mode_host)).trace
        = [] ++ cold ++ [Her2kEvent.get_time_us_sync] ++ hot
          ++ [Her2kEvent.get_time_us_sync, Her2kEvent.log_args 0]
      ∧ (cold.length : Int) = max 2 0 ∧ (hot.length : Int) = max 3 0 := by
  obtain ⟨cold, hot, h1, h2, _, h4, _⟩ :=
    C25_timing_calls stubHer2kEnv (stubHer2kArguments false false true 2 3)
      (testing_her2k_batched_init true 2 3 (fun _ => 1) (fun _ => 1) (fun _ => 5)
        (fun _ => 0) rocblas_pointer_mode_host) rfl
  exact ⟨cold, hot, h1, h2, h4⟩

end Timing

end RocblasClients

namespace RocblasClients

open RocblasSpr rocblas_pointer_mode

section RotmLoop

variable {X T : Type} (env : RotmEnv X T) (arg : RotmArguments) (flag : T) (s : RotmState X T)

/-- The loop of lines 163-164 run for `n` batch elements. -/
theorem RotmState.setFlag_loop (n : Nat) :
    (List.range n).foldl (fun s b => RotmState.setFlag flag b s) s
      = { s with
          hparam := fun b => if b < n then Function.update (s.hparam b) 0 flag else s.hparam b } := by
  induction n with
  | zero => simp
  | succ n ih =>
    rw [List.range_succ, List.foldl_append, ih]
    simp only [List.foldl_cons, List.foldl_nil, RotmState.setFlag, lt_irrefl, if_false]
    congr 1
    funext b
    by_cases hb : b = n
    · subst hb
      simp
    · rw [Function.update_noteq hb]
      by_cases hlt : b < n
      · simp [hlt, Nat.lt_succ_of_lt hlt]
      · have : ¬ b < n + 1 := by omega
        simp [hlt, this]

/-- The reference loop of lines 170-173 run for `n` batch elements. -/
theorem RotmState.rotm_reference_loop (n : Nat) :
    (List.range n).foldl (fun s b => RotmState.reference env arg b s) s
      = { s with
          hx_gold := fun b =>
            if b < n then
              (env.cblas_rotm arg.N (s.hx_gold b) arg.incx (s.hy_gold b) arg.incy (s.hparam b)).1
            else s.hx_gold b
          hy_gold := fun b =>
            if b < n then
              (env.cblas_rotm arg.N (s.hx_gold b) arg.incx (s.hy_gold b) arg.incy (s.hparam b)).2
            else s.hy_gold b
          trace := s.trace ++ (List.range n).map (fun b =>
            RotmEvent.cblas_rotm b (s.hx_gold b) (s.hy_gold b) (s.hparam b)) } := by
  induction n with
  | zero => simp
  | succ n ih =>
    rw [List.range_succ, List.foldl_append, ih]
    simp only [List.foldl_cons, List.foldl_nil, RotmState.reference, List.map_append,
      List.map_cons, List.map_nil, lt_irrefl, if_false, List.append_assoc]
    congr 1
    · funext b
      by_cases hb : b = n
      · subst hb
        simp
      · rw [Function.update_noteq hb]
        by_cases hlt : b < n
        · simp [hlt, Nat.lt_succ_of_lt hlt]
        · have : ¬ b < n + 1 := by omega
          simp [hlt, this]
    · funext b
      by_cases hb : b = n
      · subst hb
        simp
      · rw [Function.update_noteq hb]
        by_cases hlt : b < n
        · simp [hlt, Nat.lt_succ_of_lt hlt]
        · have : ¬ b < n + 1 := by omega
          simp [hlt, this]

/-- The parameter vectors after one flag iteration. -/
theorem testing_rotm_batched_flag_hparam :
    (testing_rotm_batched_flag env arg flag s).hparam = (rotmFlagged arg.batch_count flag s.hparam) := by
  simp only [testing_rotm_batched_flag, forLoop, RotmState.setFlag_loop,
    RotmState.rotm_reference_loop]
  cases arg.unit_check <;> cases arg.norm_check <;> rfl

/-- The trace of one flag iteration with a check requested. -/
theorem testing_rotm_batched_flag_trace (hc : (arg.unit_check || arg.norm_check) = true) :
    (testing_rotm_batched_flag env arg flag s).trace
      = s.trace
        ++ (List.range arg.batch_count.toNat).map (fun b =>
            RotmEvent.cblas_rotm b (s.hx b) (s.hy b) ((rotmFlagged arg.batch_count flag s.hparam) b))
        ++ [RotmEvent.rocblas_rotm_batched_fn rocblas_pointer_mode_device s.hx s.hy
            (rotmFlagged arg.batch_count flag s.hparam)]
        ++ (if arg.unit_check then
            [RotmEvent.near_check_general
                (rotmReferenceX env arg s.hx s.hy (rotmFlagged arg.batch_count flag s.hparam))
                (env.rocblas_rotm_batched_fn rocblas_pointer_mode_device arg.N s.hx arg.incx s.hy arg.incy
          (rotmFlagged arg.batch_count flag s.hparam) arg.batch_count).1,
              RotmEvent.near_check_general
                (rotmReferenceY env arg s.hx s.hy (rotmFlagged arg.batch_count flag s.hparam))
                (env.rocblas_rotm_batched_fn rocblas_pointer_mode_device arg.N s.hx arg.incx s.hy arg.incy
          (rotmFlagged arg.batch_count flag s.hparam) arg.batch_count).2]
          else [])
        ++ (if arg.norm_check then
            [RotmEvent.norm_check_general
                (rotmReferenceX env arg s.hx s.hy (rotmFlagged arg.batch_count flag s.hparam))
                (env.rocblas_rotm_batched_fn rocblas_pointer_mode_device arg.N s.hx arg.incx s.hy arg.incy
          (rotmFlagged arg.batch_count flag s.hparam) arg.batch_count).1,
              RotmEvent.norm_check_general
                (rotmReferenceY env arg s.hx s.hy (rotmFlagged arg.batch_count flag s.hparam))
                (env.rocblas_rotm_batched_fn rocblas_pointer_mode_device arg.N s.hx arg.incx s.hy arg.incy
          (rotmFlagged arg.batch_count flag s.hparam) arg.batch_count).2]
          else []) := by
  have hX : rotmReferenceX env arg s.hx s.hy (rotmFlagged arg.batch_count flag s.hparam)
      = fun b => if b < arg.batch_count.toNat then
          (env.cblas_rotm arg.N (s.hx b) arg.incx (s.hy b) arg.incy
            ((rotmFlagged arg.batch_count flag s.hparam) b)).1
        else s.hx b := rfl
  have hY : rotmReferenceY env arg s.hx s.hy (rotmFlagged arg.batch_count flag s.hparam)
      = fun b => if b < arg.batch_count.toNat then
          (env.cblas_rotm arg.N (s.hx b) arg.incx (s.hy b) arg.incy
            ((rotmFlagged arg.batch_count flag s.hparam) b)).2
        else s.hy b := rfl
  have hP : (rotmFlagged arg.batch_count flag s.hparam)
      = fun b => if b < arg.batch_count.toNat then Function.update (s.hparam b) 0 flag
        else s.hparam b := rfl
  rw [hX, hY]
  simp only [testing_rotm_batched_flag, hc, if_true, forLoop, RotmState.setFlag_loop,
    RotmState.rotm_reference_loop, hP]
  cases hu : arg.unit_check <;> cases hn : arg.norm_check
  · rw [hu, hn] at hc
    exact Bool.noConfusion hc
  · simp
  · simp
  · simp

/-- The host vectors after one flag iteration with a check requested: what the
routine left in `dx` and `dy`. -/
theorem testing_rotm_batched_flag_hx (hc : (arg.unit_check || arg.norm_check) = true) :
    (testing_rotm_batched_flag env arg flag s).hx = (env.rocblas_rotm_batched_fn rocblas_pointer_mode_device arg.N s.hx arg.incx s.hy arg.incy
          (rotmFlagged arg.batch_count flag s.hparam) arg.batch_count).1
    ∧ (testing_rotm_batched_flag env arg flag s).hy = (env.rocblas_rotm_batched_fn rocblas_pointer_mode_device arg.N s.hx arg.incx s.hy arg.incy
          (rotmFlagged arg.batch_count flag s.hparam) arg.batch_count).2 := by
  have hP : (rotmFlagged arg.batch_count flag s.hparam)
      = fun b => if b < arg.batch_count.toNat then Function.update (s.hparam b) 0 flag
        else s.hparam b := rfl
  simp only [testing_rotm_batched_flag, hc, if_true, forLoop, RotmState.setFlag_loop,
    RotmState.rotm_reference_loop, hP]
  cases hu : arg.unit_check <;> cases hn : arg.norm_check
  · rw [hu, hn] at hc
    exact Bool.noConfusion hc
  · exact ⟨rfl, rfl⟩
  · exact ⟨rfl, rfl⟩
  · exact ⟨rfl, rfl⟩

end RotmLoop

end RocblasClients

namespace RocblasClients

open RocblasSpr rocblas_pointer_mode

section RotmClaims

variable {X T : Type} (env : RotmEnv X T) (arg : RotmArguments) (flag : T) (s : RotmState X T)

/-- C21 as stated fails: with unit and norm check requested (`N = 1`,
`batch_count = 1`) the flag loop of `testing_rotm_batched` calls the routine
four times in all, once per flag and each time in device pointer mode; there is
no call in host pointer mode. -/
theorem C21_pointer_modes_counterexample :
    (testing_rotm_batched_check_loop stubRotmEnv ⟨1, 1, 1, 1, true, true, false⟩
        stubRotmState).trace.filterMap RotmEvent.runMode
      = [rocblas_pointer_mode_device, rocblas_pointer_mode_device,
          rocblas_pointer_mode_device, rocblas_pointer_mode_device] := by
  decide

/-- C21, amended: when `unit_check` or `norm_check` is requested,
`testing_rotm_batched` calls `rocblas_rotm_batched` once for each flag value,
in device pointer mode only (four calls over the flag loop); the call is made
on `dx`, `dy`, `dparam` freshly transferred from the current `hx`, `hy`,
`hparam`, and its results are compared (near check when `unit_check`, norm
check when `norm_check`) against the host reference computed from the same
`hx`, `hy`, `hparam`. -/
theorem C21_device_mode_only [IntCast T] (hc : (arg.unit_check || arg.norm_check) = true) :
    (testing_rotm_batched_flag env arg flag s).trace.filterMap RotmEvent.runMode
      = s.trace.filterMap RotmEvent.runMode ++ [rocblas_pointer_mode_device]
    ∧ (testing_rotm_batched_check_loop env arg s).trace.filterMap RotmEvent.runMode
      = s.trace.filterMap RotmEvent.runMode
        ++ [rocblas_pointer_mode_device, rocblas_pointer_mode_device,
            rocblas_pointer_mode_device, rocblas_pointer_mode_device]
    ∧ RotmEvent.rocblas_rotm_batched_fn rocblas_pointer_mode_device s.hx s.hy
        (rotmFlagged arg.batch_count flag s.hparam) ∈ (testing_rotm_batched_flag env arg flag s).trace
    ∧ (arg.unit_check = true →
        RotmEvent.near_check_general
            (rotmReferenceX env arg s.hx s.hy (rotmFlagged arg.batch_count flag s.hparam))
            (env.rocblas_rotm_batched_fn rocblas_pointer_mode_device arg.N s.hx arg.incx s.hy
            arg.incy (rotmFlagged arg.batch_count flag s.hparam) arg.batch_count).1
          ∈ (testing_rotm_batched_flag env arg flag s).trace
        ∧ RotmEvent.near_check_general
            (rotmReferenceY env arg s.hx s.hy (rotmFlagged arg.batch_count flag s.hparam))
            (env.rocblas_rotm_batched_fn rocblas_pointer_mode_device arg.N s.hx arg.incx s.hy
            arg.incy (rotmFlagged arg.batch_count flag s.hparam) arg.batch_count).2
          ∈ (testing_rotm_batched_flag env arg flag s).trace)
    ∧ (arg.norm_check = true →
        RotmEvent.norm_check_general
            (rotmReferenceX env arg s.hx s.hy (rotmFlagged arg.batch_count flag s.hparam))
            (env.rocblas_rotm_batched_fn rocblas_pointer_mode_device arg.N s.hx arg.incx s.hy
            arg.incy (rotmFlagged arg.batch_count flag s.hparam) arg.batch_count).1
          ∈ (testing_rotm_batched_flag env arg flag s).trace
        ∧ RotmEvent.norm_check_general
            (rotmReferenceY env arg s.hx s.hy (rotmFlagged arg.batch_count flag s.hparam))
            (env.rocblas_rotm_batched_fn rocblas_pointer_mode_device arg.N s.hx arg.incx s.hy
            arg.incy (rotmFlagged arg.batch_count flag s.hparam) arg.batch_count).2
          ∈ (testing_rotm_batched_flag env arg flag s).trace) := by
  have hmap : ∀ (l : List Nat) (f : Nat → X) (g : Nat → X) (p : Nat → Nat → T),
      List.filterMap RotmEvent.runMode (l.map (fun b =>
        (RotmEvent.cblas_rotm b (f b) (g b) (p b) : RotmEvent X T))) = [] := by
    intro l f g p
    induction l with
    | nil => rfl
    | cons a l ih => simp [RotmEvent.runMode]
  have hone : ∀ (fl : T) (t : RotmState X T),
      (testing_rotm_batched_flag env arg fl t).trace.filterMap RotmEvent.runMode
        = t.trace.filterMap RotmEvent.runMode ++ [rocblas_pointer_mode_device] := by
    intro fl t
    rw [testing_rotm_batched_flag_trace env arg fl t hc]
    simp only [List.filterMap_append, hmap]
    cases arg.unit_check <;> cases arg.norm_check <;> simp [RotmEvent.runMode]
  refine ⟨hone flag s, ?_, ?_, ?_, ?_⟩
  · simp only [testing_rotm_batched_check_loop, FLAGS, List.foldl_cons, List.foldl_nil, hone,
      List.append_assoc, List.singleton_append, List.cons_append, List.nil_append]
  · rw [testing_rotm_batched_flag_trace env arg flag s hc]
    simp
  · intro hu
    rw [testing_rotm_batched_flag_trace env arg flag s hc]
    simp [hu]
  · intro hn
    rw [testing_rotm_batched_flag_trace env arg flag s hc]
    simp [hn]

/-- C21 amended, on a small integer instance with unit check on: the iteration
for flag `-1` makes one call, in device pointer mode. -/
theorem C21_device_mode_only_witness :
    (testing_rotm_batched_flag stubRotmEnv ⟨1, 1, 1, 1, true, false, false⟩ (-1)
        stubRotmState).trace.filterMap RotmEvent.runMode
      = stubRotmState.trace.filterMap RotmEvent.runMode ++ [rocblas_pointer_mode_device] :=
  (C21_device_mode_only stubRotmEnv ⟨1, 1, 1, 1, true, false, false⟩ (-1) stubRotmState rfl).1

/-- C28: the flag loop of `testing_rotm_batched` runs the iterations for the
flags -1, 0, 1, -2 in this order. In every iteration the flag is written to
`hparam[b][0]` of every batch `b`; with a check requested, the vectors given to
the host reference and the vectors transferred to the device are copies of the
same `hx`, `hy` (those at the start of the iteration), and both are given the
same `hparam`; and after the iteration `hx` and `hy` hold the device outputs,
which are therefore the inputs of the next flag. -/
theorem C28_flag_iteration [IntCast T] (hc : (arg.unit_check || arg.norm_check) = true) :
    testing_rotm_batched_check_loop env arg s
      = testing_rotm_batched_flag env arg ((-2 : Int) : T)
          (testing_rotm_batched_flag env arg ((1 : Int) : T)
            (testing_rotm_batched_flag env arg ((0 : Int) : T)
              (testing_rotm_batched_flag env arg ((-1 : Int) : T) s)))
    ∧ (∀ b : Nat, b < arg.batch_count.toNat → (testing_rotm_batched_flag env arg flag s).hparam b 0 = flag)
    ∧ (testing_rotm_batched_flag env arg flag s).trace.filterMap RotmEvent.referenceInput
      = s.trace.filterMap RotmEvent.referenceInput
        ++ (List.range arg.batch_count.toNat).map (fun b => (b, s.hx b, s.hy b, (testing_rotm_batched_flag env arg flag s).hparam b))
    ∧ (testing_rotm_batched_flag env arg flag s).trace.filterMap RotmEvent.deviceInput
      = s.trace.filterMap RotmEvent.deviceInput ++ [(s.hx, s.hy, (testing_rotm_batched_flag env arg flag s).hparam)]
    ∧ (testing_rotm_batched_flag env arg flag s).hx = (env.rocblas_rotm_batched_fn rocblas_pointer_mode_device arg.N s.hx arg.incx s.hy
            arg.incy (rotmFlagged arg.batch_count flag s.hparam) arg.batch_count).1
    ∧ (testing_rotm_batched_flag env arg flag s).hy = (env.rocblas_rotm_batched_fn rocblas_pointer_mode_device arg.N s.hx arg.incx s.hy
            arg.incy (rotmFlagged arg.batch_count flag s.hparam) arg.batch_count).2 := by
  have hmap1 : ∀ (l : List Nat),
      List.filterMap RotmEvent.referenceInput (l.map (fun b =>
        (RotmEvent.cblas_rotm b (s.hx b) (s.hy b) ((rotmFlagged arg.batch_count flag s.hparam) b) : RotmEvent X T)))
      = l.map (fun b => (b, s.hx b, s.hy b, (rotmFlagged arg.batch_count flag s.hparam) b)) := by
    intro l
    induction l with
    | nil => rfl
    | cons a l ih => simpa [RotmEvent.referenceInput] using ih
  have hmap2 : ∀ (l : List Nat),
      List.filterMap RotmEvent.deviceInput (l.map (fun b =>
        (RotmEvent.cblas_rotm b (s.hx b) (s.hy b) ((rotmFlagged arg.batch_count flag s.hparam) b) : RotmEvent X T))) = [] := by
    intro l
    induction l with
    | nil => rfl
    | cons a l ih => simp [RotmEvent.deviceInput]
  refine ⟨rfl, ?_, ?_, ?_, (testing_rotm_batched_flag_hx env arg flag s hc).1,
    (testing_rotm_batched_flag_hx env arg flag s hc).2⟩
  · intro b hb
    rw [testing_rotm_batched_flag_hparam]
    simp [rotmFlagged, hb]
  · rw [testing_rotm_batched_flag_hparam, testing_rotm_batched_flag_trace env arg flag s hc]
    simp only [List.filterMap_append, hmap1]
    cases arg.unit_check <;> cases arg.norm_check <;> simp [RotmEvent.referenceInput]
  · rw [testing_rotm_batched_flag_hparam, testing_rotm_batched_flag_trace env arg flag s hc]
    simp only [List.filterMap_append, hmap2]
    cases arg.unit_check <;> cases arg.norm_check <;> simp [RotmEvent.deviceInput]

/-- C28 on a small integer instance: after the iteration for flag `-1` the host
`x` of batch 0 is the device output `10 + (-1)`. -/
theorem C28_flag_iteration_witness :
    (testing_rotm_batched_flag stubRotmEnv ⟨1, 1, 1, 1, true, false, false⟩ (-1)
        stubRotmState).hx
      = (stubRotmEnv.rocblas_rotm_batched_fn rocblas_pointer_mode_device 1 stubRotmState.hx 1
          stubRotmState.hy 1 (rotmFlagged 1 (-1) stubRotmState.hparam) 1).1 :=
  (C28_flag_iteration stubRotmEnv ⟨1, 1, 1, 1, true, false, false⟩ (-1) stubRotmState
    rfl).2.2.2.2.1

end RotmClaims

end RocblasClients

namespace RocblasClients

open RocblasSpr

section TestName

/-- The digit characters of the values below ten, and their values. -/
theorem digitChar_spec : ∀ n : Nat, n < 10 →
    (Nat.digitChar n).isDigit = true ∧ (Nat.digitChar n).toNat - 48 = n := by
  decide

/-- The value of a digit string read in base ten. -/
theorem decimalDigits_spec (n : Nat) :
    decimalDigits n ≠ [] ∧ (∀ c ∈ decimalDigits n, c.isDigit = true)
      ∧ (decimalDigits n).foldl (fun a c => 10 * a + (c.toNat - 48)) 0 = n := by
  induction n using Nat.strong_induction_on with
  | _ n ih =>
    rw [decimalDigits]
    by_cases hn : n < 10
    · rw [if_pos hn]
      refine ⟨by simp, ?_, ?_⟩
      · intro c hc
        rw [List.mem_singleton.1 hc]
        exact (digitChar_spec n hn).1
      · simp [(digitChar_spec n hn).2]
    · rw [if_neg hn]
      have hlt : n / 10 < n := by omega
      have hmod : n % 10 < 10 := Nat.mod_lt _ (by decide)
      obtain ⟨_, h2, h3⟩ := ih (n / 10) hlt
      refine ⟨by simp, ?_, ?_⟩
      · intro c hc
        rcases List.mem_append.1 hc with hc | hc
        · exact h2 c hc
        · rw [List.mem_singleton.1 hc]
          exact (digitChar_spec _ hmod).1
      · rw [List.foldl_append, h3]
        simp only [List.foldl_cons, List.foldl_nil, (digitChar_spec _ hmod).2]
        omega

/-- Different numbers have different digit strings. -/
theorem decimalDigits_injective {m n : Nat} (h : decimalDigits m = decimalDigits n) : m = n := by
  have h1 := (decimalDigits_spec m).2.2
  have h2 := (decimalDigits_spec n).2.2
  rw [h] at h1
  exact h1.symm.trans h2

/-- No underscore is inserted for an `int`. -/
theorem ostream_int_chars_no_underscore (i : Int) : '_' ∉ ostream_int_chars i := by
  unfold ostream_int_chars
  intro hmem
  split at hmem
  · rcases List.mem_cons.1 hmem with h1 | h1
    · exact absurd h1 (by decide)
    · exact absurd ((decimalDigits_spec _).2.1 _ h1) (by decide)
  · exact absurd ((decimalDigits_spec _).2.1 _ hmem) (by decide)

/-- Different `int` values are inserted as different character sequences. -/
theorem ostream_int_chars_injective {i j : Int} (h : ostream_int_chars i = ostream_int_chars j) :
    i = j := by
  unfold ostream_int_chars at h
  by_cases hi : i < 0 <;> by_cases hj : j < 0
  · rw [if_pos hi, if_pos hj] at h
    have := decimalDigits_injective (List.cons.inj h).2
    omega
  · rw [if_pos hi, if_neg hj] at h
    exfalso
    have hne := (decimalDigits_spec j.toNat).1
    have hd := (decimalDigits_spec j.toNat).2.1
    rw [← h] at hd
    exact absurd (hd '-' (List.mem_cons_self _ _)) (by decide)
  · rw [if_neg hi, if_pos hj] at h
    exfalso
    have hd := (decimalDigits_spec i.toNat).2.1
    rw [h] at hd
    exact absurd (hd '-' (List.mem_cons_self _ _)) (by decide)
  · rw [if_neg hi, if_neg hj] at h
    have := decimalDigits_injective h
    omega

/-- Two fields that hold no underscore and are each followed by an underscore
agree when the sequences they start agree, and so do the remainders. -/
theorem append_underscore_inj {a b r t : List Char} (ha : '_' ∉ a) (hb : '_' ∉ b)
    (h : a ++ '_' :: r = b ++ '_' :: t) : a = b ∧ r = t := by
  induction a generalizing b with
  | nil =>
    cases b with
    | nil => exact ⟨rfl, (List.cons.inj h).2⟩
    | cons c b =>
      exfalso
      have := (List.cons.inj h).1
      exact hb (by rw [this]; exact List.mem_cons_self _ _)
  | cons c a ih =>
    cases b with
    | nil =>
      exfalso
      have := (List.cons.inj h).1
      exact ha (by rw [← this]; exact List.mem_cons_self _ _)
    | cons d b =>
      have h1 := List.cons.inj h
      have := ih (fun hm => ha (List.mem_cons_of_mem _ hm))
        (fun hm => hb (List.mem_cons_of_mem _ hm)) h1.2
      exact ⟨by rw [h1.1, this.1], this.2⟩

variable (rocblas_datatype2string : rocblas_datatype → String)

/-- C30: for the suite `rotm_batched` and an `arg.function` that does not
contain `_bad_arg`, `name_suffix` inserts, in this order, the `a_type` string,
then `_` and `N`, `_` and `incx`, `_` and `incy`, `_` and `batch_count` (no
stride field), then `_F` exactly when `arg.fortran`; two such `Arguments` with
the same `a_type` and `fortran` flag therefore get the same insertions only if
their `N`, `incx`, `incy` and `batch_count` are equal. If `arg.function`
contains `_bad_arg`, the insertions are the `a_type` string and `_bad_arg`. -/
theorem C30_rotm_batched_name_suffix (arg arg2 : Arguments) :
    (strstr_found arg.function.data "_bad_arg".data = false →
      name_suffix rocblas_datatype2string blas1.rotm_batched arg
        = rocblas_datatype2string arg.a_type ++ "_" ++ ostream_int arg.N ++ "_"
          ++ ostream_int arg.incx ++ "_" ++ ostream_int arg.incy ++ "_"
          ++ ostream_int arg.batch_count ++ (if arg.fortran then "_F" else ""))
    ∧ (strstr_found arg.function.data "_bad_arg".data = false →
      strstr_found arg2.function.data "_bad_arg".data = false →
      arg.a_type = arg2.a_type → arg.fortran = arg2.fortran →
      name_suffix rocblas_datatype2string blas1.rotm_batched arg
        = name_suffix rocblas_datatype2string blas1.rotm_batched arg2 →
      arg.N = arg2.N ∧ arg.incx = arg2.incx ∧ arg.incy = arg2.incy
        ∧ arg.batch_count = arg2.batch_count)
    ∧ (strstr_found arg.function.data "_bad_arg".data = true →
      name_suffix rocblas_datatype2string blas1.rotm_batched arg
        = rocblas_datatype2string arg.a_type ++ "_bad_arg") := by
  have hform : ∀ a : Arguments, strstr_found a.function.data "_bad_arg".data = false →
      name_suffix rocblas_datatype2string blas1.rotm_batched a
        = rocblas_datatype2string a.a_type ++ "_" ++ ostream_int a.N ++ "_"
          ++ ostream_int a.incx ++ "_" ++ ostream_int a.incy ++ "_"
          ++ ostream_int a.batch_count ++ (if a.fortran then "_F" else "") := by
    intro a ha
    simp only [name_suffix, ha]
    cases a.fortran <;> simp
  refine ⟨hform arg, ?_, ?_⟩
  · intro h1 h2 hty hfo heq
    rw [hform arg h1, hform arg2 h2, hty, hfo] at heq
    have hd := congrArg String.data heq
    simp only [String.data_append, ostream_int, List.append_assoc] at hd
    have hd := List.append_cancel_left hd
    have hd := List.append_cancel_left hd
    have e1 := append_underscore_inj (ostream_int_chars_no_underscore _)
      (ostream_int_chars_no_underscore _) hd
    have e2 := append_underscore_inj (ostream_int_chars_no_underscore _)
      (ostream_int_chars_no_underscore _) e1.2
    have e3 := append_underscore_inj (ostream_int_chars_no_underscore _)
      (ostream_int_chars_no_underscore _) e2.2
    have e4 : ostream_int_chars arg.batch_count ++ (if arg2.fortran then "_F" else "").data
        = ostream_int_chars arg2.batch_count ++ (if arg2.fortran then "_F" else "").data := e3.2
    have e4 := List.append_cancel_right e4
    exact ⟨ostream_int_chars_injective e1.1, ostream_int_chars_injective e2.1,
      ostream_int_chars_injective e3.1, ostream_int_chars_injective e4⟩
  · intro h
    simp only [name_suffix, h, if_true]

/-- C30 for `rotm_batched` with `N = 5`, `incx = 1`, `incy = -1`,
`batch_count = 3`, Fortran convention. -/
theorem C30_rotm_batched_name_suffix_witness :
    name_suffix stubDatatype2string blas1.rotm_batched
        ⟨"rotm_batched_small", "rotm_batched", 151, 151, 151, 5, 1, -1, 0, 0, 0, 0, 0, 0, 3, true⟩
      = stubDatatype2string 151 ++ "_" ++ ostream_int 5 ++ "_" ++ ostream_int 1 ++ "_"
          ++ ostream_int (-1) ++ "_" ++ ostream_int 3 ++ (if true then "_F" else "") :=
  (C30_rotm_batched_name_suffix stubDatatype2string
    ⟨"rotm_batched_small", "rotm_batched", 151, 151, 151, 5, 1, -1, 0, 0, 0, 0, 0, 0, 3, true⟩
    ⟨"rotm_batched_small", "rotm_batched", 151, 151, 151, 5, 1, -1, 0, 0, 0, 0, 0, 0, 3,
      true⟩).1 (by decide)

end TestName

end RocblasClients
